import Mathlib

/-!
# Flexisip media relay module: signalling-side orchestration

Shallow embedding of `src/module-mediarelay.cc` (class `MediaRelay`): `onLoad`,
`processNewInvite`, `configureContext`, `onRequest`, `isEarlyMedia`,
`processResponseWithSDP` and `onResponse`.

The module drives three collaborators whose code is not part of the sources at hand
(`CallStore`, `RelayedCall`, `MediaRelayServer`), plus the `SdpModifier`.  The first three
are taken as a parameter: everything behind their interfaces is one state of an arbitrary
type `H`, and `Backend H` lists the member functions the module calls.  A call context
(`shared_ptr<RelayedCall>`) is a reference `CallRef` into that state.  Every call the
module makes on a collaborator, on the event or on the agent is appended to a trace of
`Action`s, so that "is invoked", "is answered" and "is never called" are statements about
the trace.

The last part of the definitions embeds `RegistrarDbRedisSync::connect` of
`src/registrardb-redis-sync.cc`, with the hiredis library as a parameter.
-/

namespace Flexisip

/-- Identity of a call context (the target of a `shared_ptr<RelayedCall>`). -/
abbrev CallRef := Nat

/-- The request methods the module distinguishes (`sip_method_t`). -/
inductive SipMethod where
  | invite
  | ack
  | bye
  | cancel
  | register
  | options
  | other
deriving DecidableEq, Repr

/-- One ICE candidate written for a media line: relay side and destination side. -/
structure IceCandidate where
  relayAddr : String
  relayPort : Nat
  destAddr : String
  destPort : Nat
deriving DecidableEq, Repr

/-- One media line of an SDP body: the declared address and port, and its ICE candidates. -/
structure MediaLine where
  addr : String
  port : Nat
  candidates : List IceCandidate
deriving DecidableEq, Repr

/-- Modelled from the spec: the parsed session description held by an `SdpModifier`
(`sdp-modifier.hh` is not among the sources): its media lines in order and its attributes
as (name, value) pairs. -/
structure Sdp where
  media : List MediaLine
  attributes : List (String × String)
deriving DecidableEq, Repr

/-- The fields of a SIP message (`sip_t`) that the module reads or writes.
`fromTag`/`toTag` are `none` when the header or its tag is `NULL`; `cseqMethod` is `none`
when `sip_cseq` is `NULL`; `payload` is `none` when `sip_payload` is `NULL`, `some none` when
there is a payload that does not parse as SDP, `some (some s)` when it parses to `s`.
`auth` stands for the authentication challenge headers, the only part
`fixAuthChallengeForSDP` touches.  The Via header, the To header of an INVITE and
the status line of a response, which the source reads without a test, are taken as
present. -/
structure Sip where
  callId : String
  method : SipMethod
  status : Nat
  cseqMethod : Option SipMethod
  fromTag : Option String
  toTag : Option String
  viaReceived : Option String
  viaHost : String
  requestHost : Option String
  auth : Option String
  payload : Option (Option Sdp)
deriving DecidableEq, Repr

/-- An incoming transaction: its `MediaRelay` property. -/
structure IncomingTransaction where
  property : Option CallRef
deriving DecidableEq, Repr

/-- An outgoing transaction: its branch id and its `MediaRelay` property. -/
structure OutgoingTransaction where
  branchId : String
  property : Option CallRef
deriving DecidableEq, Repr

/-- A SIP event: the message, the incoming and outgoing agents when they are transactions
(`dynamic_pointer_cast` gives `NULL`, here `none`, otherwise), and the branch id an outgoing
transaction created for this event gets. -/
structure SipEvent where
  msg : Sip
  incoming : Option IncomingTransaction
  outgoing : Option OutgoingTransaction
  freshBranch : String
deriving DecidableEq, Repr

/-- The calls the module makes on its collaborators, on the event and on the agent. -/
inductive Action where
  | createIncomingTransaction
  | createOutgoingTransaction
  | find
  | findEstablishedDialog
  | makeCall (c : CallRef)
  | setIncomingProperty (c : CallRef)
  | enableH264IFrameFiltering (c : CallRef) (bandwidth decim : Int)
  | enableTelephoneEventDrooping (c : CallRef)
  | initChannels (c : CallRef) (tag branch localIp remoteIp : String)
  | setChannelDestinations (c : CallRef) (idx : Nat) (addr : String) (port : Nat)
      (tag branch : String) (early : Bool)
  | masquerade (c : CallRef) (tag branch : String)
  | addIceCandidate (c : CallRef) (srcTag dstTag branch : String)
  | addAttribute (name value : String)
  | sdpUpdate (s : Sdp)
  | serverUpdate
  | reply (status : Nat) (phrase : String)
  | addRecordRouteIncoming
  | store (c : CallRef)
  | setOutgoingProperty (c : CallRef)
  | remove (c : CallRef)
  | fixAuthChallengeForSDP
  | establishDialogWith200Ok (c : CallRef)
  | setEstablished (c : CallRef) (branch : String)
  | removeBranch (c : CallRef) (branch : String)
  | ackbye
  | terminateProcessing
deriving DecidableEq, Repr

/-- The member functions of `CallStore`, `RelayedCall`, `MediaRelayServer`, `Agent` and
`ModuleToolbox` that the module calls, over the state `H` of everything behind them.
`find` and `findEstablishedDialog` include the `dynamic_pointer_cast<RelayedCall>` of the
source: they give `none` when the store has no relayed call for the message. -/
structure Backend (H : Type) where
  find : H → Sip → Option CallRef
  findEstablishedDialog : H → Sip → Option CallRef
  store : H → CallRef → H
  remove : H → CallRef → H
  size : H → Int
  makeCall : H → Sip → CallRef × H
  enableH264IFrameFiltering : H → CallRef → Int → Int → H
  enableTelephoneEventDrooping : H → CallRef → Bool → H
  initChannels : H → CallRef → Sdp → String → String → String → String → H
  checkMediaValid : H → CallRef → Bool
  setChannelDestinations : H → CallRef → Sdp → Nat → String → Nat → String → String → Bool → H
  getChannelSources : H → CallRef → Nat → String → String → String × Nat
  getChannelDestinations : H → CallRef → Nat → String → String → String × Nat
  isDialogEstablished : H → CallRef → Bool
  establishDialogWith200Ok : H → CallRef → Sip → H
  setEstablished : H → CallRef → String → H
  removeBranch : H → CallRef → String → H
  getCalleeTag : H → CallRef → String
  serverUpdate : H → H
  getPreferredIp : String → String
  fixAuthChallengeForSDP : Option String → Option String

/-- What a handler runs on: the collaborators, the event being handled and the trace. -/
structure State (H : Type) where
  backend : H
  ev : SipEvent
  trace : List Action

/-- Append one action to the trace. -/
def State.emit {H : Type} (st : State H) (a : Action) : State H :=
  { st with trace := st.trace ++ [a] }

/-- A handler started on a backend state and an event, with an empty trace. -/
def State.start {H : Type} (h : H) (ev : SipEvent) : State H :=
  { backend := h, ev := ev, trace := [] }

/-! ## The SdpModifier -/

/-- Modelled from the spec: `SdpModifier::createFromSipMsg` (not among the sources),
"null on unparsable SDP": the parsed body of the message, if it has one that parses. -/
def createFromSipMsg (sip : Sip) : Option Sdp :=
  sip.payload.join

/-- Modelled from the spec: `SdpModifier::hasAttribute(name)` (not among the sources): the
session has an attribute of that name. -/
def Sdp.hasAttribute (m : Sdp) (name : String) : Bool :=
  m.attributes.any (fun a => a.1 == name)

/-- Modelled from the spec: `SdpModifier::addAttribute(name, value)` (not among the
sources): one attribute more. -/
def Sdp.addAttribute (m : Sdp) (name value : String) : Sdp :=
  { m with attributes := m.attributes ++ [(name, value)] }

/-- Iteration over media lines from index `i` on: the callback gets the index, the declared
address and the declared port. -/
def iterateFrom {σ : Type} (cb : Nat → String → Nat → σ → σ) : Nat → List MediaLine → σ → σ
  | _, [], s => s
  | i, l :: ls, s => iterateFrom cb (i + 1) ls (cb i l.addr l.port s)

/-- Modelled from the spec: `SdpModifier::iterate(callback)` (not among the sources), the
callback "invoked once per SDP media line" with `(mediaIndex, addr, port)`, in order. -/
def Sdp.iterate {σ : Type} (m : Sdp) (cb : Nat → String → Nat → σ → σ) (s : σ) : σ :=
  iterateFrom cb 0 m.media s

/-- Rewriting of the media lines from index `i` on. -/
def masqueradeFrom (src : Nat → String × Nat) : Nat → List MediaLine → List MediaLine
  | _, [] => []
  | i, l :: ls => { l with addr := (src i).1, port := (src i).2 } :: masqueradeFrom src (i + 1) ls

/-- Modelled from the spec: `SdpModifier::masquerade(sourceProvider)` (not among the
sources): every media line gets the address and port the provider gives for its index. -/
def Sdp.masquerade (m : Sdp) (src : Nat → String × Nat) : Sdp :=
  { m with media := masqueradeFrom src 0 m.media }

/-- Candidate attributes of the media lines from index `i` on. -/
def addIceCandidateFrom (src dst : Nat → String × Nat) : Nat → List MediaLine → List MediaLine
  | _, [] => []
  | i, l :: ls =>
    { l with candidates := l.candidates ++ [⟨(src i).1, (src i).2, (dst i).1, (dst i).2⟩] }
      :: addIceCandidateFrom src dst (i + 1) ls

/-- Modelled from the spec: `SdpModifier::addIceCandidate(sourceProvider, destProvider)`
(not among the sources), which mirrors the substitution into the ICE candidate
attributes: it writes candidate attributes and leaves the declared address and port of
every media line as they are. -/
def Sdp.addIceCandidate (m : Sdp) (src dst : Nat → String × Nat) : Sdp :=
  { m with media := addIceCandidateFrom src dst 0 m.media }

/-- Modelled from the spec: `SdpModifier::update(msg, sip)` (not among the sources), which
"commits rewritten SDP back into the message". -/
def Sdp.update (m : Sdp) (sip : Sip) : Sip :=
  { sip with payload := some (some m) }

/-! ## The module -/

/-- The configuration values read by `onLoad`. -/
structure ModConf where
  nortpproxy : String
  byeOrphanDialogs : Bool
  h264FilteringBandwidth : Int
  h264IframeDecim : Int
  dropTelephoneEvent : Bool
  maxCalls : Int
deriving DecidableEq, Repr

/-- The data members of `MediaRelay` set by `onLoad`.  `specificFeatures` is the build
option `MEDIARELAY_SPECIFIC_FEATURES_ENABLED`. -/
structure MediaRelay where
  specificFeatures : Bool
  mSdpMangledParam : String
  mH264FilteringBandwidth : Int
  mH264Decim : Int
  mMaxCalls : Int
  mDropTelephoneEvent : Bool
  mByeOrphanDialogs : Bool
deriving DecidableEq, Repr

/-- `MediaRelay::onLoad`: the marker name is the configured `nortpproxy`, cleared when it
is "disable". -/
def MediaRelay.onLoad (specificFeatures : Bool) (modconf : ModConf) : MediaRelay :=
  let param := modconf.nortpproxy
  { specificFeatures := specificFeatures
    mSdpMangledParam := if param = "disable" then "" else param
    mByeOrphanDialogs := modconf.byeOrphanDialogs
    mH264FilteringBandwidth := if specificFeatures then modconf.h264FilteringBandwidth else 0
    mH264Decim := if specificFeatures then modconf.h264IframeDecim else 0
    mDropTelephoneEvent := if specificFeatures then modconf.dropTelephoneEvent else false
    mMaxCalls := modconf.maxCalls }

/-- The static function `isEarlyMedia`: a 180 or a 183 that has a payload. -/
def isEarlyMedia (sip : Sip) : Bool :=
  if sip.status = 180 ∨ sip.status = 183 then sip.payload.isSome else false

variable {H : Type}

/-- The host the request came from (lines 157-161): the Via "received" parameter when
there is one, the Via host otherwise. -/
def fromHost (sip : Sip) : String :=
  match sip.viaReceived with
  | some received => received
  | none => sip.viaHost

/-- The host the request goes to (lines 167-169): the host of the request URI, empty when
there is none. -/
def destHost (sip : Sip) : String :=
  sip.requestHost.getD ""

/-- The callback bound for `SdpModifier::iterate`: `RelayedCall::setChannelDestinations`
with the modifier, the tag, the branch id and the early-media flag fixed. -/
def setChannelDestinationsCb (B : Backend H) (c : CallRef) (m : Sdp) (tag branch : String)
    (early : Bool) (idx : Nat) (addr : String) (port : Nat) (st : State H) : State H :=
  State.emit
    { st with backend := B.setChannelDestinations st.backend c m idx addr port tag branch early }
    (Action.setChannelDestinations c idx addr port tag branch early)

/-- `MediaRelay::processNewInvite(c, transaction, ev)`; of the transaction only the branch
id is used. -/
def MediaRelay.processNewInvite (B : Backend H) (self : MediaRelay) (c : CallRef)
    (branchId : String) (st : State H) : Bool × State H :=
  let sip := st.ev.msg
  match sip.fromTag with
  | none => (false, st)
  | some from_tag =>
    match createFromSipMsg sip with
    | none => (false, st)
    | some m =>
      let from_host := fromHost sip
      let to_tag := sip.toTag.getD ""
      let dest_host := destHost sip
      if m.hasAttribute self.mSdpMangledParam then (false, st)
      else
        let st1 := State.emit
          { st with backend := B.initChannels st.backend c m from_tag branchId
                      (B.getPreferredIp from_host) (B.getPreferredIp dest_host) }
          (Action.initChannels c from_tag branchId (B.getPreferredIp from_host)
            (B.getPreferredIp dest_host))
        if !B.checkMediaValid st1.backend c then
          (false, st1.emit (Action.reply 500 "RTP port pool exhausted"))
        else
          let st2 := m.iterate (setChannelDestinationsCb B c m from_tag branchId false) st1
          let m1 := m.masquerade (fun i => B.getChannelSources st2.backend c i to_tag branchId)
          let st3 := st2.emit (Action.masquerade c to_tag branchId)
          let m2 := m1.addIceCandidate
            (fun i => B.getChannelSources st3.backend c i to_tag branchId)
            (fun i => B.getChannelDestinations st3.backend c i from_tag branchId)
          let st4 := st3.emit (Action.addIceCandidate c to_tag from_tag branchId)
          let m3 := if self.mSdpMangledParam ≠ "" then
              m2.addAttribute self.mSdpMangledParam "yes" else m2
          let st5 := if self.mSdpMangledParam ≠ "" then
              st4.emit (Action.addAttribute self.mSdpMangledParam "yes") else st4
          let st6 := State.emit
            { st5 with ev := { st5.ev with msg := m3.update st5.ev.msg } } (Action.sdpUpdate m3)
          let st7 := State.emit
            { st6 with backend := B.serverUpdate st6.backend } Action.serverUpdate
          (true, st7)

/-- `MediaRelay::configureContext`: nothing unless the specific features are compiled in. -/
def MediaRelay.configureContext (B : Backend H) (self : MediaRelay) (c : CallRef)
    (st : State H) : State H :=
  if self.specificFeatures then
    let st1 := if self.mH264FilteringBandwidth ≠ 0 then
        State.emit
          { st with backend := B.enableH264IFrameFiltering st.backend c
                      self.mH264FilteringBandwidth self.mH264Decim }
          (Action.enableH264IFrameFiltering c self.mH264FilteringBandwidth self.mH264Decim)
      else st
    if self.mDropTelephoneEvent then
      State.emit { st1 with backend := B.enableTelephoneEventDrooping st1.backend c true }
        (Action.enableTelephoneEventDrooping c)
    else st1
  else st

/-- Modelled from the spec: `RequestSipEvent::createIncomingTransaction` (not among the
sources), "obtain/allocate an early transaction pair": the incoming agent when it is a
transaction already, a new transaction without properties otherwise. -/
def createIncomingTransaction (st : State H) : IncomingTransaction × State H :=
  let it := st.ev.incoming.getD { property := none }
  (it, State.emit { st with ev := { st.ev with incoming := some it } }
    Action.createIncomingTransaction)

/-- Modelled from the spec: `RequestSipEvent::createOutgoingTransaction` (not among the
sources), "obtain/allocate an early transaction pair": the outgoing agent when it is a
transaction already, a new transaction without properties otherwise. -/
def createOutgoingTransaction (st : State H) : OutgoingTransaction × State H :=
  let ot := st.ev.outgoing.getD { branchId := st.ev.freshBranch, property := none }
  (ot, State.emit { st with ev := { st.ev with outgoing := some ot } }
    Action.createOutgoingTransaction)

/-- The INVITE branch of `onRequest` once the call context `c` is known (lines 243-248). -/
def MediaRelay.relayInvite (B : Backend H) (self : MediaRelay) (c : CallRef)
    (newContext : Bool) (ot : OutgoingTransaction) (st : State H) : State H :=
  let r := self.processNewInvite B c ot.branchId st
  if r.1 then
    let st1 := r.2.emit Action.addRecordRouteIncoming
    let st2 := if newContext then
        State.emit { st1 with backend := B.store st1.backend c } (Action.store c) else st1
    State.emit
      { st2 with ev := { st2.ev with outgoing := some { ot with property := some c } } }
      (Action.setOutgoingProperty c)
  else r.2

/-- The INVITE branch of `onRequest` up to the call context (lines 225-242): the
transaction pair, the call context of the incoming transaction or of the store, else the
admission test and a new context.  The result is the context with the `newContext` flag,
or `none` when the request was answered 503, then the outgoing transaction. -/
def MediaRelay.inviteContext (B : Backend H) (self : MediaRelay) (st : State H) :
    Option (CallRef × Bool) × OutgoingTransaction × State H :=
  let sip := st.ev.msg
  let (it, sta) := createIncomingTransaction st
  let (ot, stb) := createOutgoingTransaction sta
  let found : Option CallRef × State H := match it.property with
    | some c => (some c, stb)
    | none => (B.find stb.backend sip, stb.emit Action.find)
  match found.1 with
  | some c => (some (c, false), ot, found.2)
  | none =>
    let stc := found.2
    if self.mMaxCalls > 0 ∧ B.size stc.backend ≥ self.mMaxCalls then
      (none, ot, stc.emit (Action.reply 503 "Maximum number of calls reached"))
    else
      let mk := B.makeCall stc.backend sip
      let c := mk.1
      let std := State.emit { stc with backend := mk.2 } (Action.makeCall c)
      let ste := State.emit
        { std with ev := { std.ev with incoming := some { it with property := some c } } }
        (Action.setIncomingProperty c)
      (some (c, true), ot, self.configureContext B c ste)

/-- `MediaRelay::onRequest`. -/
def MediaRelay.onRequest (B : Backend H) (self : MediaRelay) (st : State H) : State H :=
  let sip := st.ev.msg
  if sip.method = SipMethod.invite then
    let r := self.inviteContext B st
    match r.1 with
    | none => r.2.2
    | some (c, newContext) => self.relayInvite B c newContext r.2.1 r.2.2
  else if sip.method = SipMethod.bye then
    let stq := st.emit Action.findEstablishedDialog
    match B.findEstablishedDialog st.backend sip with
    | some c => State.emit { stq with backend := B.remove stq.backend c } (Action.remove c)
    | none => stq
  else if sip.method = SipMethod.cancel then
    match st.ev.incoming with
    | some it =>
      match it.property with
      | some c => State.emit { st with backend := B.remove st.backend c } (Action.remove c)
      | none => st
    | none => st
  else st

/-- The 200 Ok branch of `processResponseWithSDP` (lines 276-277): establish the dialog if
it is not established yet, then mark the branch established. -/
def establishOn200Ok (B : Backend H) (c : CallRef) (branchId : String) (st : State H) :
    State H :=
  let sta := if !B.isDialogEstablished st.backend c then
      State.emit { st with backend := B.establishDialogWith200Ok st.backend c st.ev.msg }
        (Action.establishDialogWith200Ok c)
    else st
  State.emit { sta with backend := B.setEstablished sta.backend c branchId }
    (Action.setEstablished c branchId)

/-- `MediaRelay::processResponseWithSDP(c, transaction, msgSip)`; of the transaction only
the branch id is used.  After the iteration of line 297 the source reads
`sip->sip_from->a_tag` without a test (lines 299 and 301): for a response without a
From-tag the handler has no defined outcome from there on, and the result is `none`. -/
def MediaRelay.processResponseWithSDP (B : Backend H) (self : MediaRelay) (c : CallRef)
    (branchId : String) (st : State H) : Option (State H) :=
  let sip := st.ev.msg
  match sip.toTag with
  | none => some st
  | some to_tag =>
    let st1 := if sip.status = 200 then establishOn200Ok B c branchId st else st
    let isEarly : Bool := if sip.status = 200 then false else true
    match createFromSipMsg sip with
    | none => some st1
    | some m =>
      if m.hasAttribute self.mSdpMangledParam then some st1
      else
        let st2 := m.iterate (setChannelDestinationsCb B c m to_tag branchId isEarly) st1
        match sip.fromTag with
        | none => none
        | some from_tag =>
          let m1 := m.masquerade (fun i => B.getChannelSources st2.backend c i from_tag branchId)
          let st3 := st2.emit (Action.masquerade c from_tag branchId)
          let m2 := m1.addIceCandidate
            (fun i => B.getChannelSources st3.backend c i from_tag branchId)
            (fun i => B.getChannelDestinations st3.backend c i to_tag branchId)
          let st4 := st3.emit (Action.addIceCandidate c from_tag to_tag branchId)
          some (State.emit { st4 with ev := { st4.ev with msg := m2.update st4.ev.msg } }
            (Action.sdpUpdate m2))

/-- First block of `onResponse` (lines 320-332): the response on an outgoing transaction;
`none` when `processResponseWithSDP` does not complete. -/
def MediaRelay.onResponseOutgoing (B : Backend H) (self : MediaRelay) (st : State H) :
    Option (State H) :=
  match st.ev.outgoing with
  | none => some st
  | some ot =>
    match ot.property with
    | none => some st
    | some c =>
      if st.ev.msg.cseqMethod = some SipMethod.invite then
        let st1 := State.emit
          { st with ev := { st.ev with msg :=
              { st.ev.msg with auth := B.fixAuthChallengeForSDP st.ev.msg.auth } } }
          Action.fixAuthChallengeForSDP
        if st1.ev.msg.status = 200 ∨ isEarlyMedia st1.ev.msg = true then
          self.processResponseWithSDP B c ot.branchId st1
        else if st1.ev.msg.status ≥ 300 then
          some (State.emit { st1 with backend := B.removeBranch st1.backend c ot.branchId }
            (Action.removeBranch c ot.branchId))
        else some st1
      else some st

/-- Second block of `onResponse` (lines 334-344): the response sent to the incoming
transaction. -/
def MediaRelay.onResponseIncoming (B : Backend H) (st : State H) : State H :=
  match st.ev.incoming with
  | none => st
  | some it =>
    match it.property with
    | none => st
    | some c =>
      if st.ev.msg.cseqMethod = some SipMethod.invite ∧ st.ev.msg.status ≥ 300 then
        if !B.isDialogEstablished st.backend c then
          State.emit { st with backend := B.remove st.backend c } (Action.remove c)
        else st
      else st

/-- Third block of `onResponse` (lines 346-368): the 200 Ok out of any transaction. -/
def MediaRelay.onResponseOutOfTransaction (B : Backend H) (self : MediaRelay) (ot : Option OutgoingTransaction)
    (it : Option IncomingTransaction) (st : State H) : State H :=
  if ot = none ∧ it = none ∧ st.ev.msg.cseqMethod = some SipMethod.invite
      ∧ st.ev.msg.status = 200 then
    let stq := st.emit Action.findEstablishedDialog
    match B.findEstablishedDialog st.backend st.ev.msg with
    | none => stq
    | some c =>
      if st.ev.msg.toTag = none ∨ some (B.getCalleeTag st.backend c) ≠ st.ev.msg.toTag then
        if self.mByeOrphanDialogs then
          (stq.emit Action.ackbye).emit Action.terminateProcessing
        else stq
      else stq.emit Action.terminateProcessing
  else st

/-- `MediaRelay::onResponse`: `ot` and `it` are read from the event on entry; `none` when
`processResponseWithSDP` does not complete. -/
def MediaRelay.onResponse (B : Backend H) (self : MediaRelay) (st : State H) :
    Option (State H) :=
  let ot := st.ev.outgoing
  let it := st.ev.incoming
  match self.onResponseOutgoing B st with
  | none => none
  | some st1 =>
    let st2 := MediaRelay.onResponseIncoming B st1
    some (self.onResponseOutOfTransaction B ot it st2)

/-! ## A reference backend

One implementation of `Backend`, written from the specification of the collaborators, on
which the handlers can be run on concrete events. -/

/-- Modelled from the spec: a Channel (§3) as the signalling plane sees it
(`mediarelay.hh` is not among the sources): the RTP port of its local port pair, `none`
when the pool had none left, and the addresses declared for it, by tag. -/
structure Channel where
  localPort : Option Nat
  declared : List (String × String × Nat)
deriving DecidableEq, Repr

/-- Modelled from the spec: a RelayedCall (§3, §4.2; `callcontext-mediarelay.hh` is not
among the sources): the dialog tags, the establishment state and one channel set per
branch id. -/
structure RelayedCall where
  callId : String
  fromTag : String
  calleeTag : Option String
  established : Bool
  terminated : Bool
  branches : List (String × List Channel)
deriving DecidableEq, Repr

/-- Modelled from the spec: the CallStore (§4.1; `callstore.hh` is not among the sources)
as the list of the references it holds, the call contexts the references point to, the
PortPool (§4.3) as the list of its free RTP ports, and the relay's own address. -/
structure Relay where
  calls : List RelayedCall
  stored : List CallRef
  freePorts : List Nat
  address : String
deriving DecidableEq, Repr

/-- Apply `f` to the element at position `n`, if there is one. -/
def modifyAt {α : Type} (f : α → α) : Nat → List α → List α
  | _, [] => []
  | 0, x :: xs => f x :: xs
  | n + 1, x :: xs => x :: modifyAt f n xs

/-- Modelled from the spec: `PortPool::allocate` (§4.3) for `n` channels: each takes the
next free port, or none when the pool is exhausted. -/
def allocChannels : Nat → List Nat → List Channel × List Nat
  | 0, pool => ([], pool)
  | n + 1, [] => ({ localPort := none, declared := [] } :: (allocChannels n []).1, [])
  | n + 1, p :: pool =>
    ({ localPort := some p, declared := [] } :: (allocChannels n pool).1, (allocChannels n pool).2)

/-- The ports held by a channel set. -/
def heldPorts (cs : List Channel) : List Nat :=
  cs.filterMap (fun ch => ch.localPort)

/-- Modelled from the spec: `CallStore::find` (§4.1), the lookup by early-dialog key
(Call-ID, From-tag). -/
def Relay.find (h : Relay) (sip : Sip) : Option CallRef :=
  h.stored.find? (fun c => match h.calls[c]? with
    | some rc => rc.callId == sip.callId && some rc.fromTag == sip.fromTag
    | none => false)

/-- Modelled from the spec: `CallStore::findEstablishedDialog` (§4.1): an established call
of that Call-ID and From-tag; the To-tag is compared by the caller (§4.4). -/
def Relay.findEstablishedDialog (h : Relay) (sip : Sip) : Option CallRef :=
  h.stored.find? (fun c => match h.calls[c]? with
    | some rc => rc.established && rc.callId == sip.callId && some rc.fromTag == sip.fromTag
    | none => false)

/-- Modelled from the spec: `CallStore::store` (§4.1). -/
def Relay.store (h : Relay) (c : CallRef) : Relay :=
  if c ∈ h.stored then h else { h with stored := h.stored ++ [c] }

/-- Modelled from the spec: `CallStore::remove` (§4.1): "marks Terminated and removes",
idempotent. -/
def Relay.remove (h : Relay) (c : CallRef) : Relay :=
  { h with
    stored := h.stored.filter (fun d => d != c)
    calls := modifyAt (fun rc => { rc with terminated := true }) c h.calls }

/-- Modelled from the spec: the constructor of RelayedCall (§3): a call in state Early,
keyed by the Call-ID and From-tag of the request, without branches. -/
def Relay.makeCall (h : Relay) (sip : Sip) : CallRef × Relay :=
  (h.calls.length,
    { h with calls := h.calls ++ [{ callId := sip.callId, fromTag := sip.fromTag.getD ""
                                    calleeTag := none, established := false
                                    terminated := false, branches := [] }] })

/-- Modelled from the spec: `RelayedCall::initChannels` (§4.2): "ensures a ChannelSet
exists for branchId, sized to the offer's media line count; allocates ports from PortPool
on first use". -/
def Relay.initChannels (h : Relay) (c : CallRef) (m : Sdp) (branch : String) : Relay :=
  match h.calls[c]? with
  | none => h
  | some rc =>
    if rc.branches.any (fun b => b.1 == branch) then h
    else
      { h with
        calls :=
          modifyAt (fun r => { r with branches := r.branches ++
            [(branch, (allocChannels m.media.length h.freePorts).1)] }) c h.calls
        freePorts := (allocChannels m.media.length h.freePorts).2 }

/-- Modelled from the spec: `RelayedCall::checkMediaValid` (§4.2): "false if any required
Channel failed port allocation". -/
def Relay.checkMediaValid (h : Relay) (c : CallRef) : Bool :=
  match h.calls[c]? with
  | none => false
  | some rc => rc.branches.all (fun b => b.2.all (fun ch => ch.localPort.isSome))

/-- Modelled from the spec: `RelayedCall::setChannelDestinations` (§4.2): "records a
leg's declared remote address for the given branch/tag"; a no-op on an unknown branch. -/
def Relay.setChannelDestinations (h : Relay) (c : CallRef) (idx : Nat) (addr : String)
    (port : Nat) (tag branch : String) : Relay :=
  { h with calls :=
      modifyAt (fun rc => { rc with branches := rc.branches.map (fun b =>
        if b.1 == branch then
          (b.1, modifyAt (fun ch => { ch with declared :=
            (tag, addr, port) :: ch.declared.filter (fun d => d.1 != tag) }) idx b.2)
        else b) }) c h.calls }

/-- The channel of call `c` for media line `idx` on a branch. -/
def Relay.channel (h : Relay) (c : CallRef) (idx : Nat) (branch : String) : Option Channel :=
  match h.calls[c]? with
  | none => none
  | some rc =>
    match rc.branches.find? (fun b => b.1 == branch) with
    | none => none
    | some b => b.2[idx]?

/-- Modelled from the spec: `RelayedCall::getChannelSources` (§4.2): "the relay's own
address/port to substitute into the SDP". -/
def Relay.getChannelSources (h : Relay) (c : CallRef) (idx : Nat) (branch : String) :
    String × Nat :=
  match h.channel c idx branch with
  | some ch => (h.address, ch.localPort.getD 0)
  | none => (h.address, 0)

/-- Modelled from the spec: `RelayedCall::getChannelDestinations`: the address declared
for the channel by the party of that tag. -/
def Relay.getChannelDestinations (h : Relay) (c : CallRef) (idx : Nat) (tag branch : String) :
    String × Nat :=
  match h.channel c idx branch with
  | some ch =>
    match ch.declared.find? (fun d => d.1 == tag) with
    | some d => d.2
    | none => ("", 0)
  | none => ("", 0)

/-- Modelled from the spec: `RelayedCall::isDialogEstablished` (§4.2). -/
def Relay.isDialogEstablished (h : Relay) (c : CallRef) : Bool :=
  match h.calls[c]? with
  | none => false
  | some rc => rc.established

/-- Modelled from the spec: `RelayedCall::establishDialogWith200Ok` (§4.2),
Early→Established: "records calleeTag". -/
def Relay.establishDialogWith200Ok (h : Relay) (c : CallRef) (sip : Sip) : Relay :=
  { h with calls :=
      modifyAt (fun rc => { rc with established := true, calleeTag := sip.toTag }) c h.calls }

/-- The ports of the branches of call `c` that `keep` rejects. -/
def Relay.portsOfDropped (h : Relay) (c : CallRef) (keep : String → Bool) : List Nat :=
  match h.calls[c]? with
  | none => []
  | some rc => ((rc.branches.filter (fun b => !keep b.1)).map (fun b => heldPorts b.2)).flatten

/-- Drop the branches of call `c` that `keep` rejects and give their ports back. -/
def Relay.keepBranches (h : Relay) (c : CallRef) (keep : String → Bool) : Relay :=
  { h with
    calls :=
      modifyAt (fun rc => { rc with branches := rc.branches.filter (fun b => keep b.1) }) c h.calls
    freePorts := h.freePorts ++ h.portsOfDropped c keep }

/-- Modelled from the spec: `RelayedCall::setEstablished(branchId)` (§4.2): "marks the
winning branch's ChannelSet as the persistent one, discards channels of losing
branches". -/
def Relay.setEstablished (h : Relay) (c : CallRef) (branch : String) : Relay :=
  h.keepBranches c (fun b => b == branch)

/-- Modelled from the spec: `RelayedCall::removeBranch(branchId)` (§4.4): "release that
branch's channels"; a no-op on an unknown branch. -/
def Relay.removeBranch (h : Relay) (c : CallRef) (branch : String) : Relay :=
  h.keepBranches c (fun b => b != branch)

/-- Modelled from the spec: `RelayedCall::getCalleeTag` (§4.2). -/
def Relay.getCalleeTag (h : Relay) (c : CallRef) : String :=
  match h.calls[c]? with
  | none => ""
  | some rc => rc.calleeTag.getD ""

/-- The reference backend.  The filters, the reconciliation of the server and the
rewriting of the challenge do nothing to the state kept here; the preferred address is
the host itself. -/
def Relay.backend : Backend Relay where
  find := Relay.find
  findEstablishedDialog := Relay.findEstablishedDialog
  store := Relay.store
  remove := Relay.remove
  size := fun h => h.stored.length
  makeCall := Relay.makeCall
  enableH264IFrameFiltering := fun h _ _ _ => h
  enableTelephoneEventDrooping := fun h _ _ => h
  initChannels := fun h c m _ branch _ _ => h.initChannels c m branch
  checkMediaValid := Relay.checkMediaValid
  setChannelDestinations := fun h c _ idx addr port tag branch _ =>
    h.setChannelDestinations c idx addr port tag branch
  getChannelSources := fun h c idx _ branch => h.getChannelSources c idx branch
  getChannelDestinations := Relay.getChannelDestinations
  isDialogEstablished := Relay.isDialogEstablished
  establishDialogWith200Ok := Relay.establishDialogWith200Ok
  setEstablished := Relay.setEstablished
  removeBranch := Relay.removeBranch
  getCalleeTag := Relay.getCalleeTag
  serverUpdate := fun h => h
  getPreferredIp := fun host => host
  fixAuthChallengeForSDP := fun a => a

/-! ## What the handlers append to the trace -/

/-- The call context held by the incoming transaction of the event, if the incoming agent
is a transaction and has one. -/
def SipEvent.incomingProperty (ev : SipEvent) : Option CallRef :=
  ev.incoming.bind (fun it => it.property)

/-- The call context held by the outgoing transaction of the event, if the outgoing agent
is a transaction and has one. -/
def SipEvent.outgoingProperty (ev : SipEvent) : Option CallRef :=
  ev.outgoing.bind (fun ot => ot.property)

/-- The outgoing transaction `onRequest` works on (line 226): the one of the event, or the
one created for it. -/
def SipEvent.ot (ev : SipEvent) : OutgoingTransaction :=
  ev.outgoing.getD { branchId := ev.freshBranch, property := none }

/-- The event once `onRequest` has obtained its transaction pair (lines 225-226). -/
def SipEvent.withTransactions (ev : SipEvent) : SipEvent :=
  { ev with
    incoming := some (ev.incoming.getD { property := none })
    outgoing := some ev.ot }

/-- The state in which `onRequest` hands a new call context `c` to `processNewInvite`
(lines 238-241), before `configureContext`. -/
def admittedState (B : Backend H) (h : H) (ev : SipEvent) : State H :=
  { backend := (B.makeCall h ev.msg).2
    ev := { ev.withTransactions with incoming := some { property := some (B.makeCall h ev.msg).1 } }
    trace := [Action.createIncomingTransaction, Action.createOutgoingTransaction, Action.find,
      Action.makeCall (B.makeCall h ev.msg).1, Action.setIncomingProperty (B.makeCall h ev.msg).1] }

/-- The admission test of `onRequest` (line 232). -/
def MediaRelay.limitReached (B : Backend H) (self : MediaRelay) (h : H) : Prop :=
  self.mMaxCalls > 0 ∧ B.size h ≥ self.mMaxCalls

/-- The `setChannelDestinations` calls an iteration makes over the media lines from index
`i` on. -/
def destinationCalls (c : CallRef) (tag branch : String) (early : Bool) :
    Nat → List MediaLine → List Action
  | _, [] => []
  | i, l :: ls =>
    Action.setChannelDestinations c i l.addr l.port tag branch early ::
      destinationCalls c tag branch early (i + 1) ls

/-- The backend after the `setChannelDestinations` calls of an iteration over the media
lines from index `i` on. -/
def destinationsBackend (B : Backend H) (c : CallRef) (m : Sdp) (tag branch : String)
    (early : Bool) : Nat → List MediaLine → H → H
  | _, [], h => h
  | i, l :: ls, h =>
    destinationsBackend B c m tag branch early (i + 1) ls
      (B.setChannelDestinations h c m i l.addr l.port tag branch early)

/-- The backend of `processNewInvite` after `initChannels` (line 178). -/
def initBackend (B : Backend H) (sip : Sip) (c : CallRef) (m : Sdp) (from_tag branch : String)
    (h : H) : H :=
  B.initChannels h c m from_tag branch (B.getPreferredIp (fromHost sip))
    (B.getPreferredIp (destHost sip))

/-- The `initChannels` call of `processNewInvite` (line 178). -/
def initCall (B : Backend H) (sip : Sip) (c : CallRef) (from_tag branch : String) : Action :=
  Action.initChannels c from_tag branch (B.getPreferredIp (fromHost sip))
    (B.getPreferredIp (destHost sip))

/-- The backend of `processNewInvite` when the SDP is rewritten: after `initChannels` and
the iteration that records the destinations (lines 178-188). -/
def recordedBackend (B : Backend H) (sip : Sip) (c : CallRef) (m : Sdp)
    (from_tag branch : String) (h : H) : H :=
  destinationsBackend B c m from_tag branch false 0 m.media (initBackend B sip c m from_tag branch h)

/-- The SDP `processNewInvite` commits (lines 191-199), on the backend `h` the rewriting
reads the channel sources from. -/
def relayedSdp (B : Backend H) (self : MediaRelay) (c : CallRef) (m : Sdp)
    (from_tag to_tag branch : String) (h : H) : Sdp :=
  let m2 := (m.masquerade (fun i => B.getChannelSources h c i to_tag branch)).addIceCandidate
    (fun i => B.getChannelSources h c i to_tag branch)
    (fun i => B.getChannelDestinations h c i from_tag branch)
  if self.mSdpMangledParam ≠ "" then m2.addAttribute self.mSdpMangledParam "yes" else m2

/-- The marker insertion of `processNewInvite` (line 198). -/
def markerCalls (self : MediaRelay) : List Action :=
  if self.mSdpMangledParam ≠ "" then [Action.addAttribute self.mSdpMangledParam "yes"] else []

/-- The actions `processNewInvite` can append: no lookup, no creation, no store, no
removal, and no reply other than the 500. -/
def Action.ofNewInvite : Action → Bool
  | Action.initChannels _ _ _ _ _ => true
  | Action.setChannelDestinations _ _ _ _ _ _ _ => true
  | Action.masquerade _ _ _ => true
  | Action.addIceCandidate _ _ _ _ => true
  | Action.addAttribute _ _ => true
  | Action.sdpUpdate _ => true
  | Action.serverUpdate => true
  | Action.reply status phrase => status = 500 ∧ phrase = "RTP port pool exhausted"
  | _ => false

/-- The actions `configureContext` can append. -/
def Action.ofConfigure : Action → Bool
  | Action.enableH264IFrameFiltering _ _ _ => true
  | Action.enableTelephoneEventDrooping _ => true
  | _ => false

/-- The actions the INVITE branch of `onRequest` can append once the call context is
known: those of `processNewInvite`, the record-route, the store and the property of the
outgoing transaction. -/
def Action.ofRelayInvite : Action → Bool
  | Action.addRecordRouteIncoming => true
  | Action.store _ => true
  | Action.setOutgoingProperty _ => true
  | a => a.ofNewInvite

/-- The actions by which `onRequest` gets the call context of an INVITE, before
`processNewInvite` runs (lines 225-241). -/
def Action.ofSetup : Action → Bool
  | Action.createIncomingTransaction => true
  | Action.createOutgoingTransaction => true
  | Action.find => true
  | Action.makeCall _ => true
  | Action.setIncomingProperty _ => true
  | a => a.ofConfigure

/-- A reply sent on the event. -/
def Action.isReply : Action → Bool
  | Action.reply _ _ => true
  | _ => false

/-- The event after `fixAuthChallengeForSDP` (line 324). -/
def authEvent (B : Backend H) (ev : SipEvent) : SipEvent :=
  { ev with msg := { ev.msg with auth := B.fixAuthChallengeForSDP ev.msg.auth } }

/-- The state in which `onResponse`, started on `h` and `ev`, dispatches on the status of
an INVITE response (line 325). -/
def authState (B : Backend H) (h : H) (ev : SipEvent) : State H :=
  { backend := h, ev := authEvent B ev, trace := [Action.fixAuthChallengeForSDP] }

/-- The backend after the establishment step of a 200 Ok (lines 276-277). -/
def establishedBackend (B : Backend H) (c : CallRef) (branch : String) (sip : Sip) (h : H) : H :=
  B.setEstablished (if B.isDialogEstablished h c then h else B.establishDialogWith200Ok h c sip)
    c branch

/-- The calls of the establishment step of a 200 Ok (lines 276-277). -/
def establishCalls (B : Backend H) (c : CallRef) (branch : String) (h : H) : List Action :=
  (if B.isDialogEstablished h c then [] else [Action.establishDialogWith200Ok c])
    ++ [Action.setEstablished c branch]

/-- The SDP `processResponseWithSDP` commits (lines 299-305), on the backend `h` the
rewriting reads the channel sources from. -/
def answeredSdp (B : Backend H) (c : CallRef) (m : Sdp) (from_tag to_tag branch : String)
    (h : H) : Sdp :=
  (m.masquerade (fun i => B.getChannelSources h c i from_tag branch)).addIceCandidate
    (fun i => B.getChannelSources h c i from_tag branch)
    (fun i => B.getChannelDestinations h c i to_tag branch)

/-- The rewriting actions of `processResponseWithSDP` (lines 297-305) for the answer `m`
and the committed SDP `s`. -/
def answerCalls (c : CallRef) (m : Sdp) (from_tag to_tag branch : String) (early : Bool)
    (s : Sdp) : List Action :=
  destinationCalls c to_tag branch early 0 m.media
    ++ [Action.masquerade c from_tag branch, Action.addIceCandidate c from_tag to_tag branch,
        Action.sdpUpdate s]

/-- The actions with which `processResponseWithSDP` or `processNewInvite` rewrite an SDP. -/
def Action.isRewrite : Action → Bool
  | Action.setChannelDestinations _ _ _ _ _ _ _ => true
  | Action.masquerade _ _ _ => true
  | Action.addIceCandidate _ _ _ _ => true
  | Action.addAttribute _ _ => true
  | Action.sdpUpdate _ => true
  | _ => false

/-- The actions that establish a dialog. -/
def Action.isEstablish : Action → Bool
  | Action.establishDialogWith200Ok _ => true
  | Action.setEstablished _ _ => true
  | _ => false

/-- A `removeBranch` call. -/
def Action.isRemoveBranch : Action → Bool
  | Action.removeBranch _ _ => true
  | _ => false

/-- Modelled from the spec: what §4.2 says of the establishment state of a RelayedCall
(whose code is not among the sources), for the backend states `live` in which the call
context `c` exists: `establishDialogWith200Ok` makes the dialog established
(Early→Established), and the state Established is left only for Terminated, on BYE or idle
reclamation, so not by `setEstablished`, `setChannelDestinations` or `removeBranch`; none
of the four destroys the call context. -/
def Backend.KeepsEstablished (B : Backend H) (c : CallRef) (live : H → Prop) : Prop :=
  (∀ h sip, live h → live (B.establishDialogWith200Ok h c sip)
      ∧ B.isDialogEstablished (B.establishDialogWith200Ok h c sip) c = true)
  ∧ (∀ h branch, live h → live (B.setEstablished h c branch)
      ∧ (B.isDialogEstablished h c = true →
          B.isDialogEstablished (B.setEstablished h c branch) c = true))
  ∧ (∀ h m idx addr port tag branch early, live h →
      live (B.setChannelDestinations h c m idx addr port tag branch early)
      ∧ (B.isDialogEstablished h c = true →
          B.isDialogEstablished (B.setChannelDestinations h c m idx addr port tag branch early) c
            = true))
  ∧ (∀ h branch, live h → live (B.removeBranch h c branch)
      ∧ (B.isDialogEstablished h c = true →
          B.isDialogEstablished (B.removeBranch h c branch) c = true))

/-- The call context `c` exists in the reference backend. -/
def Relay.live (c : CallRef) (h : Relay) : Prop :=
  c < h.calls.length

/-- An SDP as a parser gives it: every attribute has a name (in the SDP grammar the name
of an attribute is a non-empty token). -/
def Sdp.WellFormed (m : Sdp) : Prop :=
  ∀ a ∈ m.attributes, a.1 ≠ ""

/-- The handling of a first 200 Ok, started on `h`. -/
def firstOk (B : Backend H) (self : MediaRelay) (h : H) (ev : SipEvent) : Option (State H) :=
  self.onResponse B (State.start h ev)

/-- The handling of a second 200 Ok with the same message on the same transactions,
started on the backend the first left. -/
def secondOk (B : Backend H) (self : MediaRelay) (h : H) (ev : SipEvent) : Option (State H) :=
  (firstOk B self h ev).bind (fun first => self.onResponse B (State.start first.backend ev))

/-- The backend after the removal `onResponse` makes for a final error response sent to
the incoming transaction (lines 334-344), from the backend `h` it finds at that point. -/
def finalErrorBackend (B : Backend H) (h : H) (ev : SipEvent) : H :=
  match ev.incomingProperty with
  | some d => if B.isDialogEstablished h d then h else B.remove h d
  | none => h

/-- The backend after a 200 Ok was handled and its answer `m` rewritten: the establishment
step, then the destinations of the answer (lines 276-297). -/
def answeredBackend (B : Backend H) (c : CallRef) (m : Sdp) (to_tag branch : String)
    (sip : Sip) (h : H) : H :=
  destinationsBackend B c m to_tag branch false 0 m.media (establishedBackend B c branch sip h)

/-- The removal `onResponse` makes for a final error response sent to the incoming
transaction (lines 334-344), on the backend `h` it finds at that point. -/
def finalErrorRemoval (B : Backend H) (h : H) (ev : SipEvent) : List Action :=
  match ev.incomingProperty with
  | some d => if B.isDialogEstablished h d then [] else [Action.remove d]
  | none => []

/-- An `SdpModifier::addAttribute` call. -/
def Action.isAddAttribute : Action → Bool
  | Action.addAttribute _ _ => true
  | _ => false

/-! ## Sample messages -/

/-- An offer with an audio and a video line. -/
def sampleOffer : Sdp :=
  { media := [{ addr := "10.0.0.1", port := 4000, candidates := [] },
              { addr := "10.0.0.1", port := 4002, candidates := [] }]
    attributes := [] }

/-- An INVITE from "alice" carrying `sampleOffer`. -/
def sampleInvite : Sip :=
  { callId := "call-1"
    method := SipMethod.invite
    status := 0
    cseqMethod := some SipMethod.invite
    fromTag := some "alice"
    toTag := none
    viaReceived := none
    viaHost := "10.0.0.1"
    requestHost := some "10.0.0.2"
    auth := none
    payload := some (some sampleOffer) }

/-- The INVITE arriving outside of any transaction. -/
def sampleInviteEvent : SipEvent :=
  { msg := sampleInvite, incoming := none, outgoing := none, freshBranch := "z9hG4bK.1" }

/-- A relay without calls and with four free port pairs. -/
def idleRelay : Relay :=
  { calls := [], stored := [], freePorts := [5000, 5002, 5004, 5006], address := "192.0.2.1" }

/-- A relay holding one stored call of another dialog, with a single free port pair. -/
def busyRelay : Relay :=
  { calls := [{ callId := "call-0", fromTag := "carol", calleeTag := none, established := false
                terminated := false
                branches := [("z9hG4bK.0", [{ localPort := some 5000, declared := [] }])] }]
    stored := [0]
    freePorts := [5002]
    address := "192.0.2.1" }

/-- The module loaded with the marker "nortpproxy", at most `maxCalls` calls and the
rejection of orphan dialogs switched on. -/
def sampleModule (maxCalls : Int) : MediaRelay :=
  MediaRelay.onLoad false
    { nortpproxy := "nortpproxy", byeOrphanDialogs := true, h264FilteringBandwidth := 0
      h264IframeDecim := 1, dropTelephoneEvent := false, maxCalls := maxCalls }

/-- The answer of the callee: an audio and a video line. -/
def sampleAnswer : Sdp :=
  { media := [{ addr := "10.0.0.2", port := 6000, candidates := [] },
              { addr := "10.0.0.2", port := 6002, candidates := [] }]
    attributes := [] }

/-- A response to `sampleInvite` with the given status, To-tag and payload. -/
def sampleResponse (status : Nat) (toTag : Option String) (payload : Option (Option Sdp)) : Sip :=
  { callId := "call-1"
    method := SipMethod.invite
    status := status
    cseqMethod := some SipMethod.invite
    fromTag := some "alice"
    toTag := toTag
    viaReceived := none
    viaHost := "192.0.2.1"
    requestHost := none
    auth := none
    payload := payload }

/-- A response arriving on the outgoing transaction of the given branch, which holds call
0, with the incoming transaction of the INVITE holding call 0 as well. -/
def sampleResponseEvent (branch : String) (msg : Sip) : SipEvent :=
  { msg := msg
    incoming := some { property := some 0 }
    outgoing := some { branchId := branch, property := some 0 }
    freshBranch := "" }

/-- A response arriving outside of any transaction. -/
def strayResponseEvent (msg : Sip) : SipEvent :=
  { msg := msg, incoming := none, outgoing := none, freshBranch := "" }

/-- The relay after `sampleInvite` was relayed on `idleRelay`: call 0 is stored, in state
Early, with the channels of branch "z9hG4bK.1". -/
def ringingRelay : Relay :=
  (MediaRelay.onRequest Relay.backend (sampleModule 0)
    (State.start idleRelay sampleInviteEvent)).backend

/-- The 200 Ok of "bob" with `sampleAnswer`, on branch "z9hG4bK.1". -/
def sampleOkEvent : SipEvent :=
  sampleResponseEvent "z9hG4bK.1" (sampleResponse 200 (some "bob") (some (some sampleAnswer)))

/-- The first 200 Ok handled on the ringing relay. -/
def afterFirstOk : Option (State Relay) :=
  firstOk Relay.backend (sampleModule 0) ringingRelay sampleOkEvent

/-- The same 200 Ok handled a second time, on the same transaction. -/
def afterSecondOk : Option (State Relay) :=
  secondOk Relay.backend (sampleModule 0) ringingRelay sampleOkEvent

/-- The relay once the 200 Ok of "bob" was handled on `ringingRelay`: call 0 is
established with callee tag "bob", and its channels have the addresses declared by both
parties. -/
def establishedRelay : Relay :=
  { calls := [{ callId := "call-1", fromTag := "alice", calleeTag := some "bob"
                established := true, terminated := false
                branches :=
                  [("z9hG4bK.1",
                    [{ localPort := some 5000
                       declared := [("bob", "10.0.0.2", 6000), ("alice", "10.0.0.1", 4000)] },
                     { localPort := some 5002
                       declared := [("bob", "10.0.0.2", 6002), ("alice", "10.0.0.1", 4002)] }])] }]
    stored := [0]
    freePorts := [5004, 5006]
    address := "192.0.2.1" }

/-- A final error response on branch "z9hG4bK.1" of the forked call. -/
def sampleBusyEvent : SipEvent :=
  sampleResponseEvent "z9hG4bK.1" (sampleResponse 486 (some "carol") none)

/-- The 200 Ok of "bob" with `sampleAnswer`, on branch "z9hG4bK.2" of the forked call. -/
def sampleForkOkEvent : SipEvent :=
  sampleResponseEvent "z9hG4bK.2" (sampleResponse 200 (some "bob") (some (some sampleAnswer)))

/-- The relay after `sampleInvite` was forked to a second branch "z9hG4bK.2": call 0 is
stored, in state Early, with the channels of both branches. -/
def forkedRelay : Relay :=
  (MediaRelay.onRequest Relay.backend (sampleModule 0)
    (State.start ringingRelay
      { msg := sampleInvite, incoming := some { property := some 0 }, outgoing := none
        freshBranch := "z9hG4bK.2" })).backend

/-- The relay once the 200 Ok of "bob" on branch "z9hG4bK.2" was handled on `forkedRelay`:
call 0 is established and stored, with the channels of branch "z9hG4bK.2" only. -/
def forkEstablishedRelay : Relay :=
  { calls := [{ callId := "call-1", fromTag := "alice", calleeTag := some "bob"
                established := true, terminated := false
                branches :=
                  [("z9hG4bK.2",
                    [{ localPort := some 5004
                       declared := [("bob", "10.0.0.2", 6000), ("alice", "10.0.0.1", 4000)] },
                     { localPort := some 5006
                       declared := [("bob", "10.0.0.2", 6002), ("alice", "10.0.0.1", 4002)] }])] }]
    stored := [0]
    freePorts := [5000, 5002]
    address := "192.0.2.1" }

/-- The relay once the final error on branch "z9hG4bK.1" was handled on `ringingRelay`:
call 0 is terminated and out of the store, and its ports are free again. -/
def releasedRelay : Relay :=
  { calls := [{ callId := "call-1", fromTag := "alice", calleeTag := none
                established := false, terminated := true, branches := [] }]
    stored := []
    freePorts := [5004, 5006, 5000, 5002]
    address := "192.0.2.1" }

/-- The relay once a 183 of "bob" with `sampleAnswer` was handled on `ringingRelay`: call
0 is still not established, and its channels have the addresses declared by both parties. -/
def earlyRelay : Relay :=
  { calls := [{ callId := "call-1", fromTag := "alice", calleeTag := none
                established := false, terminated := false
                branches :=
                  [("z9hG4bK.1",
                    [{ localPort := some 5000
                       declared := [("bob", "10.0.0.2", 6000), ("alice", "10.0.0.1", 4000)] },
                     { localPort := some 5002
                       declared := [("bob", "10.0.0.2", 6002), ("alice", "10.0.0.1", 4002)] }])] }]
    stored := [0]
    freePorts := [5004, 5006]
    address := "192.0.2.1" }

/-- The answer of "bob" as relayed on branch "z9hG4bK.1": the relay's address and ports,
with one ICE candidate per media line towards the address "bob" declared. -/
def relayedAnswer : Sdp :=
  { media := [{ addr := "192.0.2.1", port := 5000
                candidates := [⟨"192.0.2.1", 5000, "10.0.0.2", 6000⟩] },
              { addr := "192.0.2.1", port := 5002
                candidates := [⟨"192.0.2.1", 5002, "10.0.0.2", 6002⟩] }]
    attributes := [] }

/-- The relay once `processNewInvite` relayed `sampleInvite` for the new call 0 on
`idleRelay`: the channels of branch "z9hG4bK.1" hold two ports and the addresses "alice"
declared; the call is not stored yet. -/
def offeredRelay : Relay :=
  { calls := [{ callId := "call-1", fromTag := "alice", calleeTag := none
                established := false, terminated := false
                branches :=
                  [("z9hG4bK.1",
                    [{ localPort := some 5000, declared := [("alice", "10.0.0.1", 4000)] },
                     { localPort := some 5002, declared := [("alice", "10.0.0.1", 4002)] }])] }]
    stored := []
    freePorts := [5004, 5006]
    address := "192.0.2.1" }

/-- The offer of "alice" as relayed on branch "z9hG4bK.1", before any marker: the relay's
address and ports, with one ICE candidate per media line towards the address "alice"
declared. -/
def relayedOffer : Sdp :=
  { media := [{ addr := "192.0.2.1", port := 5000
                candidates := [⟨"192.0.2.1", 5000, "10.0.0.1", 4000⟩] },
              { addr := "192.0.2.1", port := 5002
                candidates := [⟨"192.0.2.1", 5002, "10.0.0.1", 4002⟩] }]
    attributes := [] }

/-- A request of the given method in the dialog of `sampleInvite`, without a body. -/
def sampleRequest (method : SipMethod) : Sip :=
  { sampleInvite with method := method, cseqMethod := some method, toTag := some "bob"
                      payload := none }

/-- An offer that already carries the marker "nortpproxy". -/
def markedOffer : Sdp :=
  { sampleOffer with attributes := [("nortpproxy", "yes")] }

/-- The INVITE with the marked offer, arriving outside of any transaction. -/
def markedInviteEvent : SipEvent :=
  { sampleInviteEvent with msg := { sampleInvite with payload := some (some markedOffer) } }

/-- The configuration with the marker switched off by "disable". -/
def disabledConf : ModConf :=
  { nortpproxy := "disable", byeOrphanDialogs := false, h264FilteringBandwidth := 0
    h264IframeDecim := 1, dropTelephoneEvent := false, maxCalls := 0 }

/-- A call that releases channels: `RelayedCall::removeBranch` or `CallStore::remove`. -/
def Action.isRelease : Action → Bool
  | Action.removeBranch _ _ => true
  | Action.remove _ => true
  | _ => false

/-- A relay without calls and with three free port pairs: enough for one branch of
`sampleOffer`, not for two. -/
def tightRelay : Relay :=
  { calls := [], stored := [], freePorts := [5000, 5002, 5004], address := "192.0.2.1" }

/-- The relay after `sampleInvite` was relayed on `tightRelay`: call 0 is stored with the
channels of branch "z9hG4bK.1", and one port pair is left. -/
def tightRingingRelay : Relay :=
  (MediaRelay.onRequest Relay.backend (sampleModule 0)
    (State.start tightRelay sampleInviteEvent)).backend

/-- The INVITE forked to a second branch "z9hG4bK.2": the incoming transaction holds call
0 already. -/
def forkedInviteEvent : SipEvent :=
  { msg := sampleInvite, incoming := some { property := some 0 }, outgoing := none
    freshBranch := "z9hG4bK.2" }

/-! ## The Redis registrar backend: `RegistrarDbRedisSync::connect`

Embedding of lines 50-83 of `src/registrardb-redis-sync.cc`.  The hiredis library is a
parameter; the calls made on it are returned as a list. -/

/-- A `struct timeval`: seconds and microseconds. -/
structure Timeval where
  tv_sec : Int
  tv_usec : Int
deriving DecidableEq, Repr

/-- The duration a `struct timeval` stands for, in microseconds. -/
def Timeval.micros (tv : Timeval) : Int :=
  tv.tv_sec * 1000000 + tv.tv_usec

/-- The fields of a `redisContext` that `connect` and `isConnected` read: `err` and the
`REDIS_CONNECTED` bit of `flags`. -/
structure RedisContext where
  err : Bool
  connected : Bool
deriving DecidableEq, Repr

/-- The hiredis calls made by `connect`. -/
inductive RedisCall where
  | connectWithTimeout (domain : String) (port : Int) (timeout : Timeval)
  | free
  | auth (password : String)
deriving DecidableEq, Repr

/-- What the hiredis library answers: the context of a connection attempt, and whether
the reply to `AUTH` is of type `REDIS_REPLY_ERROR`. -/
structure Hiredis where
  connectWithTimeout : String → Int → Timeval → RedisContext
  authIsError : RedisContext → String → Bool

/-- The data members of `RegistrarDbRedisSync` used by `connect`; `sPort` and `sTimeout`
are `int`s, the timeout being in milliseconds (line 60). -/
structure RegistrarDbRedisSync where
  mContext : Option RedisContext
  sDomain : String
  sAuthPassword : String
  sPort : Int
  sTimeout : Int
deriving DecidableEq, Repr

/-- `RegistrarDbRedisSync::isConnected` (lines 50-52). -/
def RegistrarDbRedisSync.isConnected (self : RegistrarDbRedisSync) : Bool :=
  match self.mContext with
  | some ctx => ctx.connected
  | none => false

/-- The `struct timeval` built by `connect` (lines 60-61): `{seconds, sTimeout - seconds}`
with `seconds = sTimeout / 1000`, the division of C, which truncates.  Neither operation
leaves the range of `int`. -/
def RegistrarDbRedisSync.connectTimeout (sTimeout : Int) : Timeval :=
  let seconds := Int.tdiv sTimeout 1000
  { tv_sec := seconds, tv_usec := sTimeout - seconds }

/-- `RegistrarDbRedisSync::connect` (lines 54-83): the result, the object afterwards and
the hiredis calls made. -/
def RegistrarDbRedisSync.connect (redis : Hiredis) (self : RegistrarDbRedisSync) :
    Bool × RegistrarDbRedisSync × List RedisCall :=
  if self.isConnected then (true, self, [])
  else
    let timeout := RegistrarDbRedisSync.connectTimeout self.sTimeout
    let ctx := redis.connectWithTimeout self.sDomain self.sPort timeout
    let calls := [RedisCall.connectWithTimeout self.sDomain self.sPort timeout]
    if ctx.err then
      (false, { self with mContext := none }, calls ++ [RedisCall.free])
    else if self.sAuthPassword ≠ "" then
      if redis.authIsError ctx self.sAuthPassword then
        (false, { self with mContext := none },
          calls ++ [RedisCall.auth self.sAuthPassword, RedisCall.free])
      else
        (true, { self with mContext := some ctx }, calls ++ [RedisCall.auth self.sAuthPassword])
    else (true, { self with mContext := some ctx }, calls)

/-- A hiredis that connects and accepts every password. -/
def sampleHiredis : Hiredis :=
  { connectWithTimeout := fun _ _ _ => { err := false, connected := true }
    authIsError := fun _ _ => false }

/-- A registrar backend that is not connected, with the given timeout in milliseconds. -/
def sampleRegistrar (timeout : Int) : RegistrarDbRedisSync :=
  { mContext := none, sDomain := "localhost", sAuthPassword := "", sPort := 6379
    sTimeout := timeout }

/-! ## Facts about the handlers -/

theorem iterateFrom_trace (B : Backend H) (c : CallRef) (m : Sdp) (tag branch : String)
    (early : Bool) (ls : List MediaLine) :
    ∀ (k : Nat) (st : State H),
      (iterateFrom (setChannelDestinationsCb B c m tag branch early) k ls st).trace
        = st.trace ++ destinationCalls c tag branch early k ls := by
  induction ls with
  | nil => intro k st; simp [iterateFrom, destinationCalls]
  | cons l ls ih =>
    intro k st
    simp [iterateFrom, destinationCalls, ih, setChannelDestinationsCb, State.emit]

theorem iterateFrom_ev (B : Backend H) (c : CallRef) (m : Sdp) (tag branch : String)
    (early : Bool) (ls : List MediaLine) :
    ∀ (k : Nat) (st : State H),
      (iterateFrom (setChannelDestinationsCb B c m tag branch early) k ls st).ev = st.ev := by
  induction ls with
  | nil => intro k st; simp [iterateFrom]
  | cons l ls ih =>
    intro k st
    simp [iterateFrom, ih, setChannelDestinationsCb, State.emit]

theorem mem_destinationCalls (c : CallRef) (tag branch : String) (early : Bool)
    (ls : List MediaLine) :
    ∀ (k : Nat) (a : Action), a ∈ destinationCalls c tag branch early k ls →
      ∃ i addr port, a = Action.setChannelDestinations c i addr port tag branch early := by
  induction ls with
  | nil => intro k a h; simp [destinationCalls] at h
  | cons l ls ih =>
    intro k a h
    simp only [destinationCalls, List.mem_cons] at h
    rcases h with h | h
    · exact ⟨k, l.addr, l.port, h⟩
    · exact ih (k + 1) a h

theorem iterateFrom_backend (B : Backend H) (c : CallRef) (m : Sdp) (tag branch : String)
    (early : Bool) (ls : List MediaLine) :
    ∀ (k : Nat) (st : State H),
      (iterateFrom (setChannelDestinationsCb B c m tag branch early) k ls st).backend
        = destinationsBackend B c m tag branch early k ls st.backend := by
  induction ls with
  | nil => intro k st; simp [iterateFrom, destinationsBackend]
  | cons l ls ih =>
    intro k st
    simp [iterateFrom, destinationsBackend, ih, setChannelDestinationsCb, State.emit]

theorem processNewInvite_noFromTag (B : Backend H) (self : MediaRelay) (c : CallRef)
    (branchId : String) (st : State H) (hf : st.ev.msg.fromTag = none) :
    self.processNewInvite B c branchId st = (false, st) := by
  simp [MediaRelay.processNewInvite, hf]

theorem processNewInvite_invalidSdp (B : Backend H) (self : MediaRelay) (c : CallRef)
    (branchId : String) (st : State H) (hp : createFromSipMsg st.ev.msg = none) :
    self.processNewInvite B c branchId st = (false, st) := by
  cases hf : st.ev.msg.fromTag <;> simp [MediaRelay.processNewInvite, hf, hp]

theorem processNewInvite_marked (B : Backend H) (self : MediaRelay) (c : CallRef)
    (branchId : String) (st : State H) (m : Sdp) (hp : createFromSipMsg st.ev.msg = some m)
    (hm : m.hasAttribute self.mSdpMangledParam = true) :
    self.processNewInvite B c branchId st = (false, st) := by
  cases hf : st.ev.msg.fromTag <;> simp [MediaRelay.processNewInvite, hf, hp, hm]

theorem processNewInvite_exhausted (B : Backend H) (self : MediaRelay) (c : CallRef)
    (branchId : String) (st : State H) (from_tag : String) (m : Sdp)
    (hf : st.ev.msg.fromTag = some from_tag) (hp : createFromSipMsg st.ev.msg = some m)
    (hm : m.hasAttribute self.mSdpMangledParam = false)
    (hv : B.checkMediaValid (initBackend B st.ev.msg c m from_tag branchId st.backend) c = false) :
    self.processNewInvite B c branchId st
      = (false,
          { backend := initBackend B st.ev.msg c m from_tag branchId st.backend
            ev := st.ev
            trace := st.trace ++ [initCall B st.ev.msg c from_tag branchId,
              Action.reply 500 "RTP port pool exhausted"] }) := by
  simp only [initBackend] at hv
  simp [MediaRelay.processNewInvite, hf, hp, hm, State.emit, initBackend, initCall, hv]

theorem processNewInvite_relayed (B : Backend H) (self : MediaRelay) (c : CallRef)
    (branchId : String) (st : State H) (from_tag : String) (m : Sdp)
    (hf : st.ev.msg.fromTag = some from_tag) (hp : createFromSipMsg st.ev.msg = some m)
    (hm : m.hasAttribute self.mSdpMangledParam = false)
    (hv : B.checkMediaValid (initBackend B st.ev.msg c m from_tag branchId st.backend) c = true) :
    self.processNewInvite B c branchId st
      = (true,
          { backend := B.serverUpdate (recordedBackend B st.ev.msg c m from_tag branchId st.backend)
            ev := { st.ev with msg :=
              (relayedSdp B self c m from_tag (st.ev.msg.toTag.getD "") branchId
                (recordedBackend B st.ev.msg c m from_tag branchId st.backend)).update st.ev.msg }
            trace := st.trace ++ ([initCall B st.ev.msg c from_tag branchId]
              ++ destinationCalls c from_tag branchId false 0 m.media
              ++ [Action.masquerade c (st.ev.msg.toTag.getD "") branchId,
                  Action.addIceCandidate c (st.ev.msg.toTag.getD "") from_tag branchId]
              ++ markerCalls self
              ++ [Action.sdpUpdate (relayedSdp B self c m from_tag (st.ev.msg.toTag.getD "")
                    branchId (recordedBackend B st.ev.msg c m from_tag branchId st.backend)),
                  Action.serverUpdate]) }) := by
  simp only [initBackend] at hv
  by_cases hk : self.mSdpMangledParam = ""
  · have hm0 := hm
    rw [hk] at hm0
    simp [MediaRelay.processNewInvite, hf, hp, hm0, State.emit, initBackend, initCall, hv,
      Sdp.iterate, iterateFrom_trace, iterateFrom_backend, iterateFrom_ev, recordedBackend,
      relayedSdp, markerCalls, hk]
  · simp [MediaRelay.processNewInvite, hf, hp, hm, State.emit, initBackend, initCall, hv,
      Sdp.iterate, iterateFrom_trace, iterateFrom_backend, iterateFrom_ev, recordedBackend,
      relayedSdp, markerCalls, hk]

theorem processNewInvite_trace (B : Backend H) (self : MediaRelay) (c : CallRef)
    (branchId : String) (st : State H) :
    ∃ t, (self.processNewInvite B c branchId st).2.trace = st.trace ++ t
      ∧ ∀ a ∈ t, a.ofNewInvite = true := by
  cases hf : st.ev.msg.fromTag with
  | none => exact ⟨[], by simp [processNewInvite_noFromTag B self c branchId st hf]⟩
  | some from_tag =>
    cases hp : createFromSipMsg st.ev.msg with
    | none => exact ⟨[], by simp [processNewInvite_invalidSdp B self c branchId st hp]⟩
    | some m =>
      cases hm : m.hasAttribute self.mSdpMangledParam with
      | true => exact ⟨[], by simp [processNewInvite_marked B self c branchId st m hp hm]⟩
      | false =>
        cases hv : B.checkMediaValid (initBackend B st.ev.msg c m from_tag branchId st.backend) c with
        | false =>
          rw [processNewInvite_exhausted B self c branchId st from_tag m hf hp hm hv]
          exact ⟨_, rfl, by simp [Action.ofNewInvite, initCall]⟩
        | true =>
          rw [processNewInvite_relayed B self c branchId st from_tag m hf hp hm hv]
          refine ⟨_, rfl, ?_⟩
          intro a ha
          rcases List.mem_append.1 ha with ha | ha
          · rcases List.mem_append.1 ha with ha | ha
            · rcases List.mem_append.1 ha with ha | ha
              · rcases List.mem_append.1 ha with ha | ha
                · rw [List.mem_singleton.1 ha]; rfl
                · obtain ⟨i, addr, port, rfl⟩ := mem_destinationCalls _ _ _ _ _ _ _ ha
                  rfl
              · simp only [List.mem_cons, List.not_mem_nil, or_false] at ha
                rcases ha with ha | ha <;> rw [ha] <;> rfl
            · unfold markerCalls at ha
              split at ha
              · rw [List.mem_singleton.1 ha]; rfl
              · simp at ha
          · simp only [List.mem_cons, List.not_mem_nil, or_false] at ha
            rcases ha with ha | ha <;> rw [ha] <;> rfl

theorem configureContext_trace (B : Backend H) (self : MediaRelay) (c : CallRef)
    (st : State H) :
    ∃ t, (self.configureContext B c st).trace = st.trace ++ t
      ∧ ∀ a ∈ t, a.ofConfigure = true := by
  unfold MediaRelay.configureContext
  by_cases h1 : self.specificFeatures = true
  · by_cases h2 : self.mH264FilteringBandwidth = 0 <;> by_cases h3 : self.mDropTelephoneEvent = true
    · exact ⟨[Action.enableTelephoneEventDrooping c], by simp [h1, h2, h3, State.emit],
        by simp [Action.ofConfigure]⟩
    · exact ⟨[], by simp [h1, h2, h3], by simp⟩
    · exact ⟨[Action.enableH264IFrameFiltering c self.mH264FilteringBandwidth self.mH264Decim,
        Action.enableTelephoneEventDrooping c], by simp [h1, h2, h3, State.emit],
        by simp [Action.ofConfigure]⟩
    · exact ⟨[Action.enableH264IFrameFiltering c self.mH264FilteringBandwidth self.mH264Decim],
        by simp [h1, h2, h3, State.emit], by simp [Action.ofConfigure]⟩
  · exact ⟨[], by simp [h1], by simp⟩

theorem configureContext_ev (B : Backend H) (self : MediaRelay) (c : CallRef) (st : State H) :
    (self.configureContext B c st).ev = st.ev := by
  unfold MediaRelay.configureContext
  by_cases h1 : self.specificFeatures = true
  · by_cases h2 : self.mH264FilteringBandwidth = 0 <;>
      by_cases h3 : self.mDropTelephoneEvent = true <;> simp [h1, h2, h3, State.emit]
  · simp [h1]

theorem relayInvite_trace (B : Backend H) (self : MediaRelay) (c : CallRef)
    (newContext : Bool) (ot : OutgoingTransaction) (st : State H) :
    ∃ t, (self.relayInvite B c newContext ot st).trace = st.trace ++ t
      ∧ ∀ a ∈ t, a.ofRelayInvite = true := by
  obtain ⟨t, ht, hall⟩ := processNewInvite_trace B self c ot.branchId st
  have hsub : ∀ a ∈ t, a.ofRelayInvite = true := by
    intro a ha
    have h1 := hall a ha
    cases a <;> first | rfl | exact h1
  unfold MediaRelay.relayInvite
  by_cases hr : (self.processNewInvite B c ot.branchId st).1 = true
  · cases newContext
    · refine ⟨t ++ [Action.addRecordRouteIncoming, Action.setOutgoingProperty c], ?_, ?_⟩
      · simp [hr, State.emit, ht]
      · intro a ha
        rcases List.mem_append.1 ha with ha | ha
        · exact hsub a ha
        · simp only [List.mem_cons, List.not_mem_nil, or_false] at ha
          rcases ha with ha | ha <;> rw [ha] <;> rfl
    · refine ⟨t ++ [Action.addRecordRouteIncoming, Action.store c,
        Action.setOutgoingProperty c], ?_, ?_⟩
      · simp [hr, State.emit, ht]
      · intro a ha
        rcases List.mem_append.1 ha with ha | ha
        · exact hsub a ha
        · simp only [List.mem_cons, List.not_mem_nil, or_false] at ha
          rcases ha with ha | ha | ha <;> rw [ha] <;> rfl
  · exact ⟨t, by simp [hr, ht], hsub⟩

theorem incomingProperty_getD (ev : SipEvent) :
    (ev.incoming.getD { property := none }).property = ev.incomingProperty := by
  cases h : ev.incoming <;> simp [SipEvent.incomingProperty, h]

theorem inviteContext_onTransaction (B : Backend H) (self : MediaRelay) (h : H)
    (ev : SipEvent) (c : CallRef) (hit : ev.incomingProperty = some c) :
    self.inviteContext B (State.start h ev)
      = (some (c, false), ev.ot,
          { backend := h, ev := ev.withTransactions
            trace := [Action.createIncomingTransaction, Action.createOutgoingTransaction] }) := by
  have hp := incomingProperty_getD ev
  rw [hit] at hp
  simp [MediaRelay.inviteContext, State.start, createIncomingTransaction,
    createOutgoingTransaction, State.emit, hp, SipEvent.withTransactions, SipEvent.ot]

theorem inviteContext_found (B : Backend H) (self : MediaRelay) (h : H) (ev : SipEvent)
    (c : CallRef) (hit : ev.incomingProperty = none) (hfind : B.find h ev.msg = some c) :
    self.inviteContext B (State.start h ev)
      = (some (c, false), ev.ot,
          { backend := h, ev := ev.withTransactions
            trace := [Action.createIncomingTransaction, Action.createOutgoingTransaction,
              Action.find] }) := by
  have hp := incomingProperty_getD ev
  rw [hit] at hp
  simp [MediaRelay.inviteContext, State.start, createIncomingTransaction,
    createOutgoingTransaction, State.emit, hp, hfind, SipEvent.withTransactions, SipEvent.ot]

theorem inviteContext_rejected (B : Backend H) (self : MediaRelay) (h : H) (ev : SipEvent)
    (hit : ev.incomingProperty = none) (hfind : B.find h ev.msg = none)
    (hlim : self.limitReached B h) :
    self.inviteContext B (State.start h ev)
      = (none, ev.ot,
          { backend := h, ev := ev.withTransactions
            trace := [Action.createIncomingTransaction, Action.createOutgoingTransaction,
              Action.find, Action.reply 503 "Maximum number of calls reached"] }) := by
  have hp := incomingProperty_getD ev
  rw [hit] at hp
  unfold MediaRelay.limitReached at hlim
  simp [MediaRelay.inviteContext, State.start, createIncomingTransaction,
    createOutgoingTransaction, State.emit, hp, hfind, hlim, SipEvent.withTransactions,
    SipEvent.ot]

theorem inviteContext_admitted (B : Backend H) (self : MediaRelay) (h : H) (ev : SipEvent)
    (hit : ev.incomingProperty = none) (hfind : B.find h ev.msg = none)
    (hlim : ¬ self.limitReached B h) :
    self.inviteContext B (State.start h ev)
      = (some ((B.makeCall h ev.msg).1, true), ev.ot,
          self.configureContext B (B.makeCall h ev.msg).1 (admittedState B h ev)) := by
  have hp := incomingProperty_getD ev
  rw [hit] at hp
  unfold MediaRelay.limitReached at hlim
  simp [MediaRelay.inviteContext, State.start, createIncomingTransaction,
    createOutgoingTransaction, State.emit, hp, hfind, hlim, SipEvent.withTransactions,
    SipEvent.ot, admittedState]

/-- When `onRequest` gets a call context for an INVITE, it has only looked the context up
or created it: the message is as received, the outgoing transaction has its property as
before, and the trace holds setup actions only. -/
theorem inviteContext_some (B : Backend H) (self : MediaRelay) (h : H) (ev : SipEvent)
    (c : CallRef) (newContext : Bool) (ot : OutgoingTransaction) (pre : State H)
    (hc : self.inviteContext B (State.start h ev) = (some (c, newContext), ot, pre)) :
    ot = ev.ot ∧ pre.ev.msg = ev.msg ∧ pre.ev.outgoing = some ev.ot
      ∧ pre.ev.freshBranch = ev.freshBranch ∧ ∀ a ∈ pre.trace, a.ofSetup = true := by
  cases hit : ev.incomingProperty with
  | some d =>
    rw [inviteContext_onTransaction B self h ev d hit] at hc
    simp only [Prod.mk.injEq] at hc
    obtain ⟨-, h2, h3⟩ := hc
    subst h2; subst h3
    simp [SipEvent.withTransactions, Action.ofSetup]
  | none =>
    cases hfind : B.find h ev.msg with
    | some d =>
      rw [inviteContext_found B self h ev d hit hfind] at hc
      simp only [Prod.mk.injEq] at hc
      obtain ⟨-, h2, h3⟩ := hc
      subst h2; subst h3
      simp [SipEvent.withTransactions, Action.ofSetup]
    | none =>
      by_cases hlim : self.limitReached B h
      · rw [inviteContext_rejected B self h ev hit hfind hlim] at hc
        simp at hc
      · rw [inviteContext_admitted B self h ev hit hfind hlim] at hc
        simp only [Prod.mk.injEq] at hc
        obtain ⟨-, h2, h3⟩ := hc
        subst h2; subst h3
        obtain ⟨u, hu, hallu⟩ := configureContext_trace B self (B.makeCall h ev.msg).1
          (admittedState B h ev)
        rw [configureContext_ev, hu]
        refine ⟨rfl, rfl, rfl, rfl, ?_⟩
        intro a ha
        rcases List.mem_append.1 ha with ha | ha
        · simp only [admittedState, List.mem_cons, List.not_mem_nil, or_false] at ha
          rcases ha with ha | ha | ha | ha | ha <;> rw [ha] <;> rfl
        · have := hallu a ha
          cases a <;> first | rfl | exact this

theorem onRequest_invite (B : Backend H) (self : MediaRelay) (h : H) (ev : SipEvent)
    (c : CallRef) (newContext : Bool) (ot : OutgoingTransaction) (pre : State H)
    (hinv : ev.msg.method = SipMethod.invite)
    (hc : self.inviteContext B (State.start h ev) = (some (c, newContext), ot, pre)) :
    self.onRequest B (State.start h ev) = self.relayInvite B c newContext ot pre := by
  have hs : (State.start h ev).ev.msg.method = SipMethod.invite := hinv
  simp [MediaRelay.onRequest, hs, hc]

theorem onRequest_rejected (B : Backend H) (self : MediaRelay) (h : H) (ev : SipEvent)
    (hinv : ev.msg.method = SipMethod.invite) (hit : ev.incomingProperty = none)
    (hfind : B.find h ev.msg = none) (hlim : self.limitReached B h) :
    self.onRequest B (State.start h ev)
      = { backend := h
          ev := ev.withTransactions
          trace := [Action.createIncomingTransaction, Action.createOutgoingTransaction,
            Action.find, Action.reply 503 "Maximum number of calls reached"] } := by
  have hp := incomingProperty_getD ev
  rw [hit] at hp
  unfold MediaRelay.limitReached at hlim
  simp [MediaRelay.onRequest, MediaRelay.inviteContext, State.start, hinv,
    createIncomingTransaction,
    createOutgoingTransaction, State.emit, hp, hfind, hlim, SipEvent.withTransactions,
    SipEvent.ot]

theorem onRequest_admitted (B : Backend H) (self : MediaRelay) (h : H) (ev : SipEvent)
    (hinv : ev.msg.method = SipMethod.invite) (hit : ev.incomingProperty = none)
    (hfind : B.find h ev.msg = none) (hlim : ¬ self.limitReached B h) :
    self.onRequest B (State.start h ev)
      = self.relayInvite B (B.makeCall h ev.msg).1 true ev.ot
          (self.configureContext B (B.makeCall h ev.msg).1 (admittedState B h ev)) := by
  have hp := incomingProperty_getD ev
  rw [hit] at hp
  unfold MediaRelay.limitReached at hlim
  simp [MediaRelay.onRequest, MediaRelay.inviteContext, State.start, hinv,
    createIncomingTransaction,
    createOutgoingTransaction, State.emit, hp, hfind, hlim, SipEvent.withTransactions,
    SipEvent.ot, admittedState]

theorem onRequest_onTransaction (B : Backend H) (self : MediaRelay) (h : H) (ev : SipEvent)
    (c : CallRef) (hinv : ev.msg.method = SipMethod.invite)
    (hit : ev.incomingProperty = some c) :
    self.onRequest B (State.start h ev)
      = self.relayInvite B c false ev.ot
          { backend := h, ev := ev.withTransactions
            trace := [Action.createIncomingTransaction, Action.createOutgoingTransaction] } := by
  have hp := incomingProperty_getD ev
  rw [hit] at hp
  simp [MediaRelay.onRequest, MediaRelay.inviteContext, State.start, hinv,
    createIncomingTransaction,
    createOutgoingTransaction, State.emit, hp, SipEvent.withTransactions, SipEvent.ot]

theorem onRequest_found (B : Backend H) (self : MediaRelay) (h : H) (ev : SipEvent)
    (c : CallRef) (hinv : ev.msg.method = SipMethod.invite)
    (hit : ev.incomingProperty = none) (hfind : B.find h ev.msg = some c) :
    self.onRequest B (State.start h ev)
      = self.relayInvite B c false ev.ot
          { backend := h, ev := ev.withTransactions
            trace := [Action.createIncomingTransaction, Action.createOutgoingTransaction,
              Action.find] } := by
  have hp := incomingProperty_getD ev
  rw [hit] at hp
  simp [MediaRelay.onRequest, MediaRelay.inviteContext, State.start, hinv,
    createIncomingTransaction,
    createOutgoingTransaction, State.emit, hp, hfind, SipEvent.withTransactions, SipEvent.ot]

theorem ofRelayInvite_not503 (a : Action) (phrase : String) (ha : a.ofRelayInvite = true) :
    a ≠ Action.reply 503 phrase := by
  intro h
  rw [h] at ha
  simp [Action.ofRelayInvite, Action.ofNewInvite] at ha

theorem ofConfigure_not503 (a : Action) (phrase : String) (ha : a.ofConfigure = true) :
    a ≠ Action.reply 503 phrase := by
  intro h
  rw [h] at ha
  simp [Action.ofConfigure] at ha

/-- A 503 in the trace of `onRequest` comes from the admission test: the request is an
INVITE, no call context was found for it and the limit is reached. -/
theorem onRequest_503 (B : Backend H) (self : MediaRelay) (h : H) (ev : SipEvent)
    (phrase : String)
    (hmem : Action.reply 503 phrase ∈ (self.onRequest B (State.start h ev)).trace) :
    ev.msg.method = SipMethod.invite ∧ ev.incomingProperty = none ∧ B.find h ev.msg = none
      ∧ self.limitReached B h := by
  by_cases hinv : ev.msg.method = SipMethod.invite
  · cases hit : ev.incomingProperty with
    | some c =>
      exfalso
      rw [onRequest_onTransaction B self h ev c hinv hit] at hmem
      obtain ⟨t, ht, hall⟩ := relayInvite_trace B self c false ev.ot
        { backend := h, ev := ev.withTransactions
          trace := [Action.createIncomingTransaction, Action.createOutgoingTransaction] }
      rw [ht] at hmem
      rcases List.mem_append.1 hmem with hm | hm
      · simp at hm
      · exact ofRelayInvite_not503 _ phrase (hall _ hm) rfl
    | none =>
      cases hfind : B.find h ev.msg with
      | some c =>
        exfalso
        rw [onRequest_found B self h ev c hinv hit hfind] at hmem
        obtain ⟨t, ht, hall⟩ := relayInvite_trace B self c false ev.ot
          { backend := h, ev := ev.withTransactions
            trace := [Action.createIncomingTransaction, Action.createOutgoingTransaction,
              Action.find] }
        rw [ht] at hmem
        rcases List.mem_append.1 hmem with hm | hm
        · simp at hm
        · exact ofRelayInvite_not503 _ phrase (hall _ hm) rfl
      | none =>
        by_cases hlim : self.limitReached B h
        · exact ⟨hinv, rfl, rfl, hlim⟩
        · exfalso
          rw [onRequest_admitted B self h ev hinv hit hfind hlim] at hmem
          obtain ⟨t, ht, hall⟩ := relayInvite_trace B self (B.makeCall h ev.msg).1 true ev.ot
            (self.configureContext B (B.makeCall h ev.msg).1 (admittedState B h ev))
          obtain ⟨u, hu, hallu⟩ := configureContext_trace B self (B.makeCall h ev.msg).1
            (admittedState B h ev)
          rw [ht, hu] at hmem
          rcases List.mem_append.1 hmem with hm | hm
          · rcases List.mem_append.1 hm with hm | hm
            · simp [admittedState] at hm
            · exact ofConfigure_not503 _ phrase (hallu _ hm) rfl
          · exact ofRelayInvite_not503 _ phrase (hall _ hm) rfl
  · exfalso
    by_cases hbye : ev.msg.method = SipMethod.bye
    · cases hf : B.findEstablishedDialog h ev.msg <;>
        simp [MediaRelay.onRequest, State.start, hinv, hbye, State.emit, hf] at hmem
    · by_cases hcancel : ev.msg.method = SipMethod.cancel
      · cases hi : ev.incoming with
        | none => simp [MediaRelay.onRequest, State.start, hinv, hbye, hcancel, hi] at hmem
        | some it =>
          cases hpr : it.property <;>
            simp [MediaRelay.onRequest, State.start, hinv, hbye, hcancel, hi, hpr, State.emit]
              at hmem
      · simp [MediaRelay.onRequest, State.start, hinv, hbye, hcancel] at hmem

/-- C1 (admission limit).  For an INVITE for which neither the property of the incoming
transaction nor `CallStore::find` gives a call context, `onRequest` answers 503 "Maximum
number of calls reached" without creating a call, without changing the message, without a
record-route and without `CallStore::store` if and only if `mMaxCalls > 0` and
`size() >= mMaxCalls`; it then does nothing else (the trace is the transaction pair, the
lookup and the reply, and the backend is as before).  With `mMaxCalls = 0` no request is
answered 503, and an INVITE for which a call context is found is never answered 503. -/
theorem onRequest_admission_limit (B : Backend H) (self : MediaRelay) (h : H) (ev : SipEvent)
    (hinv : ev.msg.method = SipMethod.invite) (hit : ev.incomingProperty = none)
    (hfind : B.find h ev.msg = none) :
    ((self.mMaxCalls > 0 ∧ B.size h ≥ self.mMaxCalls) ↔
      (Action.reply 503 "Maximum number of calls reached"
          ∈ (self.onRequest B (State.start h ev)).trace
        ∧ (∀ c, Action.makeCall c ∉ (self.onRequest B (State.start h ev)).trace)
        ∧ (self.onRequest B (State.start h ev)).ev.msg = ev.msg
        ∧ Action.addRecordRouteIncoming ∉ (self.onRequest B (State.start h ev)).trace
        ∧ (∀ c, Action.store c ∉ (self.onRequest B (State.start h ev)).trace)))
    ∧ ((self.mMaxCalls > 0 ∧ B.size h ≥ self.mMaxCalls) →
        (self.onRequest B (State.start h ev)).trace
            = [Action.createIncomingTransaction, Action.createOutgoingTransaction, Action.find,
                Action.reply 503 "Maximum number of calls reached"]
          ∧ (self.onRequest B (State.start h ev)).backend = h)
    ∧ (self.mMaxCalls = 0 → ∀ (h2 : H) (ev2 : SipEvent) (phrase : String),
        Action.reply 503 phrase ∉ (self.onRequest B (State.start h2 ev2)).trace)
    ∧ (∀ (h2 : H) (ev2 : SipEvent) (c : CallRef),
        ev2.incomingProperty = some c ∨ B.find h2 ev2.msg = some c →
        ∀ phrase : String,
          Action.reply 503 phrase ∉ (self.onRequest B (State.start h2 ev2)).trace) := by
  refine ⟨⟨?_, ?_⟩, ?_, ?_, ?_⟩
  · intro hlim
    rw [onRequest_rejected B self h ev hinv hit hfind hlim]
    simp [SipEvent.withTransactions]
  · intro hr
    exact (onRequest_503 B self h ev _ hr.1).2.2.2
  · intro hlim
    rw [onRequest_rejected B self h ev hinv hit hfind hlim]
    exact ⟨rfl, rfl⟩
  · intro h0 h2 ev2 phrase hmem
    have hl := (onRequest_503 B self h2 ev2 phrase hmem).2.2.2
    unfold MediaRelay.limitReached at hl
    omega
  · intro h2 ev2 c hc phrase hmem
    have hl := onRequest_503 B self h2 ev2 phrase hmem
    rcases hc with hc | hc
    · rw [hl.2.1] at hc; cases hc
    · rw [hl.2.2.1] at hc; cases hc

theorem onRequest_admission_limit_witness :
    (MediaRelay.onRequest Relay.backend (sampleModule 1) (State.start busyRelay sampleInviteEvent)).trace
        = [Action.createIncomingTransaction, Action.createOutgoingTransaction, Action.find,
            Action.reply 503 "Maximum number of calls reached"]
      ∧ (MediaRelay.onRequest Relay.backend (sampleModule 1)
          (State.start busyRelay sampleInviteEvent)).backend = busyRelay :=
  (onRequest_admission_limit Relay.backend (sampleModule 1) busyRelay sampleInviteEvent
    (by decide) (by decide) (by decide)).2.1 (by decide)


/-- C2 (port exhaustion).  For an INVITE with a From-tag and a parsable SDP without the
marker attribute, when `checkMediaValid()` is false after `initChannels`:
`processNewInvite` returns false, has called `initChannels` and replied 500 "RTP port pool
exhausted" once, and nothing else (no iteration, masquerade, ICE candidate, attribute,
`SdpModifier::update` or `MediaRelayServer::update`; the event and its message are as
before); the caller's lines 243-248 add nothing; and `onRequest` as a whole, whichever
way it got the call context, ends with that reply as its only reply, after setup actions
only: no record-route, no property on the outgoing transaction, no `CallStore::store`,
message unchanged. -/
theorem processNewInvite_port_exhaustion (B : Backend H) (self : MediaRelay) (c : CallRef)
    (branchId : String) (st : State H) (from_tag : String) (m : Sdp)
    (hf : st.ev.msg.fromTag = some from_tag) (hp : createFromSipMsg st.ev.msg = some m)
    (hm : m.hasAttribute self.mSdpMangledParam = false)
    (hv : B.checkMediaValid (initBackend B st.ev.msg c m from_tag branchId st.backend) c = false) :
    self.processNewInvite B c branchId st
        = (false,
            { backend := initBackend B st.ev.msg c m from_tag branchId st.backend
              ev := st.ev
              trace := st.trace ++ [initCall B st.ev.msg c from_tag branchId,
                Action.reply 500 "RTP port pool exhausted"] })
    ∧ (∀ (newContext : Bool) (ot : OutgoingTransaction), ot.branchId = branchId →
        self.relayInvite B c newContext ot st
          = { backend := initBackend B st.ev.msg c m from_tag branchId st.backend
              ev := st.ev
              trace := st.trace ++ [initCall B st.ev.msg c from_tag branchId,
                Action.reply 500 "RTP port pool exhausted"] })
    ∧ (∀ (h : H) (ev : SipEvent) (newContext : Bool) (ot : OutgoingTransaction),
        ev.msg.method = SipMethod.invite →
        self.inviteContext B (State.start h ev) = (some (c, newContext), ot, st) →
        ot.branchId = branchId →
        (self.onRequest B (State.start h ev)).trace
            = st.trace ++ [initCall B ev.msg c from_tag branchId,
                Action.reply 500 "RTP port pool exhausted"]
          ∧ (∀ a ∈ st.trace, a.ofSetup = true)
          ∧ ((self.onRequest B (State.start h ev)).trace.filter Action.isReply
              = [Action.reply 500 "RTP port pool exhausted"])
          ∧ Action.addRecordRouteIncoming ∉ (self.onRequest B (State.start h ev)).trace
          ∧ (∀ d, Action.store d ∉ (self.onRequest B (State.start h ev)).trace)
          ∧ (∀ d, Action.setOutgoingProperty d ∉ (self.onRequest B (State.start h ev)).trace)
          ∧ (self.onRequest B (State.start h ev)).ev.msg = ev.msg
          ∧ (self.onRequest B (State.start h ev)).ev.outgoing = some ev.ot) := by
  have h1 := processNewInvite_exhausted B self c branchId st from_tag m hf hp hm hv
  have h2 : ∀ (newContext : Bool) (ot : OutgoingTransaction), ot.branchId = branchId →
      self.relayInvite B c newContext ot st
        = { backend := initBackend B st.ev.msg c m from_tag branchId st.backend
            ev := st.ev
            trace := st.trace ++ [initCall B st.ev.msg c from_tag branchId,
              Action.reply 500 "RTP port pool exhausted"] } := by
    intro newContext ot hb
    subst hb
    simp [MediaRelay.relayInvite, h1]
  refine ⟨h1, h2, ?_⟩
  intro h ev newContext ot hinv hc hb
  obtain ⟨-, hmsg, hout, -, hsetup⟩ := inviteContext_some B self h ev c newContext ot st hc
  rw [onRequest_invite B self h ev c newContext ot st hinv hc, h2 newContext ot hb]
  have hno : ∀ a ∈ st.trace, a.isReply = false ∧ a ≠ Action.addRecordRouteIncoming
      ∧ (∀ d, a ≠ Action.store d) ∧ (∀ d, a ≠ Action.setOutgoingProperty d) := by
    intro a ha
    have := hsetup a ha
    cases a <;> simp_all [Action.ofSetup, Action.ofConfigure, Action.isReply]
  have hfil : st.trace.filter Action.isReply = [] := by
    rw [List.filter_eq_nil_iff]
    intro a ha
    simp [(hno a ha).1]
  refine ⟨by rw [hmsg], hsetup, ?_, ?_, ?_, ?_, hmsg, hout⟩
  · simp [List.filter_append, hfil, initCall, Action.isReply, List.filter]
  · intro hmem
    rcases List.mem_append.1 hmem with hx | hx
    · exact (hno _ hx).2.1 rfl
    · simp [initCall] at hx
  · intro d hmem
    rcases List.mem_append.1 hmem with hx | hx
    · exact (hno _ hx).2.2.1 d rfl
    · simp [initCall] at hx
  · intro d hmem
    rcases List.mem_append.1 hmem with hx | hx
    · exact (hno _ hx).2.2.2 d rfl
    · simp [initCall] at hx

theorem processNewInvite_port_exhaustion_witness :
    (MediaRelay.onRequest Relay.backend (sampleModule 0)
        (State.start busyRelay sampleInviteEvent)).trace
      = [Action.createIncomingTransaction, Action.createOutgoingTransaction, Action.find,
          Action.makeCall 1, Action.setIncomingProperty 1,
          Action.initChannels 1 "alice" "z9hG4bK.1" "10.0.0.1" "10.0.0.2",
          Action.reply 500 "RTP port pool exhausted"] :=
  ((processNewInvite_port_exhaustion Relay.backend (sampleModule 0) 1 "z9hG4bK.1"
      (admittedState Relay.backend busyRelay sampleInviteEvent) "alice" sampleOffer
      (by rfl) (by rfl) (by rfl) (by rfl)).2.2
    busyRelay sampleInviteEvent true sampleInviteEvent.ot (by rfl) (by rfl) (by rfl)).1

theorem destinationCalls_getElem? (c : CallRef) (tag branch : String) (early : Bool)
    (ls : List MediaLine) :
    ∀ (k i : Nat), (destinationCalls c tag branch early k ls)[i]?
      = (ls[i]?).map (fun l =>
          Action.setChannelDestinations c (k + i) l.addr l.port tag branch early) := by
  induction ls with
  | nil => intro k i; simp [destinationCalls]
  | cons l ls ih =>
    intro k i
    cases i with
    | zero => simp [destinationCalls]
    | succ i =>
      simp only [destinationCalls, List.getElem?_cons_succ, ih]
      have : k + 1 + i = k + (i + 1) := by omega
      rw [this]

theorem masqueradeFrom_getElem? (src : Nat → String × Nat) (ls : List MediaLine) :
    ∀ (k i : Nat), (masqueradeFrom src k ls)[i]?
      = (ls[i]?).map (fun l => { l with addr := (src (k + i)).1, port := (src (k + i)).2 }) := by
  induction ls with
  | nil => intro k i; simp [masqueradeFrom]
  | cons l ls ih =>
    intro k i
    cases i with
    | zero => simp [masqueradeFrom]
    | succ i =>
      simp only [masqueradeFrom, List.getElem?_cons_succ, ih]
      have : k + 1 + i = k + (i + 1) := by omega
      rw [this]

theorem addIceCandidateFrom_getElem? (src dst : Nat → String × Nat) (ls : List MediaLine) :
    ∀ (k i : Nat), (addIceCandidateFrom src dst k ls)[i]?
      = (ls[i]?).map (fun l => { l with candidates := l.candidates ++
          [⟨(src (k + i)).1, (src (k + i)).2, (dst (k + i)).1, (dst (k + i)).2⟩] }) := by
  induction ls with
  | nil => intro k i; simp [addIceCandidateFrom]
  | cons l ls ih =>
    intro k i
    cases i with
    | zero => simp [addIceCandidateFrom]
    | succ i =>
      simp only [addIceCandidateFrom, List.getElem?_cons_succ, ih]
      have : k + 1 + i = k + (i + 1) := by omega
      rw [this]

/-- Media line `i` of the SDP `processNewInvite` commits carries the channel source the
masquerading read for index `i`. -/
theorem relayedSdp_media (B : Backend H) (self : MediaRelay) (c : CallRef) (m : Sdp)
    (from_tag to_tag branch : String) (h : H) (i : Nat) :
    (((relayedSdp B self c m from_tag to_tag branch h).media)[i]?).map (fun l => (l.addr, l.port))
      = (m.media[i]?).map (fun _ => B.getChannelSources h c i to_tag branch) := by
  have hmedia : (relayedSdp B self c m from_tag to_tag branch h).media
      = addIceCandidateFrom (fun i => B.getChannelSources h c i to_tag branch)
          (fun i => B.getChannelDestinations h c i from_tag branch) 0
          (masqueradeFrom (fun i => B.getChannelSources h c i to_tag branch) 0 m.media) := by
    unfold relayedSdp
    by_cases hk : self.mSdpMangledParam = "" <;>
      simp [hk, Sdp.masquerade, Sdp.addIceCandidate, Sdp.addAttribute]
  rw [hmedia, addIceCandidateFrom_getElem?, masqueradeFrom_getElem?]
  cases m.media[i]? <;> simp

theorem processNewInvite_true (B : Backend H) (self : MediaRelay) (c : CallRef)
    (branchId : String) (st : State H) (from_tag : String) (m : Sdp)
    (hf : st.ev.msg.fromTag = some from_tag) (hp : createFromSipMsg st.ev.msg = some m)
    (hr : (self.processNewInvite B c branchId st).1 = true) :
    m.hasAttribute self.mSdpMangledParam = false
      ∧ B.checkMediaValid (initBackend B st.ev.msg c m from_tag branchId st.backend) c = true := by
  cases hm : m.hasAttribute self.mSdpMangledParam with
  | true =>
    rw [processNewInvite_marked B self c branchId st m hp hm] at hr
    cases hr
  | false =>
    cases hv : B.checkMediaValid (initBackend B st.ev.msg c m from_tag branchId st.backend) c with
    | false =>
      rw [processNewInvite_exhausted B self c branchId st from_tag m hf hp hm hv] at hr
      cases hr
    | true => exact ⟨rfl, rfl⟩

theorem destinationsBackend_eq_foldl (B : Backend H) (c : CallRef) (m : Sdp)
    (tag branch : String) (early : Bool) (ls : List MediaLine) :
    ∀ (k : Nat) (h : H), destinationsBackend B c m tag branch early k ls h
      = (ls.enumFrom k).foldl (fun acc p =>
          B.setChannelDestinations acc c m p.1 p.2.addr p.2.port tag branch early) h := by
  induction ls with
  | nil => intro k h; rfl
  | cons l ls ih =>
    intro k h
    simp [destinationsBackend, List.enumFrom, ih]

theorem relayedSdp_attributes (B : Backend H) (self : MediaRelay) (c : CallRef) (m : Sdp)
    (from_tag to_tag branch : String) (h : H) :
    (relayedSdp B self c m from_tag to_tag branch h).attributes
      = m.attributes ++ (if self.mSdpMangledParam ≠ "" then [(self.mSdpMangledParam, "yes")]
          else []) := by
  unfold relayedSdp
  by_cases hk : self.mSdpMangledParam = "" <;>
    simp [hk, Sdp.masquerade, Sdp.addIceCandidate, Sdp.addAttribute]

/-- C3 (masquerading of an INVITE).  When `processNewInvite` relays an INVITE (returns
true) whose offer `m` has the media lines `m.media`: what it appends to the trace is
`initChannels`, then one `setChannelDestinations` per media line, in order, the one for
line `i` carrying the offer's own address and port of line `i`, the From-tag, the branch
id of the outgoing transaction and `isEarlyMedia = false`, then `masquerade`,
`addIceCandidate`, the marker, `SdpModifier::update` and `MediaRelayServer::update`; so
the destinations are recorded before any rewriting.  The backend it leaves is the one of
`initChannels`, then of those `setChannelDestinations` calls applied in order with the
offer's own addresses and ports, then of `MediaRelayServer::update`.  The SDP committed
into the message, the rest of the event being as before, has at every media line `i` of
the offer the address and port that `getChannelSources(i, to_tag, branchId)` gives on the
call once the destinations are recorded, and the attributes of the offer followed by the
marker when there is one. -/
theorem processNewInvite_masquerade (B : Backend H) (self : MediaRelay) (c : CallRef)
    (branchId : String) (st : State H) (from_tag : String) (m : Sdp)
    (hf : st.ev.msg.fromTag = some from_tag) (hp : createFromSipMsg st.ev.msg = some m)
    (hr : (self.processNewInvite B c branchId st).1 = true) :
    (self.processNewInvite B c branchId st).2.trace
        = st.trace ++ ([initCall B st.ev.msg c from_tag branchId]
            ++ destinationCalls c from_tag branchId false 0 m.media
            ++ [Action.masquerade c (st.ev.msg.toTag.getD "") branchId,
                Action.addIceCandidate c (st.ev.msg.toTag.getD "") from_tag branchId]
            ++ markerCalls self
            ++ [Action.sdpUpdate (relayedSdp B self c m from_tag (st.ev.msg.toTag.getD "")
                  branchId (recordedBackend B st.ev.msg c m from_tag branchId st.backend)),
                Action.serverUpdate])
    ∧ (self.processNewInvite B c branchId st).2.backend
        = B.serverUpdate (recordedBackend B st.ev.msg c m from_tag branchId st.backend)
    ∧ recordedBackend B st.ev.msg c m from_tag branchId st.backend
        = (m.media.enumFrom 0).foldl (fun acc p =>
            B.setChannelDestinations acc c m p.1 p.2.addr p.2.port from_tag branchId false)
            (B.initChannels st.backend c m from_tag branchId
              (B.getPreferredIp (fromHost st.ev.msg)) (B.getPreferredIp (destHost st.ev.msg)))
    ∧ (self.processNewInvite B c branchId st).2.ev
        = { st.ev with msg := { st.ev.msg with payload := some (some
              (relayedSdp B self c m from_tag (st.ev.msg.toTag.getD "") branchId
                (recordedBackend B st.ev.msg c m from_tag branchId st.backend))) } }
    ∧ (∀ i : Nat,
        (((relayedSdp B self c m from_tag (st.ev.msg.toTag.getD "") branchId
            (recordedBackend B st.ev.msg c m from_tag branchId st.backend)).media)[i]?).map
          (fun l => (l.addr, l.port))
        = (m.media[i]?).map (fun _ =>
            B.getChannelSources (recordedBackend B st.ev.msg c m from_tag branchId st.backend)
              c i (st.ev.msg.toTag.getD "") branchId))
    ∧ (relayedSdp B self c m from_tag (st.ev.msg.toTag.getD "") branchId
          (recordedBackend B st.ev.msg c m from_tag branchId st.backend)).attributes
        = m.attributes ++ (if self.mSdpMangledParam ≠ "" then [(self.mSdpMangledParam, "yes")]
            else [])
    ∧ (destinationCalls c from_tag branchId false 0 m.media).length = m.media.length
    ∧ (∀ i : Nat, (destinationCalls c from_tag branchId false 0 m.media)[i]?
        = (m.media[i]?).map (fun l =>
            Action.setChannelDestinations c i l.addr l.port from_tag branchId false))
    ∧ (∀ a ∈ markerCalls self, ∀ d i addr port tag branch early,
        a ≠ Action.setChannelDestinations d i addr port tag branch early) := by
  obtain ⟨hm, hv⟩ := processNewInvite_true B self c branchId st from_tag m hf hp hr
  rw [processNewInvite_relayed B self c branchId st from_tag m hf hp hm hv]
  refine ⟨rfl, rfl, ?_, ?_, ?_, ?_, ?_, ?_, ?_⟩
  · unfold recordedBackend initBackend
    exact destinationsBackend_eq_foldl B c m from_tag branchId false m.media 0 _
  · simp [Sdp.update]
  · intro i
    exact relayedSdp_media B self c m from_tag _ branchId _ i
  · exact relayedSdp_attributes B self c m from_tag _ branchId _
  · have hlen : ∀ (ls : List MediaLine) (k : Nat),
        (destinationCalls c from_tag branchId false k ls).length = ls.length := by
      intro ls
      induction ls with
      | nil => intro k; rfl
      | cons l ls ih => intro k; simp [destinationCalls, ih]
    exact hlen _ _
  · intro i
    rw [destinationCalls_getElem?]
    simp
  · intro a ha
    unfold markerCalls at ha
    split at ha
    · rw [List.mem_singleton.1 ha]; intros; simp
    · simp at ha

theorem processNewInvite_masquerade_witness :
    (MediaRelay.processNewInvite Relay.backend (sampleModule 0) 0 "z9hG4bK.1"
        (admittedState Relay.backend idleRelay sampleInviteEvent)).2.backend
      = { calls := [{ callId := "call-1", fromTag := "alice", calleeTag := none
                      established := false, terminated := false
                      branches :=
                        [("z9hG4bK.1",
                          [{ localPort := some 5000, declared := [("alice", "10.0.0.1", 4000)] },
                           { localPort := some 5002,
                             declared := [("alice", "10.0.0.1", 4002)] }])] }]
          stored := []
          freePorts := [5004, 5006]
          address := "192.0.2.1" }
    ∧ (MediaRelay.processNewInvite Relay.backend (sampleModule 0) 0 "z9hG4bK.1"
        (admittedState Relay.backend idleRelay sampleInviteEvent)).2.ev.msg.payload
      = some (some
          { media := [{ addr := "192.0.2.1", port := 5000
                        candidates := [⟨"192.0.2.1", 5000, "10.0.0.1", 4000⟩] },
                      { addr := "192.0.2.1", port := 5002
                        candidates := [⟨"192.0.2.1", 5002, "10.0.0.1", 4002⟩] }]
            attributes := [("nortpproxy", "yes")] }) :=
  have key := processNewInvite_masquerade Relay.backend (sampleModule 0) 0 "z9hG4bK.1"
    (admittedState Relay.backend idleRelay sampleInviteEvent) "alice" sampleOffer
    (by rfl) (by rfl) (by rfl)
  ⟨key.2.1, congrArg (fun e => e.msg.payload) key.2.2.2.1⟩

/-- C4 (200 Ok out of any transaction).  For a response with status 200 and CSeq method
INVITE whose event has neither an outgoing nor an incoming transaction, `onResponse`
completes and only looks the established dialog up and then: when a call with callee tag
`T1` is found and the To-tag is absent or differs from `T1`, it emits the ACK+BYE and
terminates the processing if `bye-orphan-dialogs` is set, and does nothing if it is not;
when the To-tag is `T1`, it terminates the processing without ACK+BYE; when no established
dialog is found, it does nothing.  In every case the message, the event and the backend
are as before and no action of `processResponseWithSDP` is in the trace. -/
theorem onResponse_out_of_transaction (B : Backend H) (self : MediaRelay) (h : H)
    (ev : SipEvent) (hot : ev.outgoing = none) (hit : ev.incoming = none)
    (hcseq : ev.msg.cseqMethod = some SipMethod.invite) (hstatus : ev.msg.status = 200) :
    ∃ out : State H, self.onResponse B (State.start h ev) = some out
    ∧ out.ev = ev
    ∧ out.backend = h
    ∧ (∀ c : CallRef, B.findEstablishedDialog h ev.msg = some c →
        ((ev.msg.toTag = none ∨ ev.msg.toTag ≠ some (B.getCalleeTag h c)) →
          self.mByeOrphanDialogs = true →
          out.trace = [Action.findEstablishedDialog, Action.ackbye, Action.terminateProcessing])
        ∧ (ev.msg.toTag = some (B.getCalleeTag h c) →
          out.trace = [Action.findEstablishedDialog, Action.terminateProcessing])
        ∧ ((ev.msg.toTag = none ∨ ev.msg.toTag ≠ some (B.getCalleeTag h c)) →
          self.mByeOrphanDialogs = false →
          out.trace = [Action.findEstablishedDialog]))
    ∧ (B.findEstablishedDialog h ev.msg = none →
        out.trace = [Action.findEstablishedDialog]) := by
  have hpre : self.onResponse B (State.start h ev)
      = some (self.onResponseOutOfTransaction B none none (State.start h ev)) := by
    simp [MediaRelay.onResponse, MediaRelay.onResponseOutgoing, MediaRelay.onResponseIncoming,
      State.start, hot, hit]
  refine ⟨_, hpre, ?_⟩
  cases hfind : B.findEstablishedDialog h ev.msg with
  | none =>
    simp [MediaRelay.onResponseOutOfTransaction, State.start, hcseq, hstatus, hfind, State.emit]
  | some c =>
    by_cases htag : ev.msg.toTag = some (B.getCalleeTag h c)
    · have hne : ¬ (some (B.getCalleeTag h c) = ev.msg.toTag) → False := fun hx => hx htag.symm
      simp [MediaRelay.onResponseOutOfTransaction, State.start, hcseq, hstatus, hfind,
        State.emit, htag]
    · have hne : ¬ (some (B.getCalleeTag h c) = ev.msg.toTag) := fun hx => htag hx.symm
      cases hbye : self.mByeOrphanDialogs <;>
        simp [MediaRelay.onResponseOutOfTransaction, State.start, hcseq, hstatus, hfind,
          State.emit, htag, hne, hbye]

theorem onResponse_out_of_transaction_witness :
    ∃ out : State Relay,
      MediaRelay.onResponse Relay.backend (sampleModule 0)
          (State.start establishedRelay
            (strayResponseEvent (sampleResponse 200 (some "dave") (some (some sampleAnswer)))))
        = some out
      ∧ out.trace = [Action.findEstablishedDialog, Action.ackbye, Action.terminateProcessing] :=
  (onResponse_out_of_transaction Relay.backend (sampleModule 0) establishedRelay
      (strayResponseEvent (sampleResponse 200 (some "dave") (some (some sampleAnswer))))
      (by rfl) (by rfl) (by rfl) (by rfl)).imp
    (fun _ hx => ⟨hx.1, (hx.2.2.2.1 0 (by rfl)).1 (by decide) (by rfl)⟩)

theorem establishOn200Ok_eq (B : Backend H) (c : CallRef) (branchId : String) (st : State H) :
    establishOn200Ok B c branchId st
      = { backend := establishedBackend B c branchId st.ev.msg st.backend
          ev := st.ev
          trace := st.trace ++ establishCalls B c branchId st.backend } := by
  cases he : B.isDialogEstablished st.backend c <;>
    simp [establishOn200Ok, establishedBackend, establishCalls, State.emit, he]

theorem processResponseWithSDP_noToTag (B : Backend H) (self : MediaRelay) (c : CallRef)
    (branchId : String) (st : State H) (ht : st.ev.msg.toTag = none) :
    self.processResponseWithSDP B c branchId st = some st := by
  simp [MediaRelay.processResponseWithSDP, ht]

theorem processResponseWithSDP_ok (B : Backend H) (self : MediaRelay) (c : CallRef)
    (branchId : String) (st : State H) (to_tag from_tag : String) (m : Sdp)
    (ht : st.ev.msg.toTag = some to_tag) (hfrom : st.ev.msg.fromTag = some from_tag)
    (hs : st.ev.msg.status = 200)
    (hp : createFromSipMsg st.ev.msg = some m)
    (hm : m.hasAttribute self.mSdpMangledParam = false) :
    self.processResponseWithSDP B c branchId st
      = some
        { backend := answeredBackend B c m to_tag branchId st.ev.msg st.backend
          ev := { st.ev with msg :=
            (answeredSdp B c m from_tag to_tag branchId
              (answeredBackend B c m to_tag branchId st.ev.msg st.backend)).update st.ev.msg }
          trace := st.trace ++ establishCalls B c branchId st.backend
            ++ answerCalls c m from_tag to_tag branchId false
                (answeredSdp B c m from_tag to_tag branchId
                  (answeredBackend B c m to_tag branchId st.ev.msg st.backend)) } := by
  simp [MediaRelay.processResponseWithSDP, ht, hfrom, hs, hp, hm, establishOn200Ok_eq,
    State.emit, Sdp.iterate, iterateFrom_trace, iterateFrom_backend, iterateFrom_ev,
    answeredSdp, answerCalls, answeredBackend]

theorem processResponseWithSDP_early (B : Backend H) (self : MediaRelay) (c : CallRef)
    (branchId : String) (st : State H) (to_tag from_tag : String) (m : Sdp)
    (ht : st.ev.msg.toTag = some to_tag) (hfrom : st.ev.msg.fromTag = some from_tag)
    (hs : st.ev.msg.status ≠ 200)
    (hp : createFromSipMsg st.ev.msg = some m)
    (hm : m.hasAttribute self.mSdpMangledParam = false) :
    self.processResponseWithSDP B c branchId st
      = some
        { backend := destinationsBackend B c m to_tag branchId true 0 m.media st.backend
          ev := { st.ev with msg :=
            ((answeredSdp B c m from_tag to_tag branchId
              (destinationsBackend B c m to_tag branchId true 0 m.media st.backend)).update
                st.ev.msg) }
          trace := st.trace
            ++ answerCalls c m from_tag to_tag branchId true
                (answeredSdp B c m from_tag to_tag branchId
                  (destinationsBackend B c m to_tag branchId true 0 m.media st.backend)) } := by
  simp [MediaRelay.processResponseWithSDP, ht, hfrom, hs, hp, hm, State.emit,
    Sdp.iterate, iterateFrom_trace, iterateFrom_backend, iterateFrom_ev, answeredSdp, answerCalls]

/-- Without a From-tag, a response whose answer would be rewritten does not complete. -/
theorem processResponseWithSDP_noFromTag (B : Backend H) (self : MediaRelay) (c : CallRef)
    (branchId : String) (st : State H) (to_tag : String) (m : Sdp)
    (ht : st.ev.msg.toTag = some to_tag) (hfrom : st.ev.msg.fromTag = none)
    (hp : createFromSipMsg st.ev.msg = some m)
    (hm : m.hasAttribute self.mSdpMangledParam = false) :
    self.processResponseWithSDP B c branchId st = none := by
  simp [MediaRelay.processResponseWithSDP, ht, hfrom, hp, hm]

/-- When the answer does not parse or carries the marker, `processResponseWithSDP` does the
establishment step of a 200 Ok and nothing else. -/
theorem processResponseWithSDP_unrelayed (B : Backend H) (self : MediaRelay) (c : CallRef)
    (branchId : String) (st : State H)
    (hp : ∀ m, createFromSipMsg st.ev.msg = some m →
      m.hasAttribute self.mSdpMangledParam = true) :
    self.processResponseWithSDP B c branchId st
      = some (if st.ev.msg.toTag ≠ none ∧ st.ev.msg.status = 200 then
          { backend := establishedBackend B c branchId st.ev.msg st.backend
            ev := st.ev
            trace := st.trace ++ establishCalls B c branchId st.backend }
        else st) := by
  cases ht : st.ev.msg.toTag with
  | none => simp [MediaRelay.processResponseWithSDP, ht]
  | some to_tag =>
    cases hc : createFromSipMsg st.ev.msg with
    | none =>
      by_cases hs : st.ev.msg.status = 200 <;>
        simp [MediaRelay.processResponseWithSDP, ht, hs, hc, establishOn200Ok_eq]
    | some m =>
      have hm := hp m hc
      by_cases hs : st.ev.msg.status = 200 <;>
        simp [MediaRelay.processResponseWithSDP, ht, hs, hc, hm, establishOn200Ok_eq]

/-- What `processResponseWithSDP` leaves alone when it completes: the transactions of the
event and every field of the message but the payload. -/
theorem processResponseWithSDP_frame (B : Backend H) (self : MediaRelay) (c : CallRef)
    (branchId : String) (st out : State H)
    (hout : self.processResponseWithSDP B c branchId st = some out) :
    out.ev.incoming = st.ev.incoming
      ∧ out.ev.outgoing = st.ev.outgoing
      ∧ out.ev.msg.status = st.ev.msg.status
      ∧ out.ev.msg.cseqMethod = st.ev.msg.cseqMethod
      ∧ out.ev.msg.toTag = st.ev.msg.toTag := by
  by_cases hp : ∀ m, createFromSipMsg st.ev.msg = some m →
      m.hasAttribute self.mSdpMangledParam = true
  · rw [processResponseWithSDP_unrelayed B self c branchId st hp] at hout
    cases hout
    split <;> simp
  · simp only [not_forall] at hp
    obtain ⟨m, hc, hm⟩ := hp
    have hm2 : m.hasAttribute self.mSdpMangledParam = false := by
      cases hx : m.hasAttribute self.mSdpMangledParam
      · rfl
      · exact absurd hx hm
    cases ht : st.ev.msg.toTag with
    | none =>
      rw [processResponseWithSDP_noToTag B self c branchId st ht] at hout
      cases hout
      exact ⟨rfl, rfl, rfl, rfl, ht⟩
    | some to_tag =>
      cases hfrom : st.ev.msg.fromTag with
      | none =>
        rw [processResponseWithSDP_noFromTag B self c branchId st to_tag m ht hfrom hc hm2]
          at hout
        cases hout
      | some from_tag =>
        by_cases hs : st.ev.msg.status = 200
        · rw [processResponseWithSDP_ok B self c branchId st to_tag from_tag m ht hfrom hs hc
            hm2] at hout
          cases hout
          simp [Sdp.update, ht]
        · rw [processResponseWithSDP_early B self c branchId st to_tag from_tag m ht hfrom hs
            hc hm2] at hout
          cases hout
          simp [Sdp.update, ht]

theorem onResponseOutgoing_relayed (B : Backend H) (self : MediaRelay) (h : H) (ev : SipEvent)
    (ot : OutgoingTransaction) (c : CallRef) (hot : ev.outgoing = some ot)
    (hprop : ot.property = some c) (hcseq : ev.msg.cseqMethod = some SipMethod.invite)
    (hs : ev.msg.status = 200 ∨ isEarlyMedia ev.msg = true) :
    self.onResponseOutgoing B (State.start h ev)
      = self.processResponseWithSDP B c ot.branchId (authState B h ev) := by
  rcases ev with ⟨⟨callId, method, status, cseq, fromTag, toTag, viaR, viaH, reqH, auth, payload⟩,
    inc, out, fb⟩
  simp only at hot hcseq hs
  subst hot
  subst hcseq
  have hs2 : status = 200 ∨ ((status = 180 ∨ status = 183) ∧ payload.isSome = true) := by
    rcases hs with hs | hs
    · exact Or.inl hs
    · right
      unfold isEarlyMedia at hs
      split at hs
      · rename_i hx; exact ⟨hx, hs⟩
      · cases hs
  simp [MediaRelay.onResponseOutgoing, State.start, hprop, State.emit, authState, authEvent,
    isEarlyMedia, hs2]

theorem onResponseOutgoing_final (B : Backend H) (self : MediaRelay) (h : H) (ev : SipEvent)
    (ot : OutgoingTransaction) (c : CallRef) (hot : ev.outgoing = some ot)
    (hprop : ot.property = some c) (hcseq : ev.msg.cseqMethod = some SipMethod.invite)
    (hs : ev.msg.status ≥ 300) :
    self.onResponseOutgoing B (State.start h ev)
      = some { backend := B.removeBranch h c ot.branchId
               ev := authEvent B ev
               trace := [Action.fixAuthChallengeForSDP, Action.removeBranch c ot.branchId] } := by
  rcases ev with ⟨⟨callId, method, status, cseq, fromTag, toTag, viaR, viaH, reqH, auth, payload⟩,
    inc, out, fb⟩
  simp only at hot hcseq hs
  subst hot
  subst hcseq
  have h1 : ¬ status = 200 := by omega
  have h2 : ¬ (status = 180 ∨ status = 183) := by omega
  simp [MediaRelay.onResponseOutgoing, State.start, hprop, State.emit, authEvent,
    isEarlyMedia, h1, h2, hs]

theorem onResponseOutgoing_other (B : Backend H) (self : MediaRelay) (h : H) (ev : SipEvent)
    (ot : OutgoingTransaction) (c : CallRef) (hot : ev.outgoing = some ot)
    (hprop : ot.property = some c) (hcseq : ev.msg.cseqMethod = some SipMethod.invite)
    (h200 : ev.msg.status ≠ 200) (hearly : isEarlyMedia ev.msg = false)
    (hs : ev.msg.status < 300) :
    self.onResponseOutgoing B (State.start h ev) = some (authState B h ev) := by
  rcases ev with ⟨⟨callId, method, status, cseq, fromTag, toTag, viaR, viaH, reqH, auth, payload⟩,
    inc, out, fb⟩
  simp only at hot hcseq hs h200 hearly
  subst hot
  subst hcseq
  have h3 : ¬ status ≥ 300 := by omega
  have he : isEarlyMedia
      { callId := callId, method := method, status := status, cseqMethod := some SipMethod.invite
        fromTag := fromTag, toTag := toTag, viaReceived := viaR, viaHost := viaH
        requestHost := reqH, auth := B.fixAuthChallengeForSDP auth, payload := payload }
      = false := hearly
  simp [MediaRelay.onResponseOutgoing, State.start, hprop, State.emit, authState, authEvent,
    h200, h3, he]

/-- The second and third block of `onResponse` do nothing after a response below 300 on an
outgoing transaction. -/
theorem onResponse_rest_idle (B : Backend H) (self : MediaRelay) (ev : SipEvent)
    (ot : OutgoingTransaction) (out : State H) (hot : ev.outgoing = some ot)
    (hinc : out.ev.incoming = ev.incoming) (hstat : out.ev.msg.status = ev.msg.status)
    (hlt : ¬ ev.msg.status ≥ 300) :
    self.onResponseOutOfTransaction B ev.outgoing ev.incoming (MediaRelay.onResponseIncoming B out)
      = out := by
  have hsec : MediaRelay.onResponseIncoming B out = out := by
    unfold MediaRelay.onResponseIncoming
    rw [hinc, hstat]
    cases hi : ev.incoming with
    | none => rfl
    | some it =>
      cases hpr : it.property with
      | none => simp [hpr]
      | some d => simp [hpr, hlt]
  rw [hsec]
  simp [MediaRelay.onResponseOutOfTransaction, hot]

theorem onResponse_relayed (B : Backend H) (self : MediaRelay) (h : H) (ev : SipEvent)
    (ot : OutgoingTransaction) (c : CallRef) (hot : ev.outgoing = some ot)
    (hprop : ot.property = some c) (hcseq : ev.msg.cseqMethod = some SipMethod.invite)
    (hs : ev.msg.status = 200 ∨ isEarlyMedia ev.msg = true) :
    self.onResponse B (State.start h ev)
      = self.processResponseWithSDP B c ot.branchId (authState B h ev) := by
  have hlt : ¬ ev.msg.status ≥ 300 := by
    rcases hs with hs | hs
    · omega
    · unfold isEarlyMedia at hs
      split at hs
      · omega
      · cases hs
  have hfirst := onResponseOutgoing_relayed B self h ev ot c hot hprop hcseq hs
  unfold MediaRelay.onResponse
  simp only [hfirst]
  cases hx : self.processResponseWithSDP B c ot.branchId (authState B h ev) with
  | none => rfl
  | some out =>
    obtain ⟨hinc, -, hstat, -, -⟩ := processResponseWithSDP_frame B self c ot.branchId
      (authState B h ev) out hx
    have := onResponse_rest_idle B self ev ot out hot hinc hstat hlt
    simp only [State.start]
    rw [this]

theorem keeps_destinationsBackend (B : Backend H) (c : CallRef) (live : H → Prop)
    (hkeep : B.KeepsEstablished c live) (m : Sdp) (tag branch : String) (early : Bool)
    (ls : List MediaLine) :
    ∀ (k : Nat) (h : H), live h → B.isDialogEstablished h c = true →
      live (destinationsBackend B c m tag branch early k ls h)
        ∧ B.isDialogEstablished (destinationsBackend B c m tag branch early k ls h) c = true := by
  induction ls with
  | nil => intro k h hl he; exact ⟨hl, he⟩
  | cons l ls ih =>
    intro k h hl he
    obtain ⟨h1, h2⟩ := hkeep.2.2.1 h m k l.addr l.port tag branch early hl
    exact ih (k + 1) _ h1 (h2 he)

theorem keeps_establishedBackend (B : Backend H) (c : CallRef) (live : H → Prop)
    (hkeep : B.KeepsEstablished c live) (branch : String) (sip : Sip) (h : H) (hl : live h) :
    live (establishedBackend B c branch sip h)
      ∧ B.isDialogEstablished (establishedBackend B c branch sip h) c = true := by
  unfold establishedBackend
  cases he : B.isDialogEstablished h c
  · obtain ⟨h1, h2⟩ := hkeep.1 h sip hl
    obtain ⟨h3, h4⟩ := hkeep.2.1 (B.establishDialogWith200Ok h c sip) branch h1
    simpa using ⟨h3, h4 h2⟩
  · obtain ⟨h3, h4⟩ := hkeep.2.1 h branch hl
    simpa using ⟨h3, h4 he⟩

theorem keeps_answeredBackend (B : Backend H) (c : CallRef) (live : H → Prop)
    (hkeep : B.KeepsEstablished c live) (m : Sdp) (to_tag branch : String) (sip : Sip) (h : H)
    (hl : live h) :
    live (answeredBackend B c m to_tag branch sip h)
      ∧ B.isDialogEstablished (answeredBackend B c m to_tag branch sip h) c = true := by
  obtain ⟨h1, h2⟩ := keeps_establishedBackend B c live hkeep branch sip h hl
  exact keeps_destinationsBackend B c live hkeep m _ _ _ _ _ _ h1 h2

/-- A 200 Ok with a To-tag and a From-tag on an outgoing transaction that holds the call,
whose answer parses and has no marker: the establishment step, then the rewriting. -/
theorem onResponse_ok_rewritten (B : Backend H) (self : MediaRelay) (h : H) (ev : SipEvent)
    (ot : OutgoingTransaction) (c : CallRef) (to_tag from_tag : String) (m : Sdp)
    (hot : ev.outgoing = some ot) (hprop : ot.property = some c)
    (hcseq : ev.msg.cseqMethod = some SipMethod.invite) (hs : ev.msg.status = 200)
    (ht : ev.msg.toTag = some to_tag) (hfrom : ev.msg.fromTag = some from_tag)
    (hp : createFromSipMsg ev.msg = some m)
    (hm : m.hasAttribute self.mSdpMangledParam = false) :
    self.onResponse B (State.start h ev)
      = some
        { backend := answeredBackend B c m to_tag ot.branchId (authEvent B ev).msg h
          ev := { authEvent B ev with msg :=
            ((answeredSdp B c m from_tag to_tag ot.branchId
              (answeredBackend B c m to_tag ot.branchId (authEvent B ev).msg h)).update
                (authEvent B ev).msg) }
          trace := [Action.fixAuthChallengeForSDP] ++ establishCalls B c ot.branchId h
            ++ answerCalls c m from_tag to_tag ot.branchId false
                (answeredSdp B c m from_tag to_tag ot.branchId
                  (answeredBackend B c m to_tag ot.branchId (authEvent B ev).msg h)) } := by
  rw [onResponse_relayed B self h ev ot c hot hprop hcseq (Or.inl hs)]
  have ht2 : (authState B h ev).ev.msg.toTag = some to_tag := ht
  have hf2 : (authState B h ev).ev.msg.fromTag = some from_tag := hfrom
  have hs2 : (authState B h ev).ev.msg.status = 200 := hs
  have hp2 : createFromSipMsg (authState B h ev).ev.msg = some m := hp
  rw [processResponseWithSDP_ok B self c ot.branchId (authState B h ev) to_tag from_tag m ht2
    hf2 hs2 hp2 hm]
  rfl

/-- A 200 Ok with a To-tag on an outgoing transaction that holds the call, whose answer
does not parse or carries the marker: the establishment step only. -/
theorem onResponse_ok_unrelayed (B : Backend H) (self : MediaRelay) (h : H) (ev : SipEvent)
    (ot : OutgoingTransaction) (c : CallRef) (to_tag : String)
    (hot : ev.outgoing = some ot) (hprop : ot.property = some c)
    (hcseq : ev.msg.cseqMethod = some SipMethod.invite) (hs : ev.msg.status = 200)
    (ht : ev.msg.toTag = some to_tag)
    (hp : ∀ m, createFromSipMsg ev.msg = some m → m.hasAttribute self.mSdpMangledParam = true) :
    self.onResponse B (State.start h ev)
      = some
        { backend := establishedBackend B c ot.branchId (authEvent B ev).msg h
          ev := authEvent B ev
          trace := [Action.fixAuthChallengeForSDP] ++ establishCalls B c ot.branchId h } := by
  rw [onResponse_relayed B self h ev ot c hot hprop hcseq (Or.inl hs)]
  have ht2 : (authState B h ev).ev.msg.toTag = some to_tag := ht
  have hs2 : (authState B h ev).ev.msg.status = 200 := hs
  have hp2 : ∀ m, createFromSipMsg (authState B h ev).ev.msg = some m →
      m.hasAttribute self.mSdpMangledParam = true := hp
  rw [processResponseWithSDP_unrelayed B self c ot.branchId (authState B h ev) hp2]
  have hcond : (authState B h ev).ev.msg.toTag ≠ none ∧ (authState B h ev).ev.msg.status = 200 :=
    ⟨by rw [ht2]; simp, hs2⟩
  rw [if_pos hcond]
  rfl

theorem establish_not_mem_answerCalls (c d : CallRef) (m : Sdp) (from_tag to_tag branch : String)
    (early : Bool) (s : Sdp) :
    Action.establishDialogWith200Ok d ∉ answerCalls c m from_tag to_tag branch early s := by
  intro hmem
  unfold answerCalls at hmem
  rcases List.mem_append.1 hmem with hx | hx
  · obtain ⟨i, addr, port, hx⟩ := mem_destinationCalls _ _ _ _ _ _ _ hx
    cases hx
  · simp at hx

theorem establishCalls_of_established (B : Backend H) (c : CallRef) (branch : String) (h : H)
    (he : B.isDialogEstablished h c = true) :
    establishCalls B c branch h = [Action.setEstablished c branch] := by
  simp [establishCalls, he]

theorem establishedBackend_of_established (B : Backend H) (c : CallRef) (branch : String)
    (sip : Sip) (h : H) (he : B.isDialogEstablished h c = true) :
    establishedBackend B c branch sip h = B.setEstablished h c branch := by
  simp [establishedBackend, he]

theorem establishCalls_facts (B : Backend H) (c : CallRef) (branch : String) (h : H) :
    (Action.establishDialogWith200Ok c ∈ establishCalls B c branch h
        ↔ B.isDialogEstablished h c = false)
      ∧ (establishCalls B c branch h).count (Action.establishDialogWith200Ok c) ≤ 1 := by
  cases he : B.isDialogEstablished h c <;> simp [establishCalls, he]

/-- C5, as amended (a repeated 200 Ok).  For two successive 200 Ok to the INVITE with the
same To-tag, From-tag and body on the same outgoing transaction holding call `c`, on a
backend that keeps an established dialog established: both are handled to the end;
`establishDialogWith200Ok` is called by the first exactly when the dialog was not
established, the dialog is established afterwards, the second does not call it (so the
call goes Early→Established at most once) and leaves the dialog established; the second
calls `setEstablished` again, and when the body parses and has no marker it is rewritten
again, like the first: one `setChannelDestinations` per media line, applied to the call,
`masquerade`, `addIceCandidate` and `SdpModifier::update`; when the body does not parse
or carries the marker, the second does nothing but `setEstablished`. -/
theorem repeated_200_ok (B : Backend H) (self : MediaRelay) (h : H) (ev : SipEvent)
    (ot : OutgoingTransaction) (c : CallRef) (to_tag from_tag : String)
    (live : H → Prop) (hkeep : B.KeepsEstablished c live) (hlive : live h)
    (hot : ev.outgoing = some ot) (hprop : ot.property = some c)
    (hcseq : ev.msg.cseqMethod = some SipMethod.invite) (hs : ev.msg.status = 200)
    (ht : ev.msg.toTag = some to_tag) (hfrom : ev.msg.fromTag = some from_tag) :
    ∃ first second : State H,
      firstOk B self h ev = some first
      ∧ secondOk B self h ev = some second
      ∧ (Action.establishDialogWith200Ok c ∈ first.trace ↔ B.isDialogEstablished h c = false)
      ∧ B.isDialogEstablished first.backend c = true
      ∧ (∀ d, Action.establishDialogWith200Ok d ∉ second.trace)
      ∧ (first.trace ++ second.trace).count (Action.establishDialogWith200Ok c) ≤ 1
      ∧ B.isDialogEstablished second.backend c = true
      ∧ (∀ m, createFromSipMsg ev.msg = some m →
          m.hasAttribute self.mSdpMangledParam = false →
          first.trace
              = [Action.fixAuthChallengeForSDP] ++ establishCalls B c ot.branchId h
                ++ answerCalls c m from_tag to_tag ot.branchId false
                    (answeredSdp B c m from_tag to_tag ot.branchId first.backend)
            ∧ first.backend = answeredBackend B c m to_tag ot.branchId (authEvent B ev).msg h
            ∧ second.trace
              = [Action.fixAuthChallengeForSDP, Action.setEstablished c ot.branchId]
                ++ answerCalls c m from_tag to_tag ot.branchId false
                    (answeredSdp B c m from_tag to_tag ot.branchId second.backend)
            ∧ second.backend
              = destinationsBackend B c m to_tag ot.branchId false 0 m.media
                  (B.setEstablished first.backend c ot.branchId)
            ∧ second.ev.msg.payload
              = some (some (answeredSdp B c m from_tag to_tag ot.branchId second.backend)))
      ∧ ((∀ m, createFromSipMsg ev.msg = some m →
            m.hasAttribute self.mSdpMangledParam = true) →
          second.trace = [Action.fixAuthChallengeForSDP, Action.setEstablished c ot.branchId]
            ∧ second.backend = B.setEstablished first.backend c ot.branchId
            ∧ second.ev.msg.payload = ev.msg.payload) := by
  obtain ⟨hmemEst, hcountEst⟩ := establishCalls_facts B c ot.branchId h
  by_cases hp : ∀ m, createFromSipMsg ev.msg = some m →
      m.hasAttribute self.mSdpMangledParam = true
  · -- the body is not rewritten
    have h1 := onResponse_ok_unrelayed B self h ev ot c to_tag hot hprop hcseq hs ht hp
    obtain ⟨hl1, he1⟩ := keeps_establishedBackend B c live hkeep ot.branchId
      (authEvent B ev).msg h hlive
    have h2 := onResponse_ok_unrelayed B self
      (establishedBackend B c ot.branchId (authEvent B ev).msg h) ev ot c to_tag
      hot hprop hcseq hs ht hp
    rw [establishCalls_of_established B c ot.branchId _ he1,
      establishedBackend_of_established B c ot.branchId _ _ he1] at h2
    have hsec : secondOk B self h ev = self.onResponse B
        (State.start (establishedBackend B c ot.branchId (authEvent B ev).msg h) ev) := by
      unfold secondOk firstOk
      rw [h1]
      rfl
    refine ⟨_, _, h1, hsec.trans h2, ?_, he1, ?_, ?_, (hkeep.2.1 _ ot.branchId hl1).2 he1,
      ?_, ?_⟩
    · simpa using hmemEst
    · intro d; simp
    · simpa [List.count_append] using hcountEst
    · intro m hc hm
      rw [hp m hc] at hm
      cases hm
    · intro _
      exact ⟨rfl, rfl, rfl⟩
  · -- the body is rewritten, twice
    simp only [not_forall] at hp
    obtain ⟨m, hc, hm⟩ := hp
    have hm2 : m.hasAttribute self.mSdpMangledParam = false := by
      cases hx : m.hasAttribute self.mSdpMangledParam
      · rfl
      · exact absurd hx hm
    have h1 := onResponse_ok_rewritten B self h ev ot c to_tag from_tag m hot hprop hcseq hs ht
      hfrom hc hm2
    obtain ⟨hl1, he1⟩ := keeps_answeredBackend B c live hkeep m to_tag ot.branchId
      (authEvent B ev).msg h hlive
    have h2 := onResponse_ok_rewritten B self
      (answeredBackend B c m to_tag ot.branchId (authEvent B ev).msg h) ev ot c to_tag from_tag m
      hot hprop hcseq hs ht hfrom hc hm2
    obtain ⟨-, he2⟩ := keeps_answeredBackend B c live hkeep m to_tag ot.branchId
      (authEvent B ev).msg _ hl1
    have hback : answeredBackend B c m to_tag ot.branchId (authEvent B ev).msg
        (answeredBackend B c m to_tag ot.branchId (authEvent B ev).msg h)
        = destinationsBackend B c m to_tag ot.branchId false 0 m.media
            (B.setEstablished (answeredBackend B c m to_tag ot.branchId (authEvent B ev).msg h)
              c ot.branchId) := by
      have he1u := he1
      unfold answeredBackend at he1u
      unfold answeredBackend
      rw [establishedBackend_of_established B c ot.branchId _ _ he1u]
    rw [establishCalls_of_established B c ot.branchId _ he1] at h2
    have hsec : secondOk B self h ev = self.onResponse B
        (State.start (answeredBackend B c m to_tag ot.branchId (authEvent B ev).msg h) ev) := by
      unfold secondOk firstOk
      rw [h1]
      rfl
    have hno1 := establish_not_mem_answerCalls c c m from_tag to_tag ot.branchId false
      (answeredSdp B c m from_tag to_tag ot.branchId
        (answeredBackend B c m to_tag ot.branchId (authEvent B ev).msg h))
    refine ⟨_, _, h1, hsec.trans h2, ?_, he1, ?_, ?_, he2, ?_, ?_⟩
    · simp only [List.mem_append, List.mem_singleton]
      constructor
      · rintro ((hx | hx) | hx)
        · cases hx
        · exact hmemEst.1 hx
        · exact absurd hx hno1
      · intro hx
        exact Or.inl (Or.inr (hmemEst.2 hx))
    · intro d hmem
      simp only [List.mem_append, List.mem_singleton] at hmem
      rcases hmem with (hx | hx) | hx
      · cases hx
      · cases hx
      · exact establish_not_mem_answerCalls _ _ _ _ _ _ _ _ hx
    · have hno2 := establish_not_mem_answerCalls c c m from_tag to_tag ot.branchId false
        (answeredSdp B c m from_tag to_tag ot.branchId
          (answeredBackend B c m to_tag ot.branchId (authEvent B ev).msg
            (answeredBackend B c m to_tag ot.branchId (authEvent B ev).msg h)))
      simp only [List.count_append, List.count_eq_zero.2 hno1, List.count_eq_zero.2 hno2]
      simpa using hcountEst
    · intro m2 hc2 _
      rw [hc] at hc2
      cases hc2
      exact ⟨rfl, rfl, rfl, hback, rfl⟩
    · intro hall
      exact absurd (hall m hc) hm

theorem modifyAt_length {α : Type} (f : α → α) (l : List α) :
    ∀ n : Nat, (modifyAt f n l).length = l.length := by
  induction l with
  | nil => intro n; simp [modifyAt]
  | cons x xs ih =>
    intro n
    cases n with
    | zero => rfl
    | succ n => simp [modifyAt, ih]

theorem modifyAt_getElem? {α : Type} (f : α → α) (l : List α) :
    ∀ n : Nat, (modifyAt f n l)[n]? = (l[n]?).map f := by
  induction l with
  | nil => intro n; simp [modifyAt]
  | cons x xs ih =>
    intro n
    cases n with
    | zero => simp [modifyAt]
    | succ n => simp [modifyAt, ih]

/-- The reference backend keeps an established dialog established, for every call context
that exists. -/
theorem Relay.backend_keepsEstablished (c : CallRef) :
    Relay.backend.KeepsEstablished c (Relay.live c) := by
  refine ⟨?_, ?_, ?_, ?_⟩
  · intro h sip hl
    unfold Relay.live at hl
    refine ⟨by simpa [Relay.live, Relay.backend, Relay.establishDialogWith200Ok,
      modifyAt_length] using hl, ?_⟩
    simp only [Relay.backend, Relay.isDialogEstablished, Relay.establishDialogWith200Ok,
      modifyAt_getElem?]
    rw [List.getElem?_eq_getElem hl]
    rfl
  · intro h branch hl
    unfold Relay.live at hl
    refine ⟨by simpa [Relay.live, Relay.backend, Relay.setEstablished, Relay.keepBranches,
      modifyAt_length] using hl, ?_⟩
    simp only [Relay.backend, Relay.isDialogEstablished, Relay.setEstablished,
      Relay.keepBranches, modifyAt_getElem?]
    rw [List.getElem?_eq_getElem hl]
    exact id
  · intro h m idx addr port tag branch early hl
    unfold Relay.live at hl
    refine ⟨by simpa [Relay.live, Relay.backend, Relay.setChannelDestinations,
      modifyAt_length] using hl, ?_⟩
    simp only [Relay.backend, Relay.isDialogEstablished, Relay.setChannelDestinations,
      modifyAt_getElem?]
    rw [List.getElem?_eq_getElem hl]
    exact id
  · intro h branch hl
    unfold Relay.live at hl
    refine ⟨by simpa [Relay.live, Relay.backend, Relay.removeBranch, Relay.keepBranches,
      modifyAt_length] using hl, ?_⟩
    simp only [Relay.backend, Relay.isDialogEstablished, Relay.removeBranch,
      Relay.keepBranches, modifyAt_getElem?]
    rw [List.getElem?_eq_getElem hl]
    exact id

/-- C5, counterexample.  The 200 Ok of "bob" handled twice on the outgoing transaction of
the relayed INVITE: the second handling records the destinations, masquerades, writes the
ICE candidates and commits the SDP again. -/
theorem second_200_ok_is_rewritten :
    afterSecondOk.map (fun out => out.trace)
        = some [Action.fixAuthChallengeForSDP,
            Action.setEstablished 0 "z9hG4bK.1",
            Action.setChannelDestinations 0 0 "10.0.0.2" 6000 "bob" "z9hG4bK.1" false,
            Action.setChannelDestinations 0 1 "10.0.0.2" 6002 "bob" "z9hG4bK.1" false,
            Action.masquerade 0 "alice" "z9hG4bK.1",
            Action.addIceCandidate 0 "alice" "bob" "z9hG4bK.1",
            Action.sdpUpdate
              { media := [{ addr := "192.0.2.1", port := 5000
                            candidates := [⟨"192.0.2.1", 5000, "10.0.0.2", 6000⟩] },
                          { addr := "192.0.2.1", port := 5002
                            candidates := [⟨"192.0.2.1", 5002, "10.0.0.2", 6002⟩] }]
                attributes := [] }]
      ∧ afterSecondOk.map (fun out => out.trace.any Action.isRewrite) = some true
      ∧ afterFirstOk.map (fun out => out.backend) = some establishedRelay := by
  refine ⟨?_, ?_, ?_⟩ <;> decide

theorem repeated_200_ok_witness :
    ∃ first second : State Relay,
      firstOk Relay.backend (sampleModule 0) ringingRelay sampleOkEvent = some first
      ∧ secondOk Relay.backend (sampleModule 0) ringingRelay sampleOkEvent = some second
      ∧ (Action.establishDialogWith200Ok 0 ∈ first.trace
          ↔ Relay.backend.isDialogEstablished ringingRelay 0 = false)
      ∧ Relay.backend.isDialogEstablished first.backend 0 = true
      ∧ ∀ d, Action.establishDialogWith200Ok d ∉ second.trace :=
  match repeated_200_ok Relay.backend (sampleModule 0) ringingRelay sampleOkEvent
    { branchId := "z9hG4bK.1", property := some 0 } 0 "bob" "alice" (Relay.live 0)
    (Relay.backend_keepsEstablished 0) (by unfold Relay.live; decide) (by rfl) (by rfl) (by rfl)
    (by rfl) (by rfl) (by rfl) with
  | ⟨first, second, h1, h2, h3, h4, h5, _⟩ => ⟨first, second, h1, h2, h3, h4, h5⟩

theorem onResponseIncoming_final (B : Backend H) (st : State H)
    (hcseq : st.ev.msg.cseqMethod = some SipMethod.invite) (hs : st.ev.msg.status ≥ 300) :
    MediaRelay.onResponseIncoming B st
      = { backend := finalErrorBackend B st.backend st.ev
          ev := st.ev
          trace := st.trace ++ finalErrorRemoval B st.backend st.ev } := by
  unfold MediaRelay.onResponseIncoming finalErrorRemoval finalErrorBackend
    SipEvent.incomingProperty
  cases hi : st.ev.incoming with
  | none => simp
  | some it =>
    cases hp : it.property with
    | none => simp [hp]
    | some d =>
      cases he : B.isDialogEstablished st.backend d <;> simp [hp, hcseq, hs, he, State.emit]

/-- A final error response to the INVITE on an outgoing transaction that holds call `c`:
the branch is removed, then the call of the incoming transaction if its dialog is not
established. -/
theorem onResponse_final (B : Backend H) (self : MediaRelay) (h : H) (ev : SipEvent)
    (ot : OutgoingTransaction) (c : CallRef) (hot : ev.outgoing = some ot)
    (hprop : ot.property = some c) (hcseq : ev.msg.cseqMethod = some SipMethod.invite)
    (hs : ev.msg.status ≥ 300) :
    self.onResponse B (State.start h ev)
      = some { backend := finalErrorBackend B (B.removeBranch h c ot.branchId) ev
               ev := authEvent B ev
               trace := [Action.fixAuthChallengeForSDP, Action.removeBranch c ot.branchId]
                 ++ finalErrorRemoval B (B.removeBranch h c ot.branchId) ev } := by
  unfold MediaRelay.onResponse
  simp only [onResponseOutgoing_final B self h ev ot c hot hprop hcseq hs]
  rw [onResponseIncoming_final B _ hcseq hs]
  simp [MediaRelay.onResponseOutOfTransaction, State.start, hot]
  exact ⟨rfl, rfl⟩

theorem answerCalls_isRewrite (c : CallRef) (m : Sdp) (from_tag to_tag branch : String)
    (early : Bool) (s : Sdp) :
    ∀ a ∈ answerCalls c m from_tag to_tag branch early s, a.isRewrite = true := by
  intro a hmem
  unfold answerCalls at hmem
  rcases List.mem_append.1 hmem with hx | hx
  · obtain ⟨i, addr, port, hx⟩ := mem_destinationCalls _ _ _ _ _ _ _ hx
    rw [hx]; rfl
  · simp only [List.mem_cons, List.not_mem_nil, or_false] at hx
    rcases hx with hx | hx | hx <;> rw [hx] <;> rfl

theorem establishCalls_isEstablish (B : Backend H) (c : CallRef) (branch : String) (h : H) :
    (∀ a ∈ establishCalls B c branch h, a.isEstablish = true)
      ∧ Action.setEstablished c branch ∈ establishCalls B c branch h := by
  cases he : B.isDialogEstablished h c <;> simp [establishCalls, he, Action.isEstablish]

theorem isEstablish_kind (a : Action) (ha : a.isEstablish = true) :
    a.isRemoveBranch = false ∧ ∀ d, a ≠ Action.remove d := by
  cases a <;> simp [Action.isEstablish, Action.isRemoveBranch] at ha ⊢

theorem isRewrite_kind (a : Action) (ha : a.isRewrite = true) :
    a.isRemoveBranch = false ∧ ∀ d, a ≠ Action.remove d := by
  cases a <;> simp [Action.isRewrite, Action.isRemoveBranch] at ha ⊢

/-- A 200 Ok with a To-tag and a From-tag on an outgoing transaction that holds call `c`,
on a backend that keeps an established dialog established: it is handled to the end with
the rewriting of the challenge, the establishment step and the rewriting of the SDP only,
the branch is marked established and the dialog is established afterwards. -/
theorem onResponse_ok_facts (B : Backend H) (self : MediaRelay) (h : H) (ev : SipEvent)
    (ot : OutgoingTransaction) (c : CallRef) (to_tag from_tag : String) (live : H → Prop)
    (hkeep : B.KeepsEstablished c live) (hlive : live h)
    (hot : ev.outgoing = some ot) (hprop : ot.property = some c)
    (hcseq : ev.msg.cseqMethod = some SipMethod.invite) (hs : ev.msg.status = 200)
    (ht : ev.msg.toTag = some to_tag) (hfrom : ev.msg.fromTag = some from_tag) :
    ∃ first : State H, self.onResponse B (State.start h ev) = some first
      ∧ Action.setEstablished c ot.branchId ∈ first.trace
      ∧ (∀ a ∈ first.trace,
          a = Action.fixAuthChallengeForSDP ∨ a.isEstablish = true ∨ a.isRewrite = true)
      ∧ live first.backend
      ∧ B.isDialogEstablished first.backend c = true
      ∧ (∀ m, createFromSipMsg ev.msg = some m →
          m.hasAttribute self.mSdpMangledParam = false →
          first.backend = answeredBackend B c m to_tag ot.branchId (authEvent B ev).msg h)
      ∧ ((∀ m, createFromSipMsg ev.msg = some m →
            m.hasAttribute self.mSdpMangledParam = true) →
          first.backend = establishedBackend B c ot.branchId (authEvent B ev).msg h) := by
  obtain ⟨hE1, hE2⟩ := establishCalls_isEstablish B c ot.branchId h
  by_cases hp : ∀ m, createFromSipMsg ev.msg = some m →
      m.hasAttribute self.mSdpMangledParam = true
  · have h1 := onResponse_ok_unrelayed B self h ev ot c to_tag hot hprop hcseq hs ht hp
    obtain ⟨hl1, he1⟩ := keeps_establishedBackend B c live hkeep ot.branchId
      (authEvent B ev).msg h hlive
    refine ⟨_, h1, List.mem_append.2 (Or.inr hE2), ?_, hl1, he1, ?_, fun _ => rfl⟩
    · intro a ha
      rcases List.mem_append.1 ha with hx | hx
      · exact Or.inl (List.mem_singleton.1 hx)
      · exact Or.inr (Or.inl (hE1 a hx))
    · intro m hc hm
      rw [hp m hc] at hm
      cases hm
  · simp only [not_forall] at hp
    obtain ⟨m, hc, hm⟩ := hp
    have hm2 : m.hasAttribute self.mSdpMangledParam = false := by
      cases hx : m.hasAttribute self.mSdpMangledParam
      · rfl
      · exact absurd hx hm
    have h1 := onResponse_ok_rewritten B self h ev ot c to_tag from_tag m hot hprop hcseq hs ht
      hfrom hc hm2
    obtain ⟨hl1, he1⟩ := keeps_answeredBackend B c live hkeep m to_tag ot.branchId
      (authEvent B ev).msg h hlive
    refine ⟨_, h1, List.mem_append.2 (Or.inl (List.mem_append.2 (Or.inr hE2))), ?_, hl1, he1,
      ?_, fun hall => absurd (hall m hc) hm⟩
    · intro a ha
      rcases List.mem_append.1 ha with hx | hx
      · rcases List.mem_append.1 hx with hy | hy
        · exact Or.inl (List.mem_singleton.1 hy)
        · exact Or.inr (Or.inl (hE1 a hy))
      · exact Or.inr (Or.inr (answerCalls_isRewrite _ _ _ _ _ _ _ a hx))
    · intro m2 hc2 _
      rw [hc] at hc2
      cases hc2
      rfl

/-- C6 (forking and final error responses).  For an INVITE response with status >= 300 on
an outgoing transaction that holds call `c`, `onResponse` completes; `removeBranch` is
called once, on `c` with the branch id of that transaction, and `CallStore::remove(c)` is
called if and only if the incoming transaction of the event holds `c` and the dialog of
`c` is not established (as `isDialogEstablished()` answers after the `removeBranch`).  The
backend afterwards is the one of that `removeBranch`, followed by the `remove` of the call
of the incoming transaction when its dialog is not established: `c` is removed from the
store in the case above and not otherwise.  Consequently, on a backend that keeps an
established dialog established, a 200 Ok with a To-tag and a From-tag on another branch
holding `c`, followed by this final response, marks that other branch established and
establishes the dialog, calls no `removeBranch` and no `remove` for the 200 Ok, and for the
final response calls `removeBranch` for its own branch only and does not remove `c`: when
the incoming transaction holds `c` or no call, the backend after the final response is the
one the 200 Ok left with the losing branch removed. -/
theorem onResponse_final_error (B : Backend H) (self : MediaRelay) (h : H) (ev : SipEvent)
    (ot : OutgoingTransaction) (c : CallRef) (hot : ev.outgoing = some ot)
    (hprop : ot.property = some c) (hcseq : ev.msg.cseqMethod = some SipMethod.invite)
    (hs : ev.msg.status ≥ 300) :
    (∃ out : State H, self.onResponse B (State.start h ev) = some out
      ∧ out.trace.filter Action.isRemoveBranch = [Action.removeBranch c ot.branchId]
      ∧ (Action.remove c ∈ out.trace
          ↔ ev.incomingProperty = some c
            ∧ B.isDialogEstablished (B.removeBranch h c ot.branchId) c = false)
      ∧ out.trace
          = [Action.fixAuthChallengeForSDP, Action.removeBranch c ot.branchId]
            ++ finalErrorRemoval B (B.removeBranch h c ot.branchId) ev
      ∧ out.backend = finalErrorBackend B (B.removeBranch h c ot.branchId) ev
      ∧ (ev.incomingProperty = some c →
          B.isDialogEstablished (B.removeBranch h c ot.branchId) c = false →
          out.backend = B.remove (B.removeBranch h c ot.branchId) c)
      ∧ (ev.incomingProperty = none
          ∨ (ev.incomingProperty = some c
            ∧ B.isDialogEstablished (B.removeBranch h c ot.branchId) c = true) →
          out.backend = B.removeBranch h c ot.branchId)
      ∧ (∀ d, ev.incomingProperty = some d → d ≠ c →
          out.backend = (if B.isDialogEstablished (B.removeBranch h c ot.branchId) d then
            B.removeBranch h c ot.branchId else B.remove (B.removeBranch h c ot.branchId) d))
      ∧ out.ev = authEvent B ev)
    ∧ (∀ (live : H → Prop) (h0 : H) (ok : SipEvent) (ot2 : OutgoingTransaction)
        (to_tag from_tag : String),
        B.KeepsEstablished c live → live h0 →
        ok.outgoing = some ot2 → ot2.property = some c →
        ok.msg.cseqMethod = some SipMethod.invite → ok.msg.status = 200 →
        ok.msg.toTag = some to_tag → ok.msg.fromTag = some from_tag →
        ot2.branchId ≠ ot.branchId →
        ∃ first second : State H,
          firstOk B self h0 ok = some first
          ∧ self.onResponse B (State.start first.backend ev) = some second
          ∧ Action.setEstablished c ot2.branchId ∈ first.trace
          ∧ B.isDialogEstablished first.backend c = true
          ∧ (∀ m, createFromSipMsg ok.msg = some m →
              m.hasAttribute self.mSdpMangledParam = false →
              first.backend = answeredBackend B c m to_tag ot2.branchId (authEvent B ok).msg h0)
          ∧ ((∀ m, createFromSipMsg ok.msg = some m →
                m.hasAttribute self.mSdpMangledParam = true) →
              first.backend = establishedBackend B c ot2.branchId (authEvent B ok).msg h0)
          ∧ first.trace.filter Action.isRemoveBranch = []
          ∧ (∀ d, Action.remove d ∉ first.trace)
          ∧ second.trace.filter Action.isRemoveBranch = [Action.removeBranch c ot.branchId]
          ∧ Action.removeBranch c ot2.branchId ∉ second.trace
          ∧ Action.remove c ∉ second.trace
          ∧ second.backend
            = finalErrorBackend B (B.removeBranch first.backend c ot.branchId) ev
          ∧ (ev.incomingProperty = some c ∨ ev.incomingProperty = none →
              second.backend = B.removeBranch first.backend c ot.branchId
                ∧ second.trace
                  = [Action.fixAuthChallengeForSDP, Action.removeBranch c ot.branchId])
          ∧ B.isDialogEstablished (B.removeBranch first.backend c ot.branchId) c = true) := by
  have hrun := fun h1 : H => onResponse_final B self h1 ev ot c hot hprop hcseq hs
  have hfilter : ∀ h1 : H,
      ([Action.fixAuthChallengeForSDP, Action.removeBranch c ot.branchId]
        ++ finalErrorRemoval B (B.removeBranch h1 c ot.branchId) ev).filter
          Action.isRemoveBranch = [Action.removeBranch c ot.branchId] := by
    intro h1
    unfold finalErrorRemoval
    cases ev.incomingProperty with
    | none => simp [Action.isRemoveBranch, List.filter]
    | some d =>
      cases B.isDialogEstablished (B.removeBranch h1 c ot.branchId) d <;>
        simp [Action.isRemoveBranch, List.filter]
  have hremove : ∀ h1 : H,
      (Action.remove c ∈ [Action.fixAuthChallengeForSDP, Action.removeBranch c ot.branchId]
        ++ finalErrorRemoval B (B.removeBranch h1 c ot.branchId) ev
      ↔ ev.incomingProperty = some c
        ∧ B.isDialogEstablished (B.removeBranch h1 c ot.branchId) c = false) := by
    intro h1
    unfold finalErrorRemoval
    cases hi : ev.incomingProperty with
    | none => simp
    | some d =>
      by_cases hd : d = c
      · subst hd
        cases he : B.isDialogEstablished (B.removeBranch h1 d ot.branchId) d <;> simp [he]
      · have hd2 : ¬ c = d := fun hx => hd hx.symm
        cases he : B.isDialogEstablished (B.removeBranch h1 c ot.branchId) d <;>
          simp [he, hd, hd2]
  have hkept : ∀ h1 : H, (ev.incomingProperty = none
      ∨ (ev.incomingProperty = some c
        ∧ B.isDialogEstablished (B.removeBranch h1 c ot.branchId) c = true)) →
      finalErrorBackend B (B.removeBranch h1 c ot.branchId) ev = B.removeBranch h1 c ot.branchId
        ∧ finalErrorRemoval B (B.removeBranch h1 c ot.branchId) ev = [] := by
    intro h1 hx
    unfold finalErrorBackend finalErrorRemoval
    rcases hx with hx | ⟨hx, he⟩
    · rw [hx]; exact ⟨rfl, rfl⟩
    · rw [hx]; simp [he]
  constructor
  · refine ⟨_, hrun h, hfilter h, hremove h, rfl, rfl, ?_, ?_, ?_, rfl⟩
    · intro hi he
      show finalErrorBackend B (B.removeBranch h c ot.branchId) ev = _
      unfold finalErrorBackend
      rw [hi]
      simp [he]
    · intro hx
      exact (hkept h hx).1
    · intro d hi _
      show finalErrorBackend B (B.removeBranch h c ot.branchId) ev = _
      unfold finalErrorBackend
      rw [hi]
  · intro live h0 ok ot2 to_tag from_tag hkeep hlive hot2 hprop2 hcseq2 hs2 ht2 hfrom2 hne
    obtain ⟨first, hfirst, hset, hact, hl1, he1, hbA, hbB⟩ := onResponse_ok_facts B self h0 ok
      ot2 c to_tag from_tag live hkeep hlive hot2 hprop2 hcseq2 hs2 ht2 hfrom2
    have hkind : ∀ a ∈ first.trace, a.isRemoveBranch = false ∧ ∀ d, a ≠ Action.remove d := by
      intro a ha
      rcases hact a ha with hx | hx | hx
      · rw [hx]; exact ⟨rfl, by intro d; simp⟩
      · exact isEstablish_kind a hx
      · exact isRewrite_kind a hx
    have hy := (hkeep.2.2.2 first.backend ot.branchId hl1).2 he1
    refine ⟨first, _, hfirst, hrun first.backend, hset, he1, hbA, hbB, ?_, ?_,
      hfilter first.backend, ?_, ?_, rfl, ?_, hy⟩
    · rw [List.filter_eq_nil_iff]
      intro a ha
      simp [(hkind a ha).1]
    · intro d hmem
      exact (hkind _ hmem).2 d rfl
    · intro hmem
      have hin : Action.removeBranch c ot2.branchId
          ∈ ([Action.fixAuthChallengeForSDP, Action.removeBranch c ot.branchId]
            ++ finalErrorRemoval B (B.removeBranch first.backend c ot.branchId) ev).filter
              Action.isRemoveBranch := by
        rw [List.mem_filter]
        exact ⟨hmem, rfl⟩
      rw [hfilter] at hin
      simp only [List.mem_singleton, Action.removeBranch.injEq, true_and] at hin
      exact hne hin
    · intro hmem
      have hx := (hremove first.backend).1 hmem
      rw [hy] at hx
      exact absurd hx.2 (by simp)
    · intro hx
      have hk := hkept first.backend (by
        rcases hx with hx | hx
        · exact Or.inr ⟨hx, hy⟩
        · exact Or.inl hx)
      refine ⟨hk.1, ?_⟩
      show [Action.fixAuthChallengeForSDP, Action.removeBranch c ot.branchId]
        ++ finalErrorRemoval B (B.removeBranch first.backend c ot.branchId) ev = _
      rw [hk.2]
      rfl

theorem onResponse_final_error_witness :
    (∃ out : State Relay,
      MediaRelay.onResponse Relay.backend (sampleModule 0)
          (State.start ringingRelay sampleBusyEvent) = some out
        ∧ out.trace = [Action.fixAuthChallengeForSDP, Action.removeBranch 0 "z9hG4bK.1",
            Action.remove 0]
        ∧ out.backend = releasedRelay)
      ∧ ∃ first second : State Relay,
          firstOk Relay.backend (sampleModule 0) forkedRelay sampleForkOkEvent = some first
          ∧ MediaRelay.onResponse Relay.backend (sampleModule 0)
              (State.start first.backend sampleBusyEvent) = some second
          ∧ first.backend = forkEstablishedRelay
          ∧ second.trace = [Action.fixAuthChallengeForSDP, Action.removeBranch 0 "z9hG4bK.1"]
          ∧ second.backend = forkEstablishedRelay :=
  have key := onResponse_final_error Relay.backend (sampleModule 0) ringingRelay
      sampleBusyEvent { branchId := "z9hG4bK.1", property := some 0 } 0
      (by rfl) (by rfl) (by rfl) (by decide)
  ⟨match key.1 with
    | ⟨out, h1, _, _, h4, h5, _⟩ => ⟨out, h1, h4.trans (by decide), h5.trans (by decide)⟩,
   match key.2 (Relay.live 0) forkedRelay sampleForkOkEvent
      { branchId := "z9hG4bK.2", property := some 0 } "bob" "alice"
      (Relay.backend_keepsEstablished 0) (by unfold Relay.live; decide)
      (by rfl) (by rfl) (by rfl) (by rfl) (by rfl) (by rfl) (by decide) with
    | ⟨first, second, h1, h2, _, _, h5, _, _, _, _, _, _, _, h13, _⟩ =>
      have hb : first.backend = forkEstablishedRelay :=
        (h5 sampleAnswer (by rfl) (by rfl)).trans (by decide)
      ⟨first, second, h1, h2, hb, (h13 (Or.inl (by rfl))).2,
        (h13 (Or.inl (by rfl))).1.trans (by rw [hb]; decide)⟩⟩

/-- C7 (teardown by request).  A BYE looks the established dialog up and calls
`CallStore::remove(c)` exactly when the lookup gives `c`; a CANCEL makes no lookup and
calls `CallStore::remove(c)` exactly when the incoming agent is an incoming transaction
whose property is `c`; in both cases nothing else is done: the event and its message are
as before and there is no reply.  A request that is neither INVITE, BYE nor CANCEL leaves
the backend, the event and the trace untouched. -/
theorem onRequest_teardown (B : Backend H) (self : MediaRelay) (h : H) (ev : SipEvent) :
    (ev.msg.method = SipMethod.bye →
      (self.onRequest B (State.start h ev)).trace
          = Action.findEstablishedDialog
            :: (match B.findEstablishedDialog h ev.msg with
                | some c => [Action.remove c]
                | none => [])
        ∧ (self.onRequest B (State.start h ev)).backend
          = (match B.findEstablishedDialog h ev.msg with
              | some c => B.remove h c
              | none => h)
        ∧ (self.onRequest B (State.start h ev)).ev = ev
        ∧ ∀ c, Action.remove c ∈ (self.onRequest B (State.start h ev)).trace
            ↔ B.findEstablishedDialog h ev.msg = some c)
    ∧ (ev.msg.method = SipMethod.cancel →
      (self.onRequest B (State.start h ev)).trace
          = (match ev.incomingProperty with
              | some c => [Action.remove c]
              | none => [])
        ∧ (self.onRequest B (State.start h ev)).backend
          = (match ev.incomingProperty with
              | some c => B.remove h c
              | none => h)
        ∧ (self.onRequest B (State.start h ev)).ev = ev
        ∧ ∀ c, Action.remove c ∈ (self.onRequest B (State.start h ev)).trace
            ↔ ev.incomingProperty = some c)
    ∧ (ev.msg.method ≠ SipMethod.invite → ev.msg.method ≠ SipMethod.bye →
        ev.msg.method ≠ SipMethod.cancel →
      (self.onRequest B (State.start h ev)).trace = []
        ∧ (self.onRequest B (State.start h ev)).backend = h
        ∧ (self.onRequest B (State.start h ev)).ev = ev) := by
  refine ⟨?_, ?_, ?_⟩
  · intro hbye
    have hinv : ¬ ev.msg.method = SipMethod.invite := by rw [hbye]; decide
    cases hf : B.findEstablishedDialog h ev.msg with
    | none => simp [MediaRelay.onRequest, State.start, hinv, hbye, State.emit, hf]
    | some c =>
      simp [MediaRelay.onRequest, State.start, hinv, hbye, State.emit, hf]
      intro d
      exact eq_comm
  · intro hcancel
    have hinv : ¬ ev.msg.method = SipMethod.invite := by rw [hcancel]; decide
    have hbye : ¬ ev.msg.method = SipMethod.bye := by rw [hcancel]; decide
    cases hi : ev.incoming with
    | none =>
      simp [MediaRelay.onRequest, State.start, hinv, hbye, hcancel, hi,
        SipEvent.incomingProperty]
    | some it =>
      cases hp : it.property with
      | none =>
        simp [MediaRelay.onRequest, State.start, hinv, hbye, hcancel, hi, hp,
          SipEvent.incomingProperty]
      | some c =>
        simp [MediaRelay.onRequest, State.start, hinv, hbye, hcancel, hi, hp, State.emit,
          SipEvent.incomingProperty]
        intro d
        exact eq_comm
  · intro hinv hbye hcancel
    simp [MediaRelay.onRequest, State.start, hinv, hbye, hcancel]

theorem onRequest_teardown_witness :
    (MediaRelay.onRequest Relay.backend (sampleModule 0)
        (State.start establishedRelay
          { msg := sampleRequest SipMethod.bye, incoming := none, outgoing := none
            freshBranch := "" })).trace
      = [Action.findEstablishedDialog, Action.remove 0] :=
  ((onRequest_teardown Relay.backend (sampleModule 0) establishedRelay
      { msg := sampleRequest SipMethod.bye, incoming := none, outgoing := none
        freshBranch := "" }).1 (by rfl)).1


theorem ofSetup_kind (a : Action) (ha : a.ofSetup = true) :
    a.isReply = false ∧ a.isRewrite = false ∧ a ≠ Action.addRecordRouteIncoming
      ∧ (∀ d, a ≠ Action.store d) ∧ (∀ d, a ≠ Action.setOutgoingProperty d)
      ∧ (∀ d tag branch l r, a ≠ Action.initChannels d tag branch l r)
      ∧ a ≠ Action.serverUpdate := by
  cases a <;> simp [Action.ofSetup, Action.ofConfigure, Action.isReply, Action.isRewrite] at ha ⊢

/-- C8 (already-relayed guard).  For an INVITE whose parsed SDP carries the marker
attribute, `processNewInvite` returns false and does nothing at all: no `initChannels`, no
destination recorded, no masquerading, no ICE candidate, no attribute, no commit, no reply;
the caller's lines 243-248 add nothing, and `onRequest` as a whole ends with the setup
actions only: no reply from `processNewInvite`, no rewriting, no record-route, no
`CallStore::store`, no property on the outgoing transaction, message unchanged.  For an
INVITE response whose parsed SDP carries the marker attribute, `processResponseWithSDP`
completes, leaves the event and its message as they are and calls nothing but the
establishment step of a 200 Ok with a To-tag, which alone may change the backend. -/
theorem already_relayed_guard (B : Backend H) (self : MediaRelay) (c : CallRef)
    (branchId : String) (st : State H) (m : Sdp)
    (hp : createFromSipMsg st.ev.msg = some m)
    (hm : m.hasAttribute self.mSdpMangledParam = true) :
    self.processNewInvite B c branchId st = (false, st)
    ∧ (∀ (newContext : Bool) (ot : OutgoingTransaction), ot.branchId = branchId →
        self.relayInvite B c newContext ot st = st)
    ∧ (∀ (h : H) (ev : SipEvent) (newContext : Bool) (ot : OutgoingTransaction),
        ev.msg.method = SipMethod.invite →
        self.inviteContext B (State.start h ev) = (some (c, newContext), ot, st) →
        ot.branchId = branchId →
        self.onRequest B (State.start h ev) = st
          ∧ (∀ a ∈ (self.onRequest B (State.start h ev)).trace,
              a.ofSetup = true ∧ a.isReply = false ∧ a.isRewrite = false
                ∧ a ≠ Action.addRecordRouteIncoming ∧ (∀ d, a ≠ Action.store d)
                ∧ (∀ d, a ≠ Action.setOutgoingProperty d)
                ∧ (∀ d tag branch l r, a ≠ Action.initChannels d tag branch l r)
                ∧ a ≠ Action.serverUpdate)
          ∧ (self.onRequest B (State.start h ev)).ev.msg = ev.msg
          ∧ (self.onRequest B (State.start h ev)).ev.outgoing = some ev.ot)
    ∧ ∃ out : State H, self.processResponseWithSDP B c branchId st = some out
        ∧ out.ev = st.ev
        ∧ out.trace
          = st.trace ++ (if st.ev.msg.toTag ≠ none ∧ st.ev.msg.status = 200 then
              establishCalls B c branchId st.backend else [])
        ∧ out.backend
          = (if st.ev.msg.toTag ≠ none ∧ st.ev.msg.status = 200 then
              establishedBackend B c branchId st.ev.msg st.backend else st.backend) := by
  have h1 := processNewInvite_marked B self c branchId st m hp hm
  have h2 : ∀ (newContext : Bool) (ot : OutgoingTransaction), ot.branchId = branchId →
      self.relayInvite B c newContext ot st = st := by
    intro newContext ot hb
    subst hb
    simp [MediaRelay.relayInvite, h1]
  have hall : ∀ m2, createFromSipMsg st.ev.msg = some m2 →
      m2.hasAttribute self.mSdpMangledParam = true := by
    intro m2 h3
    rw [hp] at h3
    cases h3
    exact hm
  refine ⟨h1, h2, ?_, _, processResponseWithSDP_unrelayed B self c branchId st hall, ?_, ?_, ?_⟩
  · intro h ev newContext ot hinv hc hb
    obtain ⟨-, hmsg, hout, -, hsetup⟩ := inviteContext_some B self h ev c newContext ot st hc
    rw [onRequest_invite B self h ev c newContext ot st hinv hc, h2 newContext ot hb]
    exact ⟨rfl, fun a ha => ⟨hsetup a ha, ofSetup_kind a (hsetup a ha)⟩, hmsg, hout⟩
  · split <;> rfl
  · split <;> simp
  · split <;> rfl

theorem already_relayed_guard_witness :
    (MediaRelay.onRequest Relay.backend (sampleModule 0)
        (State.start idleRelay markedInviteEvent)).trace
        = [Action.createIncomingTransaction, Action.createOutgoingTransaction, Action.find,
            Action.makeCall 0, Action.setIncomingProperty 0]
      ∧ (MediaRelay.onRequest Relay.backend (sampleModule 0)
          (State.start idleRelay markedInviteEvent)).ev.msg = markedInviteEvent.msg :=
  have key := (already_relayed_guard Relay.backend (sampleModule 0) 0 "z9hG4bK.1"
      (admittedState Relay.backend idleRelay markedInviteEvent) markedOffer
      (by rfl) (by rfl)).2.2.1
    idleRelay markedInviteEvent true markedInviteEvent.ot (by rfl) (by rfl) (by rfl)
  ⟨congrArg State.trace key.1, key.2.2.1⟩

theorem onResponse_unprocessed (B : Backend H) (self : MediaRelay) (h : H) (ev : SipEvent)
    (ot : OutgoingTransaction) (c : CallRef) (hot : ev.outgoing = some ot)
    (hprop : ot.property = some c) (hcseq : ev.msg.cseqMethod = some SipMethod.invite)
    (h200 : ev.msg.status ≠ 200) (hearly : isEarlyMedia ev.msg = false)
    (hs : ev.msg.status < 300) :
    self.onResponse B (State.start h ev) = some (authState B h ev) := by
  unfold MediaRelay.onResponse
  simp only [onResponseOutgoing_other B self h ev ot c hot hprop hcseq h200 hearly hs]
  have hlt : ¬ ev.msg.status ≥ 300 := by omega
  have := onResponse_rest_idle B self ev ot (authState B h ev) hot rfl rfl hlt
  simp only [State.start]
  rw [this]

/-- C9, counterexample.  A 181 and a 202 to the INVITE, each with an SDP body, a To-tag
and a From-tag, on the outgoing transaction that holds call 0: the handler completes,
nothing is rewritten, the trace holds the rewriting of the challenge only, the backend is
as before and the body is the one received. -/
theorem provisional_181_and_202_pass_unrelayed :
    (MediaRelay.onResponse Relay.backend (sampleModule 0)
        (State.start ringingRelay
          (sampleResponseEvent "z9hG4bK.1"
            (sampleResponse 181 (some "bob") (some (some sampleAnswer)))))).map
          (fun out => (out.trace, out.backend, out.ev.msg.payload))
        = some ([Action.fixAuthChallengeForSDP], ringingRelay, some (some sampleAnswer))
      ∧ (MediaRelay.onResponse Relay.backend (sampleModule 0)
          (State.start ringingRelay
            (sampleResponseEvent "z9hG4bK.1"
              (sampleResponse 202 (some "bob") (some (some sampleAnswer)))))).map
            (fun out => (out.trace, out.backend, out.ev.msg.payload))
        = some ([Action.fixAuthChallengeForSDP], ringingRelay, some (some sampleAnswer)) := by
  refine ⟨?_, ?_⟩ <;> decide

/-- C9, as amended (early media).  On an outgoing transaction that holds call `c`, a 180
or a 183 to the INVITE with a To-tag, a From-tag and a body that parses as SDP without the
marker is handled to the end as early media: one `setChannelDestinations` per media line
with `isEarlyMedia = true`, then `masquerade`, `addIceCandidate` and
`SdpModifier::update`, the rewriting of a 200 Ok, and neither `establishDialogWith200Ok`
nor `setEstablished`; the backend afterwards is the one of these `setChannelDestinations`
and the message carries the rewritten SDP.  A response below 300 without a To-tag is
ignored: no establishment, no rewriting.  Any other response below 300 that is not a 200
(100, 181, 182, 199, 202, ...) is not processed either, whatever its body. -/
theorem early_media (B : Backend H) (self : MediaRelay) (h : H) (ev : SipEvent)
    (ot : OutgoingTransaction) (c : CallRef) (hot : ev.outgoing = some ot)
    (hprop : ot.property = some c) (hcseq : ev.msg.cseqMethod = some SipMethod.invite) :
    (∀ (to_tag from_tag : String) (m : Sdp), ev.msg.status = 180 ∨ ev.msg.status = 183 →
      ev.msg.toTag = some to_tag → ev.msg.fromTag = some from_tag →
      createFromSipMsg ev.msg = some m →
      m.hasAttribute self.mSdpMangledParam = false →
      ∃ out : State H, self.onResponse B (State.start h ev) = some out
        ∧ out.trace
          = [Action.fixAuthChallengeForSDP]
            ++ answerCalls c m from_tag to_tag ot.branchId true
                (answeredSdp B c m from_tag to_tag ot.branchId out.backend)
        ∧ out.backend = destinationsBackend B c m to_tag ot.branchId true 0 m.media h
        ∧ out.ev = { authEvent B ev with msg :=
            ((answeredSdp B c m from_tag to_tag ot.branchId out.backend).update
              (authEvent B ev).msg) }
        ∧ out.ev.msg.payload
          = some (some (answeredSdp B c m from_tag to_tag ot.branchId out.backend))
        ∧ ∀ a ∈ out.trace, a.isEstablish = false)
    ∧ (ev.msg.toTag = none → ev.msg.status < 300 →
        self.onResponse B (State.start h ev) = some (authState B h ev))
    ∧ (ev.msg.status ≠ 200 → ev.msg.status ≠ 180 → ev.msg.status ≠ 183 →
        ev.msg.status < 300 →
        self.onResponse B (State.start h ev) = some (authState B h ev)) := by
  refine ⟨?_, ?_, ?_⟩
  · intro to_tag from_tag m hst ht hfrom hp hm
    have hne : ev.msg.status ≠ 200 := by omega
    have hpay : ev.msg.payload.isSome = true := by
      unfold createFromSipMsg at hp
      cases hx : ev.msg.payload with
      | none => rw [hx] at hp; cases hp
      | some p => rfl
    have hearly : isEarlyMedia ev.msg = true := by
      unfold isEarlyMedia
      rw [if_pos hst]
      exact hpay
    have ht2 : (authState B h ev).ev.msg.toTag = some to_tag := ht
    have hf2 : (authState B h ev).ev.msg.fromTag = some from_tag := hfrom
    have hs2 : (authState B h ev).ev.msg.status ≠ 200 := hne
    have hp2 : createFromSipMsg (authState B h ev).ev.msg = some m := hp
    have hrun := (onResponse_relayed B self h ev ot c hot hprop hcseq (Or.inr hearly)).trans
      (processResponseWithSDP_early B self c ot.branchId (authState B h ev) to_tag from_tag m
        ht2 hf2 hs2 hp2 hm)
    refine ⟨_, hrun, rfl, rfl, rfl, rfl, ?_⟩
    intro a ha
    rcases List.mem_append.1 ha with hx | hx
    · simp only [authState, List.mem_singleton] at hx
      rw [hx]; rfl
    · have := answerCalls_isRewrite _ _ _ _ _ _ _ a hx
      cases a <;> simp [Action.isRewrite, Action.isEstablish] at this ⊢
  · intro ht hlt
    by_cases hs : ev.msg.status = 200 ∨ isEarlyMedia ev.msg = true
    · rw [onResponse_relayed B self h ev ot c hot hprop hcseq hs]
      exact processResponseWithSDP_noToTag B self c ot.branchId (authState B h ev) ht
    · have h200 : ev.msg.status ≠ 200 := fun hx => hs (Or.inl hx)
      have hearly : isEarlyMedia ev.msg = false := by
        cases hx : isEarlyMedia ev.msg
        · rfl
        · exact absurd (Or.inr hx) hs
      exact onResponse_unprocessed B self h ev ot c hot hprop hcseq h200 hearly hlt
  · intro h200 h180 h183 hlt
    have hearly : isEarlyMedia ev.msg = false := by
      unfold isEarlyMedia
      rw [if_neg (by omega)]
    exact onResponse_unprocessed B self h ev ot c hot hprop hcseq h200 hearly hlt

theorem early_media_witness :
    ∃ out : State Relay,
      MediaRelay.onResponse Relay.backend (sampleModule 0)
          (State.start ringingRelay
            (sampleResponseEvent "z9hG4bK.1"
              (sampleResponse 183 (some "bob") (some (some sampleAnswer))))) = some out
        ∧ out.backend = earlyRelay
        ∧ out.ev.msg.payload = some (some relayedAnswer)
        ∧ ∀ a ∈ out.trace, a.isEstablish = false :=
  match (early_media Relay.backend (sampleModule 0) ringingRelay
      (sampleResponseEvent "z9hG4bK.1" (sampleResponse 183 (some "bob") (some (some sampleAnswer))))
      { branchId := "z9hG4bK.1", property := some 0 } 0 (by rfl) (by rfl) (by rfl)).1
    "bob" "alice" sampleAnswer (by decide) (by rfl) (by rfl) (by rfl) (by rfl) with
  | ⟨out, h1, _, h3, _, h5, h6⟩ =>
    have hb : out.backend = earlyRelay := h3.trans (by decide)
    ⟨out, h1, hb, h5.trans (by rw [hb]; decide), h6⟩

theorem hasAttribute_empty (m : Sdp) (hwf : m.WellFormed) : m.hasAttribute "" = false := by
  unfold Sdp.hasAttribute
  rw [List.any_eq_false]
  intro a ha
  have := hwf a ha
  simpa using this

theorem filter_isAddAttribute_destinationCalls (c : CallRef) (tag branch : String)
    (early : Bool) (ls : List MediaLine) :
    ∀ k : Nat, (destinationCalls c tag branch early k ls).filter Action.isAddAttribute = [] := by
  intro k
  rw [List.filter_eq_nil_iff]
  intro a ha
  obtain ⟨i, addr, port, hx⟩ := mem_destinationCalls _ _ _ _ _ _ _ ha
  rw [hx]
  simp [Action.isAddAttribute]

/-- C10 (marker configuration).  With `nortpproxy` configured as "disable" or as the
empty string, `onLoad` stores an empty marker name; an INVITE with a From-tag, a parsed
SDP (whose attributes all have a name) and valid media is then relayed: `processNewInvite`
returns true after `initChannels`, the recording of the destinations, `masquerade`,
`addIceCandidate`, `SdpModifier::update` and `MediaRelayServer::update`, without any
`addAttribute`; the backend it leaves is the one of `initChannels`, of the
`setChannelDestinations` calls with the offer's own addresses and of
`MediaRelayServer::update`; the SDP committed into the message, the rest of the event
being as before, is the offer masqueraded and given its ICE candidates, with the
attributes of the offer and at every media line the address and port of
`getChannelSources`.  With a non-empty marker name, a relayed INVITE (`processNewInvite`
returns true) has `addAttribute(name, "yes")` called exactly once, after the rewriting and
before `SdpModifier::update`; backend and event are as in the first case, the committed
SDP being the same rewritten offer with the marker added after the attributes of the
offer. -/
theorem marker_configuration (B : Backend H) (self : MediaRelay) (c : CallRef)
    (branchId : String) (st : State H) (from_tag : String) (m : Sdp)
    (hf : st.ev.msg.fromTag = some from_tag) (hp : createFromSipMsg st.ev.msg = some m) :
    (∀ (features : Bool) (conf : ModConf),
      conf.nortpproxy = "disable" ∨ conf.nortpproxy = "" →
      (MediaRelay.onLoad features conf).mSdpMangledParam = ""
      ∧ (m.WellFormed →
          B.checkMediaValid (initBackend B st.ev.msg c m from_tag branchId st.backend) c = true →
          (MediaRelay.onLoad features conf).processNewInvite B c branchId st
            = (true,
                { backend := B.serverUpdate
                    (recordedBackend B st.ev.msg c m from_tag branchId st.backend)
                  ev := { st.ev with msg := { st.ev.msg with payload := some (some
                    (relayedSdp B (MediaRelay.onLoad features conf) c m from_tag
                      (st.ev.msg.toTag.getD "") branchId
                      (recordedBackend B st.ev.msg c m from_tag branchId st.backend))) } }
                  trace := st.trace ++ ([initCall B st.ev.msg c from_tag branchId]
                    ++ destinationCalls c from_tag branchId false 0 m.media
                    ++ [Action.masquerade c (st.ev.msg.toTag.getD "") branchId,
                        Action.addIceCandidate c (st.ev.msg.toTag.getD "") from_tag branchId,
                        Action.sdpUpdate
                          (relayedSdp B (MediaRelay.onLoad features conf) c m from_tag
                            (st.ev.msg.toTag.getD "") branchId
                            (recordedBackend B st.ev.msg c m from_tag branchId st.backend)),
                        Action.serverUpdate]) })
          ∧ relayedSdp B (MediaRelay.onLoad features conf) c m from_tag
                (st.ev.msg.toTag.getD "") branchId
                (recordedBackend B st.ev.msg c m from_tag branchId st.backend)
              = (m.masquerade (fun i => B.getChannelSources
                    (recordedBackend B st.ev.msg c m from_tag branchId st.backend) c i
                    (st.ev.msg.toTag.getD "") branchId)).addIceCandidate
                  (fun i => B.getChannelSources
                    (recordedBackend B st.ev.msg c m from_tag branchId st.backend) c i
                    (st.ev.msg.toTag.getD "") branchId)
                  (fun i => B.getChannelDestinations
                    (recordedBackend B st.ev.msg c m from_tag branchId st.backend) c i
                    from_tag branchId)
          ∧ (relayedSdp B (MediaRelay.onLoad features conf) c m from_tag
                (st.ev.msg.toTag.getD "") branchId
                (recordedBackend B st.ev.msg c m from_tag branchId st.backend)).attributes
              = m.attributes
          ∧ (∀ i : Nat,
              (((relayedSdp B (MediaRelay.onLoad features conf) c m from_tag
                  (st.ev.msg.toTag.getD "") branchId
                  (recordedBackend B st.ev.msg c m from_tag branchId st.backend)).media)[i]?).map
                (fun l => (l.addr, l.port))
              = (m.media[i]?).map (fun _ =>
                  B.getChannelSources
                    (recordedBackend B st.ev.msg c m from_tag branchId st.backend)
                    c i (st.ev.msg.toTag.getD "") branchId))
          ∧ (((MediaRelay.onLoad features conf).processNewInvite B c branchId
                st).2.trace.drop st.trace.length).filter Action.isAddAttribute = []))
    ∧ (self.mSdpMangledParam ≠ "" → (self.processNewInvite B c branchId st).1 = true →
        self.processNewInvite B c branchId st
          = (true,
              { backend := B.serverUpdate
                  (recordedBackend B st.ev.msg c m from_tag branchId st.backend)
                ev := { st.ev with msg := { st.ev.msg with payload := some (some
                  (relayedSdp B self c m from_tag (st.ev.msg.toTag.getD "") branchId
                    (recordedBackend B st.ev.msg c m from_tag branchId st.backend))) } }
                trace := st.trace ++ ([initCall B st.ev.msg c from_tag branchId]
                  ++ destinationCalls c from_tag branchId false 0 m.media
                  ++ [Action.masquerade c (st.ev.msg.toTag.getD "") branchId,
                      Action.addIceCandidate c (st.ev.msg.toTag.getD "") from_tag branchId,
                      Action.addAttribute self.mSdpMangledParam "yes",
                      Action.sdpUpdate
                        (relayedSdp B self c m from_tag (st.ev.msg.toTag.getD "") branchId
                          (recordedBackend B st.ev.msg c m from_tag branchId st.backend)),
                      Action.serverUpdate]) })
        ∧ relayedSdp B self c m from_tag (st.ev.msg.toTag.getD "") branchId
              (recordedBackend B st.ev.msg c m from_tag branchId st.backend)
            = ((m.masquerade (fun i => B.getChannelSources
                  (recordedBackend B st.ev.msg c m from_tag branchId st.backend) c i
                  (st.ev.msg.toTag.getD "") branchId)).addIceCandidate
                (fun i => B.getChannelSources
                  (recordedBackend B st.ev.msg c m from_tag branchId st.backend) c i
                  (st.ev.msg.toTag.getD "") branchId)
                (fun i => B.getChannelDestinations
                  (recordedBackend B st.ev.msg c m from_tag branchId st.backend) c i
                  from_tag branchId)).addAttribute self.mSdpMangledParam "yes"
        ∧ (relayedSdp B self c m from_tag (st.ev.msg.toTag.getD "") branchId
              (recordedBackend B st.ev.msg c m from_tag branchId st.backend)).attributes
            = m.attributes ++ [(self.mSdpMangledParam, "yes")]
        ∧ (∀ i : Nat,
            (((relayedSdp B self c m from_tag (st.ev.msg.toTag.getD "") branchId
                (recordedBackend B st.ev.msg c m from_tag branchId st.backend)).media)[i]?).map
              (fun l => (l.addr, l.port))
            = (m.media[i]?).map (fun _ =>
                B.getChannelSources
                  (recordedBackend B st.ev.msg c m from_tag branchId st.backend)
                  c i (st.ev.msg.toTag.getD "") branchId))
        ∧ ((self.processNewInvite B c branchId st).2.trace.drop st.trace.length).filter
            Action.isAddAttribute = [Action.addAttribute self.mSdpMangledParam "yes"])
    ∧ recordedBackend B st.ev.msg c m from_tag branchId st.backend
        = (m.media.enumFrom 0).foldl (fun acc p =>
            B.setChannelDestinations acc c m p.1 p.2.addr p.2.port from_tag branchId false)
            (B.initChannels st.backend c m from_tag branchId
              (B.getPreferredIp (fromHost st.ev.msg)) (B.getPreferredIp (destHost st.ev.msg))) := by
  refine ⟨?_, ?_, ?_⟩
  · intro features conf hconf
    have hmark : (MediaRelay.onLoad features conf).mSdpMangledParam = "" := by
      rcases hconf with hc | hc <;> simp [MediaRelay.onLoad, hc]
    refine ⟨hmark, ?_⟩
    intro hwf hv
    have hm : m.hasAttribute (MediaRelay.onLoad features conf).mSdpMangledParam = false := by
      rw [hmark]; exact hasAttribute_empty m hwf
    have hrun := processNewInvite_relayed B _ c branchId st from_tag m hf hp hm hv
    refine ⟨?_, ?_, ?_, ?_, ?_⟩
    · rw [hrun]
      simp [markerCalls, hmark, Sdp.update]
    · simp [relayedSdp, hmark]
    · rw [relayedSdp_attributes]
      simp [hmark]
    · intro i
      exact relayedSdp_media B _ c m from_tag _ branchId _ i
    · rw [hrun]
      simp [markerCalls, hmark, List.filter_append, filter_isAddAttribute_destinationCalls,
        initCall, Action.isAddAttribute, List.filter]
  · intro hne hr
    obtain ⟨hm, hv⟩ := processNewInvite_true B self c branchId st from_tag m hf hp hr
    have hrun := processNewInvite_relayed B self c branchId st from_tag m hf hp hm hv
    refine ⟨?_, ?_, ?_, ?_, ?_⟩
    · rw [hrun]
      simp [markerCalls, hne, Sdp.update]
    · simp [relayedSdp, hne]
    · rw [relayedSdp_attributes]
      simp [hne]
    · intro i
      exact relayedSdp_media B self c m from_tag _ branchId _ i
    · rw [hrun]
      simp [markerCalls, hne, List.filter_append, filter_isAddAttribute_destinationCalls,
        initCall, Action.isAddAttribute, List.filter]
  · unfold recordedBackend initBackend
    exact destinationsBackend_eq_foldl B c m from_tag branchId false m.media 0 _

theorem marker_configuration_witness :
    ((MediaRelay.onLoad false disabledConf).mSdpMangledParam = ""
      ∧ ((MediaRelay.onLoad false disabledConf).processNewInvite Relay.backend 0 "z9hG4bK.1"
          (admittedState Relay.backend idleRelay sampleInviteEvent)).1 = true
      ∧ ((MediaRelay.onLoad false disabledConf).processNewInvite Relay.backend 0 "z9hG4bK.1"
          (admittedState Relay.backend idleRelay sampleInviteEvent)).2.backend = offeredRelay
      ∧ ((MediaRelay.onLoad false disabledConf).processNewInvite Relay.backend 0 "z9hG4bK.1"
          (admittedState Relay.backend idleRelay sampleInviteEvent)).2.ev.msg
        = { sampleInvite with payload := some (some relayedOffer) }
      ∧ ((MediaRelay.onLoad false disabledConf).processNewInvite Relay.backend 0 "z9hG4bK.1"
          (admittedState Relay.backend idleRelay sampleInviteEvent)).2.trace
        = [Action.createIncomingTransaction, Action.createOutgoingTransaction, Action.find,
            Action.makeCall 0, Action.setIncomingProperty 0,
            Action.initChannels 0 "alice" "z9hG4bK.1" "10.0.0.1" "10.0.0.2",
            Action.setChannelDestinations 0 0 "10.0.0.1" 4000 "alice" "z9hG4bK.1" false,
            Action.setChannelDestinations 0 1 "10.0.0.1" 4002 "alice" "z9hG4bK.1" false,
            Action.masquerade 0 "" "z9hG4bK.1",
            Action.addIceCandidate 0 "" "alice" "z9hG4bK.1",
            Action.sdpUpdate relayedOffer, Action.serverUpdate])
    ∧ ((sampleModule 0).processNewInvite Relay.backend 0 "z9hG4bK.1"
        (admittedState Relay.backend idleRelay sampleInviteEvent)).2.backend = offeredRelay
    ∧ ((sampleModule 0).processNewInvite Relay.backend 0 "z9hG4bK.1"
        (admittedState Relay.backend idleRelay sampleInviteEvent)).2.ev.msg
      = { sampleInvite with payload := some (some
            { relayedOffer with attributes := [("nortpproxy", "yes")] }) }
    ∧ ((sampleModule 0).processNewInvite Relay.backend 0 "z9hG4bK.1"
        (admittedState Relay.backend idleRelay sampleInviteEvent)).2.trace
      = [Action.createIncomingTransaction, Action.createOutgoingTransaction, Action.find,
          Action.makeCall 0, Action.setIncomingProperty 0,
          Action.initChannels 0 "alice" "z9hG4bK.1" "10.0.0.1" "10.0.0.2",
          Action.setChannelDestinations 0 0 "10.0.0.1" 4000 "alice" "z9hG4bK.1" false,
          Action.setChannelDestinations 0 1 "10.0.0.1" 4002 "alice" "z9hG4bK.1" false,
          Action.masquerade 0 "" "z9hG4bK.1",
          Action.addIceCandidate 0 "" "alice" "z9hG4bK.1",
          Action.addAttribute "nortpproxy" "yes",
          Action.sdpUpdate { relayedOffer with attributes := [("nortpproxy", "yes")] },
          Action.serverUpdate] :=
  have key := marker_configuration Relay.backend (sampleModule 0) 0 "z9hG4bK.1"
      (admittedState Relay.backend idleRelay sampleInviteEvent) "alice" sampleOffer
      (by rfl) (by rfl)
  have off := key.1 false disabledConf (Or.inl (by rfl))
  have hoff := (off.2 (by unfold Sdp.WellFormed; decide) (by rfl)).1
  have hon := (key.2.1 (by decide) (by rfl)).1
  ⟨⟨off.1, congrArg (fun r => r.1) hoff,
      (congrArg (fun r => r.2.backend) hoff).trans (by decide),
      (congrArg (fun r => r.2.ev.msg) hoff).trans (by decide),
      (congrArg (fun r => r.2.trace) hoff).trans (by decide)⟩,
    (congrArg (fun r => r.2.backend) hon).trans (by decide),
    (congrArg (fun r => r.2.ev.msg) hon).trans (by decide),
    (congrArg (fun r => r.2.trace) hon).trans (by decide)⟩

/-- A call context that `onRequest` has just created is held by the incoming transaction:
it is the context `makeCall` gave, after no context was found for the INVITE. -/
theorem inviteContext_new (B : Backend H) (self : MediaRelay) (h : H) (ev : SipEvent)
    (c : CallRef) (ot : OutgoingTransaction) (pre : State H)
    (hc : self.inviteContext B (State.start h ev) = (some (c, true), ot, pre)) :
    pre.ev.incoming = some { property := some c } ∧ c = (B.makeCall h ev.msg).1
      ∧ ev.incomingProperty = none ∧ B.find h ev.msg = none := by
  cases hit : ev.incomingProperty with
  | some d =>
    rw [inviteContext_onTransaction B self h ev d hit] at hc
    simp at hc
  | none =>
    cases hfind : B.find h ev.msg with
    | some d =>
      rw [inviteContext_found B self h ev d hit hfind] at hc
      simp at hc
    | none =>
      by_cases hlim : self.limitReached B h
      · rw [inviteContext_rejected B self h ev hit hfind hlim] at hc
        simp at hc
      · rw [inviteContext_admitted B self h ev hit hfind hlim] at hc
        simp only [Prod.mk.injEq, Option.some.injEq, and_true] at hc
        obtain ⟨h1, -, h3⟩ := hc
        subst h3
        rw [configureContext_ev]
        exact ⟨by rw [← h1]; rfl, h1.symm, rfl, rfl⟩

theorem ofSetup_not_release (a : Action) (ha : a.ofSetup = true) : a.isRelease = false := by
  cases a <;> simp [Action.ofSetup, Action.ofConfigure, Action.isRelease] at ha ⊢

/-- C11, counterexample.  The INVITE forked to a second branch when one port pair is left,
with the call found on the incoming transaction, and the INVITE of a new call on a relay
with one port pair left: each is answered 500 right after `initChannels`, the trace holds
neither `removeBranch` nor `remove`, and the backend still has the partly allocated
channel set of the branch, with the pool empty. -/
theorem port_exhaustion_releases_nothing :
    (MediaRelay.onRequest Relay.backend (sampleModule 0)
        (State.start tightRingingRelay forkedInviteEvent)).trace
        = [Action.createIncomingTransaction, Action.createOutgoingTransaction,
            Action.initChannels 0 "alice" "z9hG4bK.2" "10.0.0.1" "10.0.0.2",
            Action.reply 500 "RTP port pool exhausted"]
      ∧ (MediaRelay.onRequest Relay.backend (sampleModule 0)
          (State.start tightRingingRelay forkedInviteEvent)).backend
        = { tightRingingRelay with
            calls := [{ callId := "call-1", fromTag := "alice", calleeTag := none
                        established := false, terminated := false
                        branches :=
                          [("z9hG4bK.1",
                            [{ localPort := some 5000, declared := [("alice", "10.0.0.1", 4000)] },
                             { localPort := some 5002, declared := [("alice", "10.0.0.1", 4002)] }]),
                           ("z9hG4bK.2",
                            [{ localPort := some 5004, declared := [] },
                             { localPort := none, declared := [] }])] }]
            freePorts := [] }
      ∧ (MediaRelay.onRequest Relay.backend (sampleModule 0)
          (State.start busyRelay sampleInviteEvent)).trace.any Action.isRelease = false
      ∧ (MediaRelay.onRequest Relay.backend (sampleModule 0)
          (State.start busyRelay sampleInviteEvent)).backend.freePorts = []
      ∧ ((MediaRelay.onRequest Relay.backend (sampleModule 0)
          (State.start busyRelay sampleInviteEvent)).backend.calls[1]?).map
            (fun rc => rc.branches)
        = some [("z9hG4bK.1", [{ localPort := some 5002, declared := [] },
                               { localPort := none, declared := [] }])] := by
  refine ⟨?_, ?_, ?_, ?_, ?_⟩ <;> decide

/-- C11, as amended (no release on the early exit).  On the path on which
`processNewInvite` returns false after `initChannels` has run, the 500 "RTP port pool
exhausted" path, `onRequest` returns right after the reply: its trace holds neither
`removeBranch` nor `CallStore::remove`, and the backend is left as `initChannels` left it,
for a call found on the incoming transaction or in the CallStore as for a new one.  A
call created by this INVITE is not stored in the CallStore and no property is set on the
outgoing transaction: it is held by the property of the incoming transaction. -/
theorem port_exhaustion_keeps_channels (B : Backend H) (self : MediaRelay) (c : CallRef)
    (branchId : String) (st : State H) (from_tag : String) (m : Sdp)
    (hf : st.ev.msg.fromTag = some from_tag) (hp : createFromSipMsg st.ev.msg = some m)
    (hm : m.hasAttribute self.mSdpMangledParam = false)
    (hv : B.checkMediaValid (initBackend B st.ev.msg c m from_tag branchId st.backend) c = false)
    (h : H) (ev : SipEvent) (newContext : Bool) (ot : OutgoingTransaction)
    (hinv : ev.msg.method = SipMethod.invite)
    (hc : self.inviteContext B (State.start h ev) = (some (c, newContext), ot, st))
    (hb : ot.branchId = branchId) :
    (self.processNewInvite B c branchId st).1 = false
    ∧ (self.onRequest B (State.start h ev)).backend
        = initBackend B ev.msg c m from_tag branchId st.backend
    ∧ (∀ a ∈ (self.onRequest B (State.start h ev)).trace, a.isRelease = false)
    ∧ (self.onRequest B (State.start h ev)).trace.getLast?
        = some (Action.reply 500 "RTP port pool exhausted")
    ∧ (self.onRequest B (State.start h ev)).ev.outgoing = some ev.ot
    ∧ (∀ d, Action.store d ∉ (self.onRequest B (State.start h ev)).trace)
    ∧ (newContext = true →
        (self.onRequest B (State.start h ev)).ev.incoming = some { property := some c }
          ∧ c = (B.makeCall h ev.msg).1
          ∧ (self.onRequest B (State.start h ev)).backend
            = initBackend B ev.msg c m from_tag branchId
                (self.configureContext B c (admittedState B h ev)).backend) := by
  have h1 := processNewInvite_exhausted B self c branchId st from_tag m hf hp hm hv
  obtain ⟨-, hmsg, hout, -, hsetup⟩ := inviteContext_some B self h ev c newContext ot st hc
  have hrun : self.onRequest B (State.start h ev)
      = { backend := initBackend B st.ev.msg c m from_tag branchId st.backend
          ev := st.ev
          trace := st.trace ++ [initCall B st.ev.msg c from_tag branchId,
            Action.reply 500 "RTP port pool exhausted"] } := by
    rw [onRequest_invite B self h ev c newContext ot st hinv hc]
    subst hb
    simp [MediaRelay.relayInvite, h1]
  rw [hrun]
  refine ⟨by rw [h1], by rw [hmsg], ?_, ?_, hout, ?_, ?_⟩
  · intro a ha
    rcases List.mem_append.1 ha with hx | hx
    · exact ofSetup_not_release a (hsetup a hx)
    · simp only [initCall, List.mem_cons, List.not_mem_nil, or_false] at hx
      rcases hx with hx | hx <;> rw [hx] <;> rfl
  · simp [List.getLast?_append]
  · intro d hmem
    rcases List.mem_append.1 hmem with hx | hx
    · exact (ofSetup_kind _ (hsetup _ hx)).2.2.2.1 d rfl
    · simp [initCall] at hx
  · intro hnew
    subst hnew
    obtain ⟨hin, hcall, hit, hfind⟩ := inviteContext_new B self h ev c ot st hc
    refine ⟨hin, hcall, ?_⟩
    have hlim : ¬ self.limitReached B h := by
      intro hl
      rw [inviteContext_rejected B self h ev hit hfind hl] at hc
      simp at hc
    rw [inviteContext_admitted B self h ev hit hfind hlim] at hc
    simp only [Prod.mk.injEq] at hc
    obtain ⟨-, -, h3⟩ := hc
    rw [hmsg, ← h3, ← hcall]

theorem port_exhaustion_keeps_channels_witness :
    (∀ a ∈ (MediaRelay.onRequest Relay.backend (sampleModule 0)
        (State.start busyRelay sampleInviteEvent)).trace, a.isRelease = false)
      ∧ (MediaRelay.onRequest Relay.backend (sampleModule 0)
          (State.start busyRelay sampleInviteEvent)).ev.incoming = some { property := some 1 } :=
  have key := port_exhaustion_keeps_channels Relay.backend (sampleModule 0) 1 "z9hG4bK.1"
    (admittedState Relay.backend busyRelay sampleInviteEvent) "alice" sampleOffer
    (by rfl) (by rfl) (by rfl) (by rfl)
    busyRelay sampleInviteEvent true sampleInviteEvent.ot (by rfl) (by rfl) (by rfl)
  ⟨key.2.2.1, (key.2.2.2.2.2.2 rfl).1⟩

/-- When the object is not connected, the first hiredis call of `connect` is
`redisConnectWithTimeout` with the `struct timeval` of lines 60-61. -/
theorem connect_first_call (redis : Hiredis) (self : RegistrarDbRedisSync)
    (hn : self.isConnected = false) :
    (RegistrarDbRedisSync.connect redis self).2.2.head?
      = some (RedisCall.connectWithTimeout self.sDomain self.sPort
          (RegistrarDbRedisSync.connectTimeout self.sTimeout)) := by
  unfold RegistrarDbRedisSync.connect
  simp only [hn, Bool.false_eq_true, if_false]
  split
  · rfl
  · split
    · split <;> rfl
    · rfl

/-- For a timeout of `t >= 0` milliseconds, the `struct timeval` of lines 60-61 is
`{t / 1000, (t mod 1000) * 1000}` exactly when `t / 1000 = t mod 1000`, that is for the
multiples of 1001 below 1000000 only. -/
theorem connectTimeout_exact_iff (t : Int) (ht : 0 ≤ t) :
    RegistrarDbRedisSync.connectTimeout t = { tv_sec := t / 1000, tv_usec := (t % 1000) * 1000 }
      ↔ t / 1000 = t % 1000 := by
  have hdiv : Int.tdiv t 1000 = t / 1000 := Int.tdiv_eq_ediv ht (by decide)
  simp only [RegistrarDbRedisSync.connectTimeout, hdiv, Timeval.mk.injEq, true_and]
  omega

/-- C12, the code at a failing input.  For the configured timeout of 1500 milliseconds,
`connect` hands `redisConnectWithTimeout` the `struct timeval` `{1, 1499}`: 1 second and
1499 microseconds, that is 1001499 microseconds, and neither `tv_usec = 500000` nor
1500000 microseconds in all. -/
theorem connect_timeout_at_1500 :
    (RegistrarDbRedisSync.connect sampleHiredis (sampleRegistrar 1500)).2.2
        = [RedisCall.connectWithTimeout "localhost" 6379 { tv_sec := 1, tv_usec := 1499 }]
      ∧ (RegistrarDbRedisSync.connectTimeout 1500).tv_sec = 1500 / 1000
      ∧ (RegistrarDbRedisSync.connectTimeout 1500).tv_usec = 1499
      ∧ (RegistrarDbRedisSync.connectTimeout 1500).tv_usec ≠ (1500 % 1000) * 1000
      ∧ (RegistrarDbRedisSync.connectTimeout 1500).micros = 1001499
      ∧ (RegistrarDbRedisSync.connectTimeout 1500).micros ≠ 1500 * 1000 := by
  refine ⟨?_, ?_, ?_, ?_, ?_, ?_⟩ <;> decide


end Flexisip
